import Mathlib

/-!
# Drawing surface, scene editor and realtime session controllers

A shallow embedding of the three browser widgets of the repository
(`canvas.js`, `webgl.js`, `5g_integration.js`) and the properties their
specification states about them.

Browser and library services (the 2D rasteriser, the 3D engine, sockets) are
external: the rasteriser is taken as a parameter (`Surface`), user and network
events are the constructors of an operation type per controller.
-/

set_option autoImplicit false

/-! ## Drawing surface controller (`canvas.js`) -/

/-- A canvas-space position, as `getMousePos` returns it. -/
structure Point where
  x : Int
  y : Int
deriving DecidableEq, Repr

/-- One command recorded in the 2D context's current path. The arc of the
circle tool keeps the squared radius `(pos.x - lastX)^2 + (pos.y - lastY)^2`,
whose square root the source passes to `ctx.arc`. -/
inductive PathCmd where
  | moveTo (x y : Int)
  | lineTo (x y : Int)
  | arc (cx cy : Int) (radiusSq : Int)
deriving DecidableEq, Repr

/-- One painting call of the 2D context together with the context state it
reads: `lineWidth`, `strokeStyle` and `globalCompositeOperation`. -/
inductive Paint where
  | stroke (path : List PathCmd) (lineWidth : Nat) (strokeStyle : String)
      (composite : String)
  | strokeRect (x y w h : Int) (lineWidth : Nat) (strokeStyle : String)
      (composite : String)
deriving DecidableEq, Repr

/-- The browser's rasteriser over rasters of type `R`: what `clearRect` over
the whole canvas, a painting call, `drawImage(img, 0, 0)` under a compositing
mode, and a change of the canvas size followed by `putImageData` do to the
pixels, and which strings the 2D context parses as a colour. A snapshot made
by `toDataURL` and decoded again is the raster it was taken from. -/
structure Surface (R : Type) where
  clearRect : R → R
  paint : Paint → R → R
  drawImage : R → String → R → R
  resize : Nat → Nat → R → R
  isColor : String → Bool

/-- A message of the drawing widget's socket, by the entries
`handleRemoteDrawing` reads: `{type: 'drawing_update', tool, color, size,
position, user}`. The handler is given every message of the socket, so the
`position` entry may be absent (`none`). A `color` that is no colour and a
`size` of zero stand for the values the 2D context ignores. -/
structure DrawingUpdate where
  tool : String
  color : String
  size : Nat
  position : Option Point
  user : String
deriving DecidableEq, Repr

/-- A handler that raised: the error and the controller as the handler left
it. -/
structure Raised (σ : Type) where
  error : String
  state : σ

/-- A call `showNotification(message, type)`. -/
structure Notice where
  message : String
  type : String
deriving DecidableEq, Repr

/-- The outcome of the `fetch` of `saveCanvas()` or `saveScene()`, taken as an
input: a JSON body with its `status` and `session_id` entries (an absent entry
is `none`), or a failure (the request or the decoding of the body rejected). -/
inductive SaveResponse where
  | json (status : Option String) (session_id : Option String)
  | failed
deriving DecidableEq, Repr

/-- The fields of a `Canvas2D` instance that its drawing, history,
collaboration and save methods read or write, with the 2D context's raster,
current path and drawing state. `socketOpen` stands for
`socket && socket.readyState === WebSocket.OPEN`; `sent` collects what
`socket.send` was given and `notifications` the calls of `showNotification`,
oldest first. -/
structure Canvas2D (R : Type) where
  raster : R
  path : List PathCmd
  lineWidth : Nat
  strokeStyle : String
  globalCompositeOperation : String
  isDrawing : Bool
  currentTool : String
  currentColor : String
  currentSize : Nat
  lastX : Int
  lastY : Int
  history : List R
  historyStep : Int
  isCollaborative : Bool
  socketOpen : Bool
  currentUser : String
  sent : List DrawingUpdate
  sessionId : Option String
  notifications : List Notice

namespace Canvas2D

variable {R : Type}

/-- The controller after its constructor and `init()` ran on a canvas whose
raster is `blank`: empty history, cursor `-1`, pen tool, black, size 2;
`sessionId` is `options.sessionId || null`. -/
def new (blank : R) (collaborative : Bool) (user : String) (sessionId : Option String) :
    Canvas2D R :=
  { raster := blank
    path := []
    lineWidth := 1
    strokeStyle := "#000000"
    globalCompositeOperation := "source-over"
    isDrawing := false
    currentTool := "pen"
    currentColor := "#000000"
    currentSize := 2
    lastX := 0
    lastY := 0
    history := []
    historyStep := -1
    isCollaborative := collaborative
    socketOpen := false
    currentUser := user
    sent := []
    sessionId := sessionId
    notifications := [] }

/-- The method `saveState()`: advance the cursor, cut the history to the cursor
when the cursor is inside it (`history.length = historyStep`), push a snapshot
of the raster. (For a cursor below `-1`, which no method produces, the source's
assignment to `length` would throw; the cut is then to zero entries.) -/
def saveState (c : Canvas2D R) : Canvas2D R :=
  let step := c.historyStep + 1
  let h := if step < (c.history.length : Int) then c.history.take step.toNat else c.history
  { c with historyStep := step, history := h ++ [c.raster] }

/-- The method `restoreCanvasFromHistory()` with the image's `onload` run at
once: the snapshot at the cursor is decoded, the canvas cleared and the image
drawn; without a snapshot at the cursor no image loads and nothing is drawn. -/
def restoreCanvasFromHistory (S : Surface R) (c : Canvas2D R) : Canvas2D R :=
  if c.historyStep < 0 then c
  else
    match c.history.get? c.historyStep.toNat with
    | some img =>
      { c with raster := S.drawImage img c.globalCompositeOperation (S.clearRect c.raster) }
    | none => c

/-- The method `undo()`. -/
def undo (S : Surface R) (c : Canvas2D R) : Canvas2D R :=
  if c.historyStep > 0 then
    restoreCanvasFromHistory S { c with historyStep := c.historyStep - 1 }
  else c

/-- The method `redo()`. -/
def redo (S : Surface R) (c : Canvas2D R) : Canvas2D R :=
  if c.historyStep < (c.history.length : Int) - 1 then
    restoreCanvasFromHistory S { c with historyStep := c.historyStep + 1 }
  else c

/-- The method `clearCanvas()`. -/
def clearCanvas (S : Surface R) (c : Canvas2D R) : Canvas2D R :=
  saveState { c with raster := S.clearRect c.raster }

/-- The `img.onload` callback of `loadCanvas()` for a chosen image. -/
def loadCanvas (S : Surface R) (img : R) (c : Canvas2D R) : Canvas2D R :=
  saveState
    { c with raster := S.drawImage img c.globalCompositeOperation (S.clearRect c.raster) }

/-- The method `setTool(tool)` (the cursor style is not modelled). -/
def setTool (tool : String) (c : Canvas2D R) : Canvas2D R :=
  { c with currentTool := tool }

/-- The method `sendDrawingUpdate(pos)`. -/
def sendDrawingUpdate (pos : Point) (c : Canvas2D R) : Canvas2D R :=
  if c.socketOpen then
    { c with sent := c.sent ++
        [{ tool := c.currentTool, color := c.currentColor, size := c.currentSize,
           position := some pos, user := c.currentUser }] }
  else c

/-- The method `startDrawing(e)`, `pos` being `getMousePos(e)`. -/
def startDrawing (pos : Point) (c : Canvas2D R) : Canvas2D R :=
  let c1 := saveState { c with isDrawing := true, lastX := pos.x, lastY := pos.y }
  if c1.currentTool = "pen" ∨ c1.currentTool = "eraser" then
    { c1 with path := [PathCmd.moveTo pos.x pos.y] }
  else c1

/-- The tool switch inside `draw(e)`, after the context's `lineWidth`,
`strokeStyle` and `globalCompositeOperation` were set; `redrawCanvas()` has an
empty body in the source. -/
def drawTool (S : Surface R) (pos : Point) (c : Canvas2D R) : Canvas2D R :=
  if c.currentTool = "pen" ∨ c.currentTool = "eraser" then
    let p := c.path ++ [PathCmd.lineTo pos.x pos.y]
    { c with path := p,
             raster := S.paint
               (Paint.stroke p c.lineWidth c.strokeStyle c.globalCompositeOperation) c.raster }
  else if c.currentTool = "line" then
    let p := [PathCmd.moveTo c.lastX c.lastY, PathCmd.lineTo pos.x pos.y]
    { c with path := p,
             raster := S.paint
               (Paint.stroke p c.lineWidth c.strokeStyle c.globalCompositeOperation) c.raster }
  else if c.currentTool = "rectangle" then
    { c with raster := S.paint
               (Paint.strokeRect c.lastX c.lastY (pos.x - c.lastX) (pos.y - c.lastY)
                 c.lineWidth c.strokeStyle c.globalCompositeOperation) c.raster }
  else if c.currentTool = "circle" then
    let p := [PathCmd.arc c.lastX c.lastY ((pos.x - c.lastX) ^ 2 + (pos.y - c.lastY) ^ 2)]
    { c with path := p,
             raster := S.paint
               (Paint.stroke p c.lineWidth c.strokeStyle c.globalCompositeOperation) c.raster }
  else c

/-- The assignment `ctx.lineWidth = value`: the context ignores zero. -/
def setLineWidth (value : Nat) (c : Canvas2D R) : Canvas2D R :=
  if value = 0 then c else { c with lineWidth := value }

/-- The assignment `ctx.strokeStyle = value`: the context ignores a string it
does not parse as a colour. -/
def setStrokeStyle (S : Surface R) (value : String) (c : Canvas2D R) : Canvas2D R :=
  if S.isColor value then { c with strokeStyle := value } else c

/-- The three context assignments at the head of `draw(e)`: line width, stroke
colour (white for the eraser) and compositing mode (`destination-out` for the
eraser). -/
def prepareContext (S : Surface R) (c : Canvas2D R) : Canvas2D R :=
  { setStrokeStyle S (if c.currentTool = "eraser" then "#FFFFFF" else c.currentColor)
      (setLineWidth c.currentSize c) with
    globalCompositeOperation :=
      if c.currentTool = "eraser" then "destination-out" else "source-over" }

/-- The method `draw(e)`, `pos` being `getMousePos(e)`; the socket exists
exactly in collaborative mode. -/
def draw (S : Surface R) (pos : Point) (c : Canvas2D R) : Canvas2D R :=
  if c.isDrawing then
    if c.isCollaborative then sendDrawingUpdate pos (drawTool S pos (prepareContext S c))
    else drawTool S pos (prepareContext S c)
  else c

/-- The method `stopDrawing()`. -/
def stopDrawing (c : Canvas2D R) : Canvas2D R :=
  if c.isDrawing then { c with isDrawing := false, globalCompositeOperation := "source-over" }
  else c

/-- The method `handleRemoteDrawing(data)`: the local tool, colour and size
are kept aside, the remote ones written to the controller and to the context,
the segment to the remote position is stroked, and the kept values are written
back. Reading `data.position.x` raises when the message has no position: the
method ends there, after the remote values were written and before the kept
ones are written back. -/
def handleRemoteDrawing (S : Surface R) (data : DrawingUpdate) (c : Canvas2D R) :
    Except (Raised (Canvas2D R)) (Canvas2D R) :=
  if data.user = c.currentUser then .ok c
  else
    let prevTool := c.currentTool
    let prevColor := c.currentColor
    let prevSize := c.currentSize
    let c1 := { c with currentTool := data.tool, currentColor := data.color,
                       currentSize := data.size }
    let c2 := setStrokeStyle S c1.currentColor (setLineWidth c1.currentSize c1)
    match data.position with
    | none =>
      .error
        { error := "TypeError: data.position is undefined", state := c2 }
    | some position =>
      let p := c2.path ++ [PathCmd.lineTo position.x position.y]
      let c3 := { c2 with
        path := p,
        raster := S.paint
          (Paint.stroke p c2.lineWidth c2.strokeStyle c2.globalCompositeOperation) c2.raster }
      .ok { c3 with currentTool := prevTool, currentColor := prevColor, currentSize := prevSize }

/-- The controller after a handler ended, by returning or by raising. -/
def settle (r : Except (Raised (Canvas2D R)) (Canvas2D R)) : Canvas2D R :=
  match r with
  | .ok c => c
  | .error e => e.state

/-- A call `showNotification(message, type)` (the element it shows and removes
after 3 seconds is on the page only). -/
def showNotification (message type : String) (c : Canvas2D R) : Canvas2D R :=
  { c with notifications := c.notifications ++ [{ message := message, type := type }] }

/-- The method `saveCanvas()` from the moment its request is answered: the
`then` callbacks on a JSON body, the `catch` callback on a failure. An empty
`session_id` is falsy. -/
def saveCanvas (response : SaveResponse) (c : Canvas2D R) : Canvas2D R :=
  match response with
  | .json status session_id =>
    if status = some "success" then
      let c1 := showNotification "Canvas saved successfully!" "success" c
      match session_id with
      | some id => if id ≠ "" then { c1 with sessionId := some id } else c1
      | none => c1
    else showNotification "Failed to save canvas" "error" c
  | .failed => showNotification "Error saving canvas" "error" c

/-- The method `resizeCanvas()`: assigning the canvas size clears the raster
and resets the context, then the saved pixels are put back. -/
def resizeCanvas (S : Surface R) (w h : Nat) (c : Canvas2D R) : Canvas2D R :=
  { c with raster := S.resize w h c.raster,
           path := [],
           lineWidth := 1,
           strokeStyle := "#000000",
           globalCompositeOperation := "source-over" }

end Canvas2D

/-- The events the drawing controller reacts to: pointer (and translated touch)
events, toolbar and keyboard actions, a loaded image, an inbound collaboration
message, a window resize, the socket opening or closing, and the answer to a
save request. -/
inductive CanvasOp (R : Type) where
  | startDrawing (pos : Point)
  | draw (pos : Point)
  | stopDrawing
  | undo
  | redo
  | clearCanvas
  | loadCanvas (img : R)
  | setTool (tool : String)
  | setColor (color : String)
  | setSize (size : Nat)
  | remote (data : DrawingUpdate)
  | resize (w h : Nat)
  | socketOpen
  | socketClose
  | saveCanvas (response : SaveResponse)

namespace Canvas2D

variable {R : Type}

/-- One event handled by the controller; after a handler that raised, the
controller is as the handler left it. -/
def step (S : Surface R) (c : Canvas2D R) : CanvasOp R → Canvas2D R
  | .startDrawing pos => startDrawing pos c
  | .draw pos => draw S pos c
  | .stopDrawing => stopDrawing c
  | .undo => undo S c
  | .redo => redo S c
  | .clearCanvas => clearCanvas S c
  | .loadCanvas img => loadCanvas S img c
  | .setTool tool => setTool tool c
  | .setColor color => { c with currentColor := color }
  | .setSize size => { c with currentSize := size }
  | .remote data => settle (handleRemoteDrawing S data c)
  | .resize w h => resizeCanvas S w h c
  | .socketOpen => if c.isCollaborative then { c with socketOpen := true } else c
  | .socketClose => { c with socketOpen := false }
  | .saveCanvas response => saveCanvas response c

/-- The controller after a sequence of events, oldest first. -/
def run (S : Surface R) (c : Canvas2D R) (ops : List (CanvasOp R)) : Canvas2D R :=
  ops.foldl (step S) c

/-- The states the controller reaches from its constructor. -/
def Reachable (S : Surface R) (c : Canvas2D R) : Prop :=
  ∃ (blank : R) (collaborative : Bool) (user : String) (sessionId : Option String)
    (ops : List (CanvasOp R)),
    c = run S (new blank collaborative user sessionId) ops

/-- One stroke: `startDrawing`, then `draw` at each further position, then
`stopDrawing`. -/
def stroke (S : Surface R) (start : Point) (moves : List Point) (c : Canvas2D R) :
    Canvas2D R :=
  stopDrawing (moves.foldl (fun c pos => draw S pos c) (startDrawing start c))

/-- Strokes performed one after the other. -/
def strokes (S : Surface R) (ss : List (Point × List Point)) (c : Canvas2D R) :
    Canvas2D R :=
  ss.foldl (fun c s => stroke S s.1 s.2 c) c

/-- The method `undo()` called `n` times. -/
def undoN (S : Surface R) : Nat → Canvas2D R → Canvas2D R
  | 0, c => c
  | n + 1, c => undoN S n (undo S c)

end Canvas2D

/-- Whether a character is a hexadecimal digit. -/
def isHexDigit (ch : Char) : Bool :=
  ch.isDigit || (97 ≤ ch.toNat && ch.toNat ≤ 102) || (65 ≤ ch.toNat && ch.toNat ≤ 70)

/-- Whether a string is a colour in hexadecimal notation, `#rgb` or
`#rrggbb`. -/
def isHexColor (s : String) : Bool :=
  match s.data with
  | '#' :: digits => (digits.length = 3 || digits.length = 6) && digits.all isHexDigit
  | _ => false

/-- A display-list rasteriser: the raster is the list of painting calls since
the canvas was last cleared. `drawImage` is exact on a cleared destination,
the only destination the controller draws an image on: under `source-over`
the image appears, under `destination-out` nothing does. Colours are read in
hexadecimal notation, the notation of the colour input and of the literals of
the program. -/
def displayList : Surface (List Paint) where
  clearRect := fun _ => []
  paint := fun p r => r ++ [p]
  drawImage := fun img composite dst => if composite = "source-over" then dst ++ img else dst
  resize := fun _ _ r => r
  isColor := isHexColor

/-! ## Realtime session controller (`5g_integration.js`) -/

/-- The `readyState` of a WebSocket. -/
inductive ReadyState where
  | CONNECTING
  | OPEN
  | CLOSING
  | CLOSED
deriving DecidableEq, Repr

/-- What a timer of the session controller runs: the callbacks of the
`setInterval` calls in `setupNetworkMonitoring`, `startPerformanceMonitoring`
and `startDataStream`, and of the `setTimeout` in `attemptReconnection`. -/
inductive TimerAction where
  | measureLatency
  | collectPerformanceMetrics
  | sendCanvasData
  | reconnect
deriving DecidableEq, Repr

/-- A scheduled timer: the handle `setInterval` or `setTimeout` returned,
whether it repeats, its delay in milliseconds and its callback. -/
structure Timer where
  handle : Nat
  repeating : Bool
  delay : Nat
  action : TimerAction
deriving DecidableEq, Repr

/-- The platform's `navigator.connection` as the controller reads it. -/
structure NetworkInfo where
  effectiveType : Option String
  downlink : ℚ
deriving DecidableEq, Repr

/-- An inbound message of the control or media channel: its `type` tag and
the entries the handlers read (an absent entry is `none`). -/
structure ControlMessage where
  type : String
  userId : Option String
  dataType : Option String
  action : Option String
  error : Option String
deriving DecidableEq, Repr

/-- A message given to `sendData`, by its `type`. -/
inductive Outbound where
  | handshake (userId : String) (sessionId : Option String) (webrtc mediaDevices : Bool)
      (networkSlicing edgeComputing : Bool) (timestamp : Int)
  | ping (timestamp : Int) (userId : String)
  | webrtc_offer (userId : String)
  | webrtc_answer (userId : String) (targetPeer : Option String)
  | ice_candidate (userId : String) (targetPeer : Option String)
  | screen_share (action : String) (userId : String)
  | data_stream_start (streamId : Int) (userId : String)
  | real_time_data (dataType : String) (timestamp : Int) (userId : String)
  | performance_metrics (latency : List Int) (throughput : ℚ) (connectionQuality : String)
      (activePeers dataChannels : Nat) (userId : String) (timestamp : Int)
deriving DecidableEq, Repr

/-- How `startVideoCall()` went: camera and microphone capture rejected, the
capture succeeded and the connection was made but creating or setting the
offer rejected, or all of it succeeded. -/
inductive CallOutcome where
  | captureFailed
  | offerFailed
  | ok
deriving DecidableEq, Repr

/-- A capture request: `getUserMedia` (kind `user`) or `getDisplayMedia` (kind
`display`) with the `video` constraints given. -/
structure CaptureRequest where
  kind : String
  width : Nat
  height : Nat
  frameRate : Nat
deriving DecidableEq, Repr

/-- An inbound payload handed to a peer connection:
`setRemoteDescription(data.answer)` or `addIceCandidate(data.candidate)` on the
connection with the given reference. -/
inductive Applied where
  | answer (connection : Nat)
  | candidate (connection : Nat)
deriving DecidableEq, Repr

/-- The fields of a `FiveGIntegration` instance with the timers it has
scheduled. `connections` holds, for every `RTCPeerConnection` made by
`createPeerConnection`, the `peerId` it was made for (`none` is `null`); a
reference to a connection, and to the one data channel it carries, is its
index. `peerConnections` and `dataChannels` are the two maps, in insertion
order. `networkInfo` is `navigator.connection` when the platform has it;
`webrtc` and `mediaDevices` are what `checkWebRTCSupport()` and
`checkMediaDevicesSupport()` return; `hasCanvas` stands for
`window.canvas2d || window.canvas3d`. `sent` collects what the data socket was
given, `notifications` the calls of `showNotification`, `captureRequests` the
capture requests made and `applied` the answers and candidates handed to
connections, oldest first. -/
structure FiveGIntegration where
  sessionId : Option String
  userId : String
  isConnected : Bool
  dataSocket : Option ReadyState
  mediaSocket : Option ReadyState
  peerConnection : Option Nat
  peerConnections : List (String × Nat)
  connections : List (Option String)
  dataChannels : List (Option String × Nat)
  localStream : Bool
  networkSlicing : Bool
  edgeComputing : Bool
  massiveIoT : Bool
  latencyStats : List Int
  connectionQuality : String
  networkInfo : Option NetworkInfo
  videoQuality : Option String
  frameRate : Option Nat
  timers : List Timer
  nextHandle : Nat
  dataStreamInterval : Option Nat
  webrtc : Bool
  mediaDevices : Bool
  hasCanvas : Bool
  sent : List Outbound
  notifications : List Notice
  captureRequests : List CaptureRequest
  applied : List Applied
deriving DecidableEq, Repr

/-- The call `map.set(key, value)` on a map kept in insertion order. -/
def mapSet {α β : Type} [DecidableEq α] (m : List (α × β)) (key : α) (value : β) :
    List (α × β) :=
  if m.any (fun e => e.1 = key) then m.map (fun e => if e.1 = key then (key, value) else e)
  else m ++ [(key, value)]

/-- The call `map.get(key)`. -/
def mapGet {α β : Type} [DecidableEq α] (m : List (α × β)) (key : α) : Option β :=
  (m.find? (fun e => e.1 = key)).map (fun e => e.2)

/-- Whether a peer identifier is truthy: `null` and the empty string are
not. -/
def truthyId (peerId : Option String) : Bool :=
  match peerId with
  | some s => decide (s ≠ "")
  | none => false

namespace FiveGIntegration

/-- The average `latencyStats.reduce((a, b) => a + b, 0) / latencyStats.length`
of a window, as an exact quotient. -/
def avgLatency (stats : List Int) : ℚ :=
  (stats.sum : ℚ) / (stats.length : ℚ)

/-- The tier chain of `updateLatencyStats` on an average. -/
def qualityOf (avg : ℚ) : String :=
  if avg < 10 then "excellent"
  else if avg < 50 then "good"
  else if avg < 100 then "fair"
  else "poor"

/-- The window after `latencyStats.push(latency)` and, above 100 entries,
`latencyStats.shift()`. -/
def pushLatency (stats : List Int) (latency : Int) : List Int :=
  let pushed := stats ++ [latency]
  if pushed.length > 100 then pushed.tail else pushed

/-- The method `updateLatencyStats(latency)` (the two display updates write to
the page only). -/
def updateLatencyStats (c : FiveGIntegration) (latency : Int) : FiveGIntegration :=
  let stats := pushLatency c.latencyStats latency
  { c with latencyStats := stats, connectionQuality := qualityOf (avgLatency stats) }

/-- Samples passed one by one to `updateLatencyStats`, oldest first. -/
def feed (c : FiveGIntegration) (samples : List Int) : FiveGIntegration :=
  samples.foldl updateLatencyStats c

/-- The method `sendData(data)`. -/
def sendData (c : FiveGIntegration) (data : Outbound) : FiveGIntegration :=
  if c.dataSocket = some ReadyState.OPEN then { c with sent := c.sent ++ [data] } else c

/-- The method `showNotification(message, type)` (the element it shows and
removes after 3 seconds is on the page only). -/
def showNotification (c : FiveGIntegration) (message type : String) : FiveGIntegration :=
  { c with notifications := c.notifications ++ [{ message := message, type := type }] }

/-- A call `setInterval(callback, delay)`; the handle is returned. -/
def setInterval (c : FiveGIntegration) (action : TimerAction) (delay : Nat) :
    FiveGIntegration × Nat :=
  ({ c with
     timers := c.timers ++
       [{ handle := c.nextHandle, repeating := true, delay := delay, action := action }]
     nextHandle := c.nextHandle + 1 }, c.nextHandle)

/-- A call `setTimeout(callback, delay)`. -/
def setTimeout (c : FiveGIntegration) (action : TimerAction) (delay : Nat) :
    FiveGIntegration :=
  { c with
    timers := c.timers ++
      [{ handle := c.nextHandle, repeating := false, delay := delay, action := action }]
    nextHandle := c.nextHandle + 1 }

/-- A call `clearInterval(handle)`. -/
def clearInterval (c : FiveGIntegration) (handle : Nat) : FiveGIntegration :=
  { c with timers := c.timers.filter (fun t => t.handle ≠ handle) }

/-- The method `setOptimizationLevel(level)`. -/
def setOptimizationLevel (c : FiveGIntegration) (level : String) : FiveGIntegration :=
  if level = "ultra" then { c with videoQuality := some "4k", frameRate := some 60 }
  else if level = "high" then { c with videoQuality := some "1080p", frameRate := some 30 }
  else if level = "medium" then { c with videoQuality := some "720p", frameRate := some 24 }
  else if level = "low" then { c with videoQuality := some "480p", frameRate := some 15 }
  else c

/-- The method `optimizeForNetworkConditions()` on the platform's effective
connection class. -/
def optimizeForNetworkConditions (c : FiveGIntegration) (effectiveType : Option String) :
    FiveGIntegration :=
  if effectiveType = some "4g" then c.setOptimizationLevel "high"
  else if effectiveType = some "3g" then c.setOptimizationLevel "medium"
  else if effectiveType = some "2g" then c.setOptimizationLevel "low"
  else c.setOptimizationLevel "ultra"

/-- The method `updateNetworkInfo()` (the throughput display is on the page
only). -/
def updateNetworkInfo (c : FiveGIntegration) : FiveGIntegration :=
  match c.networkInfo with
  | some info => c.optimizeForNetworkConditions info.effectiveType
  | none => c

/-- The method `setupWebSockets()`: two new sockets, connecting. -/
def setupWebSockets (c : FiveGIntegration) : FiveGIntegration :=
  { c with dataSocket := some ReadyState.CONNECTING, mediaSocket := some ReadyState.CONNECTING }

/-- The method `setupNetworkMonitoring()`: the interval's handle is not
kept. -/
def setupNetworkMonitoring (c : FiveGIntegration) : FiveGIntegration :=
  (c.updateNetworkInfo.setInterval TimerAction.measureLatency 1000).1

/-- The method `startPerformanceMonitoring()`: the interval's handle is not
kept. -/
def startPerformanceMonitoring (c : FiveGIntegration) : FiveGIntegration :=
  (c.setInterval TimerAction.collectPerformanceMetrics 5000).1

/-- The method `init()` (`setupWebRTC()` stores a constant configuration and
`setupUI()` writes to the page only). -/
def init (c : FiveGIntegration) : FiveGIntegration :=
  c.setupWebSockets.setupNetworkMonitoring.startPerformanceMonitoring

/-- The controller after its constructor, which ends with `init()`: `user` is
`window.currentUser`, the three flags are `options.networkSlicing || false`
and its siblings. -/
def new (sessionId : Option String) (user : Option String)
    (networkSlicing edgeComputing massiveIoT : Bool) (networkInfo : Option NetworkInfo)
    (webrtc mediaDevices hasCanvas : Bool) : FiveGIntegration :=
  init
    { sessionId := sessionId
      userId := if truthyId user then user.getD "anonymous" else "anonymous"
      isConnected := false
      dataSocket := none
      mediaSocket := none
      peerConnection := none
      peerConnections := []
      connections := []
      dataChannels := []
      localStream := false
      networkSlicing := networkSlicing
      edgeComputing := edgeComputing
      massiveIoT := massiveIoT
      latencyStats := []
      connectionQuality := "excellent"
      networkInfo := networkInfo
      videoQuality := none
      frameRate := none
      timers := []
      nextHandle := 1
      dataStreamInterval := none
      webrtc := webrtc
      mediaDevices := mediaDevices
      hasCanvas := hasCanvas
      sent := []
      notifications := []
      captureRequests := []
      applied := [] }

/-- The method `sendHandshake()` at clock reading `now`. -/
def sendHandshake (c : FiveGIntegration) (now : Int) : FiveGIntegration :=
  c.sendData
    (Outbound.handshake c.userId c.sessionId c.webrtc c.mediaDevices c.networkSlicing
      c.edgeComputing now)

/-- The method `attemptReconnection()`: one timeout of 3000 ms. -/
def attemptReconnection (c : FiveGIntegration) : FiveGIntegration :=
  c.setTimeout TimerAction.reconnect 3000

/-- The `onopen` handler of the data socket, the socket now being open. -/
def onDataSocketOpen (c : FiveGIntegration) (now : Int) : FiveGIntegration :=
  { c with dataSocket := some ReadyState.OPEN, isConnected := true }.sendHandshake now

/-- The `onclose` handler of the data socket, the socket now being closed. -/
def onDataSocketClose (c : FiveGIntegration) : FiveGIntegration :=
  { c with dataSocket := some ReadyState.CLOSED, isConnected := false }.attemptReconnection

/-- The `onerror` handler of the data socket: `handleConnectionError`. -/
def onDataSocketError (c : FiveGIntegration) : FiveGIntegration :=
  c.showNotification "Connection error occurred" "error"

/-- The media socket opening: its `onopen` handler only logs. -/
def onMediaSocketOpen (c : FiveGIntegration) : FiveGIntegration :=
  { c with mediaSocket := some ReadyState.OPEN }

/-- The media socket closing: `initMediaSocket()` sets no `onclose` handler,
so only the socket's state changes. -/
def onMediaSocketClose (c : FiveGIntegration) : FiveGIntegration :=
  { c with mediaSocket := some ReadyState.CLOSED }

/-- The method `createPeerConnection(peerId)`: a new connection with its data
channel; with a truthy `peerId` it is stored in the `peerConnections` map,
otherwise in `this.peerConnection`. The reference is returned. -/
def createPeerConnection (c : FiveGIntegration) (peerId : Option String) :
    FiveGIntegration × Nat :=
  let r := c.connections.length
  let c1 := { c with connections := c.connections ++ [peerId] }
  match peerId with
  | some s =>
    if s ≠ "" then ({ c1 with peerConnections := mapSet c1.peerConnections s r }, r)
    else ({ c1 with peerConnection := some r }, r)
  | none => ({ c1 with peerConnection := some r }, r)

/-- The `onopen` handler of the data channel of connection `r`:
`dataChannels.set(peerId, dataChannel)` with the `peerId` the connection was
made for. -/
def onDataChannelOpen (c : FiveGIntegration) (r : Nat) : FiveGIntegration :=
  match c.connections.get? r with
  | some peerId => { c with dataChannels := mapSet c.dataChannels peerId r }
  | none => c

/-- The `onicecandidate` handler of connection `r` for a candidate. -/
def onIceCandidate (c : FiveGIntegration) (r : Nat) : FiveGIntegration :=
  match c.connections.get? r with
  | some peerId => c.sendData (Outbound.ice_candidate c.userId peerId)
  | none => c

/-- The `video` constraints `startVideoCall()` hands to `getUserMedia`: the
literals of the source. -/
def videoCallRequest : CaptureRequest :=
  { kind := "user", width := 1280, height := 720, frameRate := 30 }

/-- The `video` constraints `startScreenShare()` hands to `getDisplayMedia`. -/
def screenShareRequest : CaptureRequest :=
  { kind := "display", width := 1920, height := 1080, frameRate := 60 }

/-- The method `startVideoCall()` with the outcome of its awaited steps: the
capture is requested first, whatever follows. -/
def startVideoCall (c : FiveGIntegration) (outcome : CallOutcome) : FiveGIntegration :=
  let c0 : FiveGIntegration :=
    { c with captureRequests := c.captureRequests ++ [videoCallRequest] }
  match outcome with
  | .captureFailed => c0.showNotification "Failed to start video call" "error"
  | .offerFailed =>
    (({ c0 with localStream := true } : FiveGIntegration).createPeerConnection none).1.showNotification
      "Failed to start video call" "error"
  | .ok =>
    let c1 := (({ c0 with localStream := true } : FiveGIntegration).createPeerConnection none).1
    (c1.sendData (Outbound.webrtc_offer c1.userId)).showNotification "Video call started"
      "success"

/-- The method `startScreenShare()`, `captured` telling whether the display
capture succeeded. Inside the `try`, the first statement after the capture
calls `this.addScreenStream`, which is not defined on the class: the call
raises and the statements after it do not run; the `catch` shows the failure
notice for a rejected capture and for a raise alike. -/
def startScreenShare (c : FiveGIntegration) (captured : Bool) : FiveGIntegration :=
  let c0 : FiveGIntegration :=
    { c with captureRequests := c.captureRequests ++ [screenShareRequest] }
  let attempt : Except String FiveGIntegration :=
    if captured then
      (Except.error "TypeError: this.addScreenStream is not a function" : Except String Unit).bind
        (fun _ =>
          .ok ((c0.sendData (Outbound.screen_share "start" c0.userId)).showNotification
            "Screen sharing started" "success"))
    else .error "capture rejected"
  match attempt with
  | .ok c1 => c1
  | .error _ => c0.showNotification "Failed to start screen sharing" "error"

/-- The method `handleWebRTCOffer(data)` up to its first `await`: the
connection for the offering peer is created. -/
def handleWebRTCOffer (c : FiveGIntegration) (data : ControlMessage) : FiveGIntegration :=
  (c.createPeerConnection data.userId).1

/-- The rest of `handleWebRTCOffer(data)` once the answer is set: it is sent
to the offering peer. -/
def sendAnswer (c : FiveGIntegration) (peer : Option String) : FiveGIntegration :=
  c.sendData (Outbound.webrtc_answer c.userId peer)

/-- The connection `handleWebRTCAnswer` and `handleICECandidate` apply their
payload to: `peerConnections.get(data.userId) || this.peerConnection`. -/
def targetConnection (c : FiveGIntegration) (data : ControlMessage) : Option Nat :=
  match data.userId with
  | some s =>
    match mapGet c.peerConnections s with
    | some r => some r
    | none => c.peerConnection
  | none => c.peerConnection

/-- The method `handleWebRTCAnswer(data)`: the answer is handed to the target
connection when there is one. -/
def handleWebRTCAnswer (c : FiveGIntegration) (data : ControlMessage) : FiveGIntegration :=
  match c.targetConnection data with
  | some r => { c with applied := c.applied ++ [Applied.answer r] }
  | none => c

/-- The method `handleICECandidate(data)`: the candidate is handed to the
target connection when there is one. -/
def handleICECandidate (c : FiveGIntegration) (data : ControlMessage) : FiveGIntegration :=
  match c.targetConnection data with
  | some r => { c with applied := c.applied ++ [Applied.candidate r] }
  | none => c

/-- The method `handleRealTimeData(data)`: the three handlers it names are not
defined on the class, so calling one raises. -/
def handleRealTimeData (c : FiveGIntegration) (data : ControlMessage) :
    Except String FiveGIntegration :=
  if data.dataType = some "canvas_update" then
    .error "TypeError: this.updateRemoteCanvas is not a function"
  else if data.dataType = some "cursor_position" then
    .error "TypeError: this.updateRemoteCursor is not a function"
  else if data.dataType = some "voice_data" then
    .error "TypeError: this.processVoiceData is not a function"
  else .ok c

/-- The method `handleEdgeResponse(data)`: `handleEdgeProcessingResult` is not
defined on the class. -/
def handleEdgeResponse (c : FiveGIntegration) (data : ControlMessage) :
    Except String FiveGIntegration :=
  if data.action = some "deployment_complete" then
    .ok (c.showNotification "Edge deployment successful" "success")
  else if data.action = some "processing_result" then
    .error "TypeError: this.handleEdgeProcessingResult is not a function"
  else if data.action = some "edge_error" then
    .ok (c.showNotification ("Edge error: " ++ data.error.getD "undefined") "error")
  else .ok c

/-- The `switch` of `handleDataMessage(data)`. `handleHandshakeResponse`,
`handlePeerJoin`, `handlePeerLeave` and `handleCanvasUpdate` are not defined on
the class, so calling one raises; the three WebRTC handlers are `async`, their
call returns a promise and never raises. -/
def dispatchData (c : FiveGIntegration) (data : ControlMessage) :
    Except String FiveGIntegration :=
  if data.type = "handshake_response" then
    .error "TypeError: this.handleHandshakeResponse is not a function"
  else if data.type = "peer_join" then
    .error "TypeError: this.handlePeerJoin is not a function"
  else if data.type = "peer_leave" then
    .error "TypeError: this.handlePeerLeave is not a function"
  else if data.type = "webrtc_offer" then .ok (c.handleWebRTCOffer data)
  else if data.type = "webrtc_answer" then .ok (c.handleWebRTCAnswer data)
  else if data.type = "ice_candidate" then .ok (c.handleICECandidate data)
  else if data.type = "canvas_update" then
    .error "TypeError: this.handleCanvasUpdate is not a function"
  else if data.type = "real_time_data" then c.handleRealTimeData data
  else if data.type = "edge_response" then c.handleEdgeResponse data
  else .ok c

/-- The method `handleDataMessage(data)`: `startTime` and `endTime` are the
readings of `Date.now()` before and after the `switch`; when the `switch`
raises, the method ends there. -/
def handleDataMessage (c : FiveGIntegration) (data : ControlMessage) (startTime endTime : Int) :
    Except String FiveGIntegration :=
  match c.dispatchData data with
  | .ok c1 => .ok (c1.updateLatencyStats (endTime - startTime))
  | .error e => .error e

/-- The method `handleMediaMessage(data)`: `handleVideoStream`,
`handleAudioStream` and `handleScreenShare` are not defined on the class. -/
def handleMediaMessage (c : FiveGIntegration) (data : ControlMessage) :
    Except String FiveGIntegration :=
  if data.type = "video_stream" then
    .error "TypeError: this.handleVideoStream is not a function"
  else if data.type = "audio_stream" then
    .error "TypeError: this.handleAudioStream is not a function"
  else if data.type = "screen_share" then
    .error "TypeError: this.handleScreenShare is not a function"
  else .ok c

/-- The method `measureLatency()` at clock reading `now`. -/
def measureLatency (c : FiveGIntegration) (now : Int) : FiveGIntegration :=
  c.sendData (Outbound.ping now c.userId)

/-- The method `collectPerformanceMetrics()` at clock reading `now`. -/
def collectPerformanceMetrics (c : FiveGIntegration) (now : Int) : FiveGIntegration :=
  c.sendData
    (Outbound.performance_metrics (c.latencyStats.drop (c.latencyStats.length - 10))
      (match c.networkInfo with
       | some info => info.downlink
       | none => 0)
      c.connectionQuality c.peerConnections.length c.dataChannels.length c.userId now)

/-- The method `sendCanvasData()` at clock reading `now` (the entries read from
the two canvas controllers are left out). -/
def sendCanvasData (c : FiveGIntegration) (now : Int) : FiveGIntegration :=
  c.sendData (Outbound.real_time_data "canvas_update" now c.userId)

/-- The method `startDataStream()` at clock reading `now`. -/
def startDataStream (c : FiveGIntegration) (now : Int) : FiveGIntegration :=
  let c1 := c.sendData (Outbound.data_stream_start now c.userId)
  let (c2, handle) := c1.setInterval TimerAction.sendCanvasData 16
  { c2 with dataStreamInterval := some handle }.showNotification
    "Real-time data streaming started" "success"

/-- The callback of a timer. -/
def runTimer (c : FiveGIntegration) (action : TimerAction) (now : Int) : FiveGIntegration :=
  match action with
  | .measureLatency => c.measureLatency now
  | .collectPerformanceMetrics => c.collectPerformanceMetrics now
  | .sendCanvasData => if c.hasCanvas then c.sendCanvasData now else c
  | .reconnect => if c.isConnected then c else c.init

/-- A scheduled timer fires at clock reading `now`: a timeout leaves the
schedule, then the callback runs. -/
def fireTimer (c : FiveGIntegration) (handle : Nat) (now : Int) : FiveGIntegration :=
  match c.timers.find? (fun t => t.handle = handle) with
  | some t =>
    if t.repeating then c.runTimer t.action now
    else ({ c with timers := c.timers.filter (fun u => u.handle ≠ handle) }).runTimer t.action now
  | none => c

/-- The call `socket.close()`: a socket not yet closed starts closing; its
close event comes later. -/
def closeSocket (s : Option ReadyState) : Option ReadyState :=
  match s with
  | some ReadyState.CLOSED => some ReadyState.CLOSED
  | some _ => some ReadyState.CLOSING
  | none => none

/-- The method `destroy()`: both sockets are closed, the connections of the
map are closed, the `dataChannels` map is cleared, the local tracks are
stopped, and the data-stream interval, the only timer whose handle is kept, is
cleared. -/
def destroy (c : FiveGIntegration) : FiveGIntegration :=
  let c1 := { c with
    dataSocket := closeSocket c.dataSocket
    mediaSocket := closeSocket c.mediaSocket
    dataChannels := [] }
  match c1.dataStreamInterval with
  | some handle => c1.clearInterval handle
  | none => c1

end FiveGIntegration

/-- The events the session controller reacts to: socket events, inbound
messages with the clock readings around their dispatch, a timer firing, the
dashboard's call and stream buttons, events of a peer connection and its data
channel, a change of the platform's connection, and teardown. -/
inductive SessionOp where
  | dataSocketOpen (now : Int)
  | dataSocketClose
  | dataSocketError
  | dataMessage (data : ControlMessage) (startTime endTime : Int)
  | mediaSocketOpen
  | mediaSocketClose
  | mediaMessage (data : ControlMessage)
  | timer (handle : Nat) (now : Int)
  | startVideoCall (outcome : CallOutcome)
  | startScreenShare (captured : Bool)
  | startDataStream (now : Int)
  | dataChannelOpen (r : Nat)
  | iceCandidate (r : Nat)
  | answerSet (peer : Option String)
  | networkChange (info : NetworkInfo)
  | destroy

namespace FiveGIntegration

/-- One event handled by the controller. A handler that raises ends there; the
raising calls of this model come before any assignment, so the controller is
then as it was. -/
def step (c : FiveGIntegration) : SessionOp → FiveGIntegration
  | .dataSocketOpen now => c.onDataSocketOpen now
  | .dataSocketClose => c.onDataSocketClose
  | .dataSocketError => c.onDataSocketError
  | .dataMessage data startTime endTime =>
    match c.handleDataMessage data startTime endTime with
    | .ok c1 => c1
    | .error _ => c
  | .mediaSocketOpen => c.onMediaSocketOpen
  | .mediaSocketClose => c.onMediaSocketClose
  | .mediaMessage data =>
    match c.handleMediaMessage data with
    | .ok c1 => c1
    | .error _ => c
  | .timer handle now => c.fireTimer handle now
  | .startVideoCall outcome => c.startVideoCall outcome
  | .startScreenShare captured => c.startScreenShare captured
  | .startDataStream now => c.startDataStream now
  | .dataChannelOpen r => c.onDataChannelOpen r
  | .iceCandidate r => c.onIceCandidate r
  | .answerSet peer => c.sendAnswer peer
  | .networkChange info =>
    match c.networkInfo with
    | some _ => { c with networkInfo := some info }.updateNetworkInfo
    | none => c
  | .destroy => c.destroy

/-- The controller after a sequence of events, oldest first. -/
def run (c : FiveGIntegration) (ops : List SessionOp) : FiveGIntegration :=
  ops.foldl step c

/-- The states the controller reaches from its constructor. -/
def Reachable (c : FiveGIntegration) : Prop :=
  ∃ (sessionId user : Option String) (networkSlicing edgeComputing massiveIoT : Bool)
    (networkInfo : Option NetworkInfo) (webrtc mediaDevices hasCanvas : Bool)
    (ops : List SessionOp),
    c = run (new sessionId user networkSlicing edgeComputing massiveIoT networkInfo webrtc
      mediaDevices hasCanvas) ops

end FiveGIntegration

/-! ## Scene editor controller (`webgl.js`) -/

/-- A number of the scene editor, kept exact as `rat + pi * π`: coordinates,
sizes and opacities are rational, the angles the program computes
(`-Math.PI / 2`, `degrees * Math.PI / 180`) are rational multiples of π. -/
structure JsNumber where
  rat : ℚ
  pi : ℚ
deriving DecidableEq

/-- A rational number of the scene editor. -/
def JsNumber.ofRat (q : ℚ) : JsNumber := ⟨q, 0⟩

/-- Addition of two numbers. -/
def JsNumber.add (a b : JsNumber) : JsNumber := ⟨a.rat + b.rat, a.pi + b.pi⟩

/-- A `THREE.Vector3`. -/
structure Vec3 where
  x : JsNumber
  y : JsNumber
  z : JsNumber
deriving DecidableEq

/-- The axis argument `'x'`, `'y'` or `'z'` of the property-panel handlers. -/
inductive Axis where
  | x
  | y
  | z
deriving DecidableEq, Repr

/-- The assignment `v[axis] = n`. -/
def Vec3.setAxis (v : Vec3) : Axis → JsNumber → Vec3
  | .x, n => { v with x := n }
  | .y, n => { v with y := n }
  | .z, n => { v with z := n }

/-- A vector of three rational coordinates. -/
def Vec3.ofRat (x y z : ℚ) : Vec3 := ⟨JsNumber.ofRat x, JsNumber.ofRat y, JsNumber.ofRat z⟩

/-- The three angles of a `THREE.Euler`, which it keeps in its properties
`_x`, `_y`, `_z` and shows through the accessors `x`, `y`, `z`. An angle is
`none` after `set` stored `undefined` in it. -/
structure Euler where
  x : Option JsNumber
  y : Option JsNumber
  z : Option JsNumber
deriving DecidableEq

/-- The assignment `rotation[axis] = n`. -/
def Euler.setAxis (e : Euler) : Axis → JsNumber → Euler
  | .x, n => { e with x := some n }
  | .y, n => { e with y := some n }
  | .z, n => { e with z := some n }

/-- Three rational angles. -/
def Euler.ofRat (x y z : ℚ) : Euler :=
  ⟨some (JsNumber.ofRat x), some (JsNumber.ofRat y), some (JsNumber.ofRat z)⟩

/-- The material fields the editor reads and writes. -/
structure Material where
  color : Nat
  opacity : JsNumber
  transparent : Bool
deriving DecidableEq

/-- An object of the 3D engine's scene graph. A reference to an object is its
index in the controller's `heap`; `children` are references. `type` is
`userData.type`. -/
structure Object3D where
  name : String
  type : Option String
  position : Vec3
  rotation : Euler
  scale : Vec3
  material : Option Material
  children : List Nat
deriving DecidableEq

/-- The `material` entry of a serialized object. -/
structure MaterialData where
  color : Nat
  opacity : JsNumber
deriving DecidableEq

/-- The `rotation` entry of a scene message, by the entries the program
writes or reads (an absent entry is `none`). `JSON.stringify` writes a
`THREE.Euler` by its own properties, `{_x, _y, _z, _order}`;
`createObjectFromData` and `updateObjectFromData` read `rotation.x`,
`rotation.y` and `rotation.z`. Nothing reads `_order`. -/
structure RotationData where
  x : Option JsNumber
  y : Option JsNumber
  z : Option JsNumber
  _x : Option JsNumber
  _y : Option JsNumber
  _z : Option JsNumber
deriving DecidableEq

/-- A rotation entry written as `{x, y, z}`, the notation of the position and
scale entries. -/
def RotationData.ofXYZ (x y z : ℚ) : RotationData :=
  { x := some (JsNumber.ofRat x), y := some (JsNumber.ofRat y), z := some (JsNumber.ofRat z),
    _x := none, _y := none, _z := none }

/-- A rotation entry as `JSON.stringify` writes a `THREE.Euler`: an angle that
is `undefined` is left out. -/
def RotationData.ofEuler (e : Euler) : RotationData :=
  { x := none, y := none, z := none, _x := e.x, _y := e.y, _z := e.z }

/-- The call `rotation.set(data.x, data.y, data.z)` on the entries read from a
message: an absent entry is stored as `undefined`. -/
def Euler.ofData (data : RotationData) : Euler :=
  { x := data.x, y := data.y, z := data.z }

/-- The `object` entry of a scene message: what `serializeObject` returns, as
it arrives after `JSON.stringify` and `JSON.parse`. The `position` and `scale`
entries are written from a `THREE.Vector3`, whose own properties are `x`, `y`
and `z`; the three entries `position`, `rotation` and `scale` are objects. -/
structure ObjectData where
  name : String
  type : Option String
  position : Vec3
  rotation : RotationData
  scale : Vec3
  material : Option MaterialData
deriving DecidableEq

/-- The collaboration message of the scene editor:
`{type: '3d_object_change', action, object, user}`. -/
structure ObjectChange where
  action : String
  object : ObjectData
  user : String
deriving DecidableEq

/-- The `options` argument of the `add...` methods; an absent entry is
`none`. -/
structure AddOptions where
  color : Option Nat
  transparent : Option Bool
  opacity : Option ℚ

/-- The fields of a `Canvas3D` instance that its object, selection and
collaboration methods read or write. `heap` holds every object created so far
(the scene root is reference 0, its `children` are the scene's);
`objects` is the tracked list `this.objects`; `socketOpen` stands for
`socket && socket.readyState === WebSocket.OPEN`; `sent` collects what
`socket.send` was given and `notifications` the calls of `showNotification`,
oldest first. -/
structure Canvas3D where
  heap : List Object3D
  objects : List Nat
  selectedObject : Option Nat
  currentTool : String
  isAddingObject : Bool
  isCollaborative : Bool
  socketOpen : Bool
  currentUser : String
  sent : List ObjectChange
  sessionId : Option String
  notifications : List Notice

namespace Canvas3D

/-- The reference of the scene root. -/
def sceneRef : Nat := 0

/-- A fresh object without name, type, material or children, at the origin
with unit scale. -/
def blankObject : Object3D :=
  { name := "", type := none, position := Vec3.ofRat 0 0 0, rotation := Euler.ofRat 0 0 0,
    scale := Vec3.ofRat 1 1 1, material := none, children := [] }

/-- The JavaScript `a || b` on an optional number: zero and absent are falsy. -/
def orNat (a : Option Nat) (b : Nat) : Nat :=
  match a with
  | some n => if n = 0 then b else n
  | none => b

/-- The JavaScript `a || b` on an optional rational number. -/
def orRat (a : Option ℚ) (b : ℚ) : ℚ :=
  match a with
  | some q => if q = 0 then b else q
  | none => b

/-- The JavaScript `a || false` on an optional boolean. -/
def orFalse (a : Option Bool) : Bool :=
  match a with
  | some b => b
  | none => false

/-- The object a reference points to. -/
def deref (c : Canvas3D) (r : Nat) : Option Object3D := c.heap.get? r

/-- The name of the object a reference points to. -/
def nameOf (c : Canvas3D) (r : Nat) : Option String := (c.deref r).map (fun o => o.name)

/-- An in-place update of the object a reference points to. -/
def modifyObject (c : Canvas3D) (r : Nat) (f : Object3D → Object3D) : Canvas3D :=
  match c.heap.get? r with
  | some o => { c with heap := c.heap.set r (f o) }
  | none => c

/-- The children of the scene root. -/
def sceneChildren (c : Canvas3D) : List Nat :=
  match c.deref sceneRef with
  | some root => root.children
  | none => []

/-- Creation of an object: it is stored and its reference returned. -/
def alloc (c : Canvas3D) (o : Object3D) : Canvas3D × Nat :=
  ({ c with heap := c.heap ++ [o] }, c.heap.length)

/-- The call `scene.add(object)` for an object without a parent. -/
def sceneAdd (c : Canvas3D) (r : Nat) : Canvas3D :=
  c.modifyObject sceneRef (fun root => { root with children := root.children ++ [r] })

/-- The call `scene.remove(object)`: the object leaves the root's children
when it is one of them. -/
def sceneRemove (c : Canvas3D) (r : Nat) : Canvas3D :=
  c.modifyObject sceneRef (fun root => { root with children := root.children.erase r })

/-- The search of `getObjectByName` below one child of the root: the child
itself, then its own children. -/
def findInChild (c : Canvas3D) (name : String) (r : Nat) : Option Nat :=
  match c.deref r with
  | none => none
  | some o =>
    if o.name = name then some r
    else o.children.find? (fun g => c.nameOf g = some name)

/-- The call `scene.getObjectByName(name)`: the first object carrying the name
in the engine's depth-first order, the root first. The scene graph this
controller builds has the root, its children and the helper each added light
carries, so the search goes two levels below the root. -/
def getObjectByName (c : Canvas3D) (name : String) : Option Nat :=
  if c.nameOf sceneRef = some name then some sceneRef
  else c.sceneChildren.findSome? (c.findInChild name)

/-- The method `serializeObject(object)`. -/
def serializeObject (o : Object3D) : ObjectData :=
  { name := o.name, type := o.type, position := o.position,
    rotation := RotationData.ofEuler o.rotation,
    scale := o.scale,
    material := o.material.map (fun m => { color := m.color, opacity := m.opacity }) }

/-- The method `broadcastObjectChange(action, object)`. -/
def broadcastObjectChange (c : Canvas3D) (action : String) (r : Nat) : Canvas3D :=
  if c.socketOpen then
    match c.deref r with
    | some o =>
      { c with sent := c.sent ++
          [{ action := action, object := serializeObject o, user := c.currentUser }] }
    | none => c
  else c

/-- The common body of `addCube`, `addSphere` and `addCylinder`: a mesh with a
Phong material at `position`, named `<Label>_<Date.now()>`, is added to the
scene and to the tracked list and, in collaborative mode, broadcast. -/
def addMesh (c : Canvas3D) (label type : String) (defaultColor : Nat)
    (position : Vec3) (options : AddOptions) (now : Nat) : Canvas3D × Nat :=
  let mesh : Object3D :=
    { blankObject with
      name := label ++ "_" ++ toString now
      type := some type
      position := position
      material := some
        { color := orNat options.color defaultColor
          transparent := orFalse options.transparent
          opacity := JsNumber.ofRat (orRat options.opacity 1) } }
  let (c1, r) := c.alloc mesh
  let c2 := c1.sceneAdd r
  let c3 := { c2 with objects := c2.objects ++ [r] }
  (if c3.isCollaborative then c3.broadcastObjectChange "add" r else c3, r)

/-- The method `addCube(position, options)` at clock reading `now`. -/
def addCube (c : Canvas3D) (position : Vec3) (options : AddOptions) (now : Nat) :
    Canvas3D × Nat :=
  c.addMesh "Cube" "cube" 0x3498db position options now

/-- The method `addSphere(position, options)` at clock reading `now`. -/
def addSphere (c : Canvas3D) (position : Vec3) (options : AddOptions) (now : Nat) :
    Canvas3D × Nat :=
  c.addMesh "Sphere" "sphere" 0xe74c3c position options now

/-- The method `addCylinder(position, options)` at clock reading `now`. -/
def addCylinder (c : Canvas3D) (position : Vec3) (options : AddOptions) (now : Nat) :
    Canvas3D × Nat :=
  c.addMesh "Cylinder" "cylinder" 0x9b59b6 position options now

/-- The method `addLight(position)` at clock reading `now`: a point light
carrying its helper as a child. -/
def addLight (c : Canvas3D) (position : Vec3) (now : Nat) : Canvas3D × Nat :=
  let light : Object3D :=
    { blankObject with
      name := "Light_" ++ toString now
      type := some "light"
      position := position }
  let (c0, r) := c.alloc light
  let helper : Object3D :=
    { blankObject with material := some { color := 0xffffff, opacity := JsNumber.ofRat 1,
                                          transparent := false } }
  let (c1, h) := c0.alloc helper
  let c2 := (c1.modifyObject r (fun l => { l with children := l.children ++ [h] })).sceneAdd r
  let c3 := { c2 with objects := c2.objects ++ [r] }
  (if c3.isCollaborative then c3.broadcastObjectChange "add" r else c3, r)

/-- The method `deselectObject()`: with a selection, the first scene object
named `selection_box` is removed from the scene and the selection cleared. -/
def deselectObject (c : Canvas3D) : Canvas3D :=
  match c.selectedObject with
  | none => c
  | some _ =>
    let c1 :=
      match c.getObjectByName "selection_box" with
      | some box => c.sceneRemove box
      | none => c
    { c1 with selectedObject := none }

/-- The method `selectObject(object)`: the previous selection is dropped, the
object selected and a box helper named `selection_box` added to the scene. -/
def selectObject (c : Canvas3D) (r : Nat) : Canvas3D :=
  let c1 := c.deselectObject
  let c2 := { c1 with selectedObject := some r }
  let box : Object3D :=
    { blankObject with
      name := "selection_box"
      material := some { color := 0xffff00, opacity := JsNumber.ofRat 1, transparent := false } }
  let (c3, b) := c2.alloc box
  c3.sceneAdd b

/-- The method `deleteSelectedObject()`. -/
def deleteSelectedObject (c : Canvas3D) : Canvas3D :=
  match c.selectedObject with
  | none => c
  | some r =>
    if c.nameOf r ≠ some "Ground" then
      let c1 := c.sceneRemove r
      let c2 := { c1 with objects := c1.objects.erase r }
      let c3 := if c2.isCollaborative then c2.broadcastObjectChange "delete" r else c2
      c3.deselectObject
    else c

/-- The method `deleteObject(objectName)`. -/
def deleteObject (c : Canvas3D) (objectName : String) : Canvas3D :=
  match c.getObjectByName objectName with
  | none => c
  | some r =>
    if c.nameOf r ≠ some "Ground" then
      let c1 := c.sceneRemove r
      let c2 := { c1 with objects := c1.objects.erase r }
      let c3 := if c2.selectedObject = some r then c2.deselectObject else c2
      if c3.isCollaborative then c3.broadcastObjectChange "delete" r else c3
    else c

/-- The method `updateObjectName(oldName, newName)`. -/
def updateObjectName (c : Canvas3D) (oldName newName : String) : Canvas3D :=
  match c.getObjectByName oldName with
  | some r => c.modifyObject r (fun o => { o with name := newName })
  | none => c

/-- The method `updateObjectPosition(axis, value)`, `value` parsed. -/
def updateObjectPosition (c : Canvas3D) (axis : Axis) (value : ℚ) : Canvas3D :=
  match c.selectedObject with
  | some r =>
    (c.modifyObject r (fun o =>
      { o with position := o.position.setAxis axis (JsNumber.ofRat value) })).broadcastObjectChange
      "update" r
  | none => c

/-- The method `updateObjectRotation(axis, value)`, `value` parsed, in degrees:
the angle stored is `value * Math.PI / 180`. -/
def updateObjectRotation (c : Canvas3D) (axis : Axis) (value : ℚ) : Canvas3D :=
  match c.selectedObject with
  | some r =>
    (c.modifyObject r (fun o =>
      { o with rotation := o.rotation.setAxis axis ⟨0, value / 180⟩ })).broadcastObjectChange
      "update" r
  | none => c

/-- The method `updateObjectScale(axis, value)`, `value` parsed. -/
def updateObjectScale (c : Canvas3D) (axis : Axis) (value : ℚ) : Canvas3D :=
  match c.selectedObject with
  | some r =>
    (c.modifyObject r (fun o =>
      { o with scale := o.scale.setAxis axis (JsNumber.ofRat value) })).broadcastObjectChange
      "update" r
  | none => c

/-- Whether the object a reference points to has a material. -/
def hasMaterial (c : Canvas3D) (r : Nat) : Bool :=
  match c.deref r with
  | some o => o.material.isSome
  | none => false

/-- The method `updateObjectColor(colorHex)`, `colorHex` parsed to its
number. -/
def updateObjectColor (c : Canvas3D) (color : Nat) : Canvas3D :=
  match c.selectedObject with
  | some r =>
    if c.hasMaterial r then
      (c.modifyObject r (fun o =>
        { o with material := o.material.map (fun m => { m with color := color }) })
        ).broadcastObjectChange "update" r
    else c
  | none => c

/-- The method `updateObjectOpacity(opacity)`, `opacity` parsed. -/
def updateObjectOpacity (c : Canvas3D) (opacity : ℚ) : Canvas3D :=
  match c.selectedObject with
  | some r =>
    if c.hasMaterial r then
      (c.modifyObject r (fun o =>
        { o with material := o.material.map (fun m =>
            { m with opacity := JsNumber.ofRat opacity, transparent := decide (opacity < 1) }) })
        ).broadcastObjectChange "update" r
    else c
  | none => c

/-- The method `setTool(tool)` (toolbar highlighting and the cursor style are
not modelled). -/
def setTool (c : Canvas3D) (tool : String) : Canvas3D :=
  { c with
    currentTool := tool
    isAddingObject :=
      decide (tool = "cube" ∨ tool = "sphere" ∨ tool = "cylinder" ∨ tool = "light") }

/-- The method `handleObjectAddition(event)`: `hit` is the first intersection
of the pointer ray with the object named `Ground`, when there is one. Without
an object of that name the engine's `intersectObject` raises on its argument
and the handler ends there. -/
def handleObjectAddition (c : Canvas3D) (hit : Option Vec3) (now : Nat) : Canvas3D :=
  match c.getObjectByName "Ground" with
  | none => c
  | some _ =>
    match hit with
    | none => c
    | some point =>
      let position := { point with y := point.y.add (JsNumber.ofRat (1 / 2)) }
      let c1 :=
        if c.currentTool = "cube" then (c.addCube position ⟨none, none, none⟩ now).1
        else if c.currentTool = "sphere" then (c.addSphere position ⟨none, none, none⟩ now).1
        else if c.currentTool = "cylinder" then
          (c.addCylinder position ⟨none, none, none⟩ now).1
        else if c.currentTool = "light" then
          (c.addLight { position with y := position.y.add (JsNumber.ofRat 4) } now).1
        else c
      { c1 with isAddingObject := false }.setTool "select"

/-- The method `handleObjectSelection()`: `hit` is the object of the nearest
intersection of the pointer ray with the tracked objects, when there is one. -/
def handleObjectSelection (c : Canvas3D) (hit : Option Nat) : Canvas3D :=
  match hit with
  | some r => c.selectObject r
  | none => c.deselectObject

/-- The method `onMouseClick(event)` with the two ray casts as inputs. -/
def onMouseClick (c : Canvas3D) (groundHit : Option Vec3) (objectHit : Option Nat)
    (now : Nat) : Canvas3D :=
  if c.isAddingObject then c.handleObjectAddition groundHit now
  else c.handleObjectSelection objectHit

/-- The method `createObjectFromData(objectData)` at clock reading `now`. -/
def createObjectFromData (c : Canvas3D) (objectData : ObjectData) (now : Nat) : Canvas3D :=
  let options : AddOptions :=
    { color := some (match objectData.material with
                     | some m => m.color
                     | none => 0x3498db)
      transparent := none
      opacity := none }
  let created : Option (Canvas3D × Nat) :=
    if objectData.type = some "cube" then some (c.addCube objectData.position options now)
    else if objectData.type = some "sphere" then
      some (c.addSphere objectData.position options now)
    else if objectData.type = some "cylinder" then
      some (c.addCylinder objectData.position options now)
    else none
  match created with
  | some (c1, r) =>
    c1.modifyObject r (fun o =>
      { o with name := objectData.name, rotation := Euler.ofData objectData.rotation,
               scale := objectData.scale })
  | none => c

/-- The method `updateObjectFromData(objectData)`. -/
def updateObjectFromData (c : Canvas3D) (objectData : ObjectData) : Canvas3D :=
  match c.getObjectByName objectData.name with
  | some r =>
    c.modifyObject r (fun o =>
      { o with
        position := objectData.position
        rotation := Euler.ofData objectData.rotation
        scale := objectData.scale
        material :=
          match o.material, objectData.material with
          | some m, some d => some { m with color := d.color, opacity := d.opacity }
          | m, _ => m })
  | none => c

/-- The method `handleRemoteUpdate(data)` at clock reading `now`. -/
def handleRemoteUpdate (c : Canvas3D) (data : ObjectChange) (now : Nat) : Canvas3D :=
  if data.user = c.currentUser then c
  else if data.action = "add" then c.createObjectFromData data.object now
  else if data.action = "update" then c.updateObjectFromData data.object
  else if data.action = "delete" then c.deleteObject data.object.name
  else c

/-- A call `showNotification(message, type)` (the element it shows and removes
after 3 seconds is on the page only). -/
def showNotification (c : Canvas3D) (message type : String) : Canvas3D :=
  { c with notifications := c.notifications ++ [{ message := message, type := type }] }

/-- The method `saveScene()` from the moment its request is answered: the
`then` callbacks on a JSON body, the `catch` callback on a failure. An empty
`session_id` is falsy. -/
def saveScene (c : Canvas3D) (response : SaveResponse) : Canvas3D :=
  match response with
  | .json status session_id =>
    if status = some "success" then
      let c1 := c.showNotification "3D scene saved successfully!" "success"
      match session_id with
      | some id => if id ≠ "" then { c1 with sessionId := some id } else c1
      | none => c1
    else c
  | .failed => c.showNotification "Error saving 3D scene" "error"

/-- The four lights of `setupLighting()` and the ground plane of
`addDefaultObjects()`, below the scene root. -/
def initialHeap : List Object3D :=
  [ { blankObject with children := [1, 2, 3, 4, 5] },
    blankObject,
    { blankObject with position := Vec3.ofRat 5 10 5 },
    { blankObject with position := Vec3.ofRat (-5) 5 (-5) },
    { blankObject with position := Vec3.ofRat 0 1 0 },
    { blankObject with
      name := "Ground"
      rotation := ⟨some ⟨0, -1 / 2⟩, some (JsNumber.ofRat 0), some (JsNumber.ofRat 0)⟩
      material := some { color := 0x2c3e50, opacity := JsNumber.ofRat 1,
                         transparent := false } } ]

/-- The reference of the ground plane `addDefaultObjects()` creates. -/
def groundRef : Nat := 5

/-- The controller after its constructor and `init()`: lights, ground, the
sample cube made at clock reading `t1` and the sample sphere made at `t2`.
The socket does not exist yet while they are added, so nothing is sent;
`sessionId` is `options.sessionId || null`. -/
def new (collaborative : Bool) (user : String) (t1 t2 : Nat) (sessionId : Option String) :
    Canvas3D :=
  let c0 : Canvas3D :=
    { heap := initialHeap
      objects := [groundRef]
      selectedObject := none
      currentTool := "select"
      isAddingObject := false
      isCollaborative := collaborative
      socketOpen := false
      currentUser := user
      sent := []
      sessionId := sessionId
      notifications := [] }
  let c1 := (c0.addCube (Vec3.ofRat 0 1 0) ⟨some 0x3498db, none, none⟩ t1).1
  (c1.addSphere (Vec3.ofRat 2 1 2) ⟨some 0xe74c3c, none, none⟩ t2).1

end Canvas3D

/-- The events the scene editor reacts to: toolbar, pointer, object-list and
keyboard actions, property-panel edits, delete buttons, inbound collaboration
messages, the socket opening or closing, and the answer to a save request.
Object references carried by an event point to objects that exist. -/
inductive SceneOp where
  | setTool (tool : String)
  | click (groundHit : Option Vec3) (objectHit : Option Nat) (now : Nat)
  | selectObject (r : Nat)
  | keyDelete
  | keyEscape
  | updateObjectName (oldName newName : String)
  | updateObjectPosition (axis : Axis) (value : ℚ)
  | updateObjectRotation (axis : Axis) (value : ℚ)
  | updateObjectScale (axis : Axis) (value : ℚ)
  | updateObjectColor (color : Nat)
  | updateObjectOpacity (opacity : ℚ)
  | deleteObject (objectName : String)
  | remote (data : ObjectChange) (now : Nat)
  | socketOpen
  | socketClose
  | saveScene (response : SaveResponse)

namespace Canvas3D

/-- One event handled by the controller. -/
def step (c : Canvas3D) : SceneOp → Canvas3D
  | .setTool tool => c.setTool tool
  | .click groundHit objectHit now =>
    match objectHit with
    | some r => if r < c.heap.length then c.onMouseClick groundHit objectHit now else c
    | none => c.onMouseClick groundHit none now
  | .selectObject r => if r < c.heap.length then c.selectObject r else c
  | .keyDelete => c.deleteSelectedObject
  | .keyEscape => { c.deselectObject with isAddingObject := false }.setTool "select"
  | .updateObjectName oldName newName => c.updateObjectName oldName newName
  | .updateObjectPosition axis value => c.updateObjectPosition axis value
  | .updateObjectRotation axis value => c.updateObjectRotation axis value
  | .updateObjectScale axis value => c.updateObjectScale axis value
  | .updateObjectColor color => c.updateObjectColor color
  | .updateObjectOpacity opacity => c.updateObjectOpacity opacity
  | .deleteObject objectName => c.deleteObject objectName
  | .remote data now => c.handleRemoteUpdate data now
  | .socketOpen => if c.isCollaborative then { c with socketOpen := true } else c
  | .socketClose => { c with socketOpen := false }
  | .saveScene response => c.saveScene response

/-- The controller after a sequence of events, oldest first. -/
def run (c : Canvas3D) (ops : List SceneOp) : Canvas3D :=
  ops.foldl step c

/-- The states the controller reaches from its constructor. -/
def Reachable (c : Canvas3D) : Prop :=
  ∃ (collaborative : Bool) (user : String) (t1 t2 : Nat) (sessionId : Option String)
    (ops : List SceneOp),
    c = run (new collaborative user t1 t2 sessionId) ops

end Canvas3D

/-! ## Invariants -/

namespace Canvas2D

/-- The cursor is `-1` on an empty history and otherwise points inside it. -/
def HistoryInv {R : Type} (c : Canvas2D R) : Prop :=
  -1 ≤ c.historyStep ∧ c.historyStep < (c.history.length : Int) ∧
    (0 < c.history.length → 0 ≤ c.historyStep)

end Canvas2D

/-! ## Concrete states used as inputs -/

/-- A fresh, non-collaborative drawing controller on the display-list
rasteriser. -/
def freshCanvas : Canvas2D (List Paint) :=
  Canvas2D.new [] false "local" none

/-- The drawing controller after one freehand stroke from (10,10) to (50,50)
with the 2px black pen on a fresh canvas. -/
def afterOneStroke : Canvas2D (List Paint) :=
  Canvas2D.strokes displayList [(⟨10, 10⟩, [⟨50, 50⟩])] freshCanvas

/-- The drawing controller after a second freehand stroke, from (20,20) to
(60,20). -/
def afterTwoStrokes : Canvas2D (List Paint) :=
  Canvas2D.strokes displayList [(⟨10, 10⟩, [⟨50, 50⟩]), (⟨20, 20⟩, [⟨60, 20⟩])] freshCanvas

/-- The drawing controller after two strokes and one undo: the cursor is on
the first of two checkpoints. -/
def afterTwoStrokesAndUndo : Canvas2D (List Paint) :=
  Canvas2D.undo displayList afterTwoStrokes

/-- The drawing controller in the middle of an eraser stroke from (10,10) to
(50,50) on a fresh canvas: the pointer is still down. -/
def eraserStrokeInProgress : Canvas2D (List Paint) :=
  Canvas2D.run displayList freshCanvas
    [.setTool "eraser", .startDrawing ⟨10, 10⟩, .draw ⟨50, 50⟩]

/-- A socket message of the user `remote` with the eraser, red, size 9, and no
`position` entry. -/
def remoteEraserWithoutPosition : DrawingUpdate :=
  { tool := "eraser", color := "#ff0000", size := 9, position := none, user := "remote" }

/-- A collaborative drawing controller of the user `local` whose socket is
open: pen, black, size 2. -/
def collabCanvas : Canvas2D (List Paint) :=
  Canvas2D.run displayList (Canvas2D.new [] true "local" (some "s1")) [.socketOpen]

/-- A session controller right after its constructor, on a platform without
`navigator.connection`: both sockets connecting, the 1-second latency probe
(handle 1) and the 5-second metrics push (handle 2) scheduled. -/
def freshSession : FiveGIntegration :=
  FiveGIntegration.new (some "s1") (some "local") false false false none true true true

/-- The session controller after a video call was started with success and
the data channel of its connection (reference 0, made without a peer
identifier) opened. -/
def sessionInCall : FiveGIntegration :=
  FiveGIntegration.run freshSession
    [.dataSocketOpen 1700000000000, .startVideoCall CallOutcome.ok, .dataChannelOpen 0]

/-- The session controller with its data socket open and a data stream
started at clock reading 1700000000005: the 16-millisecond broadcast is
handle 3. -/
def streamingSession : FiveGIntegration :=
  FiveGIntegration.run freshSession [.dataSocketOpen 1700000000000, .startDataStream 1700000000005]

/-- An inbound control message of type `handshake_response`. -/
def handshakeResponse : ControlMessage :=
  { type := "handshake_response", userId := some "server", dataType := none, action := none,
    error := none }

/-- An inbound message whose tags are all unknown. -/
def unknownMessage : ControlMessage :=
  { type := "pong", userId := some "server", dataType := some "telemetry",
    action := some "noop", error := none }

/-- An inbound offer of the peer `peer1`. -/
def offerFromPeer1 : ControlMessage :=
  { type := "webrtc_offer", userId := some "peer1", dataType := none, action := none,
    error := none }

/-- An inbound answer of the peer `peer1`. -/
def answerFromPeer1 : ControlMessage :=
  { type := "webrtc_answer", userId := some "peer1", dataType := none, action := none,
    error := none }

/-- An inbound ICE candidate of a peer no connection was made for. -/
def candidateFromStranger : ControlMessage :=
  { type := "ice_candidate", userId := some "peer9", dataType := none, action := none,
    error := none }

/-- The session controller with its data socket open, a video call started
(the primary connection, reference 0) and an offer of `peer1` handled (the
connection stored under `peer1`, reference 1). -/
def sessionWithPeers : FiveGIntegration :=
  FiveGIntegration.run freshSession
    [.dataSocketOpen 1700000000000, .startVideoCall CallOutcome.ok,
     .dataMessage offerFromPeer1 1700000000100 1700000000103]

/-- The session controller with its data socket open. -/
def connectedSession : FiveGIntegration :=
  FiveGIntegration.run freshSession [.dataSocketOpen 1700000000000]

/-- An inbound scene message whose action is unknown. -/
def unknownSceneChange : ObjectChange :=
  { action := "highlight"
    object :=
      { name := "Cube_1", type := some "cube", position := Vec3.ofRat 1 1 1,
        rotation := RotationData.ofXYZ 0 0 0, scale := Vec3.ofRat 1 1 1, material := none }
    user := "remote" }

namespace Canvas3D

/-- The invariant of the scene editor's object store: the ground exists; the
scene's children and the tracked list have no duplicates and point to existing
objects; the ground is tracked while it is in the scene, is in the scene while
it is named `Ground`, and is a child of nothing but the scene root. -/
structure SceneInv (c : Canvas3D) : Prop where
  ground_lt : groundRef < c.heap.length
  scene_nodup : c.sceneChildren.Nodup
  objects_nodup : c.objects.Nodup
  scene_lt : ∀ r ∈ c.sceneChildren, r < c.heap.length
  objects_lt : ∀ r ∈ c.objects, r < c.heap.length
  ground_tracked : groundRef ∈ c.sceneChildren → groundRef ∈ c.objects
  ground_in_scene : c.nameOf groundRef = some "Ground" → groundRef ∈ c.sceneChildren
  ground_top : ∀ r o, r ≠ sceneRef → c.deref r = some o → groundRef ∉ o.children

end Canvas3D

namespace FiveGIntegration

/-- A peer identifier is accounted for: a truthy one is a key of the
`peerConnections` map, for a falsy one (`null` or empty) the primary
connection `this.peerConnection` exists. -/
def KeyOk (c : FiveGIntegration) (peerId : Option String) : Prop :=
  (truthyId peerId = true → ∃ s, peerId = some s ∧ s ∈ c.peerConnections.map Prod.fst) ∧
  (truthyId peerId = false → c.peerConnection.isSome = true)

/-- The invariant of the peer maps: the identifier of every connection made
and every key of the `dataChannels` map is accounted for. -/
def PeerInv (c : FiveGIntegration) : Prop :=
  (∀ k ∈ c.connections, KeyOk c k) ∧ (∀ e ∈ c.dataChannels, KeyOk c e.1)

/-- The latency window and the timer schedule with its next free handle. -/
def scheduleState (c : FiveGIntegration) : List Int × List Timer × Nat :=
  (c.latencyStats, c.timers, c.nextHandle)

/-- The invariant of the timer schedule: every scheduled handle was handed out
before the next free one. -/
def TimerInv (c : FiveGIntegration) : Prop :=
  ∀ t ∈ c.timers, t.handle < c.nextHandle

/-- The fields that hold peer connections and data channels. -/
def peerState (c : FiveGIntegration) :
    List (Option String) × List (String × Nat) × List (Option String × Nat) × Option Nat :=
  (c.connections, c.peerConnections, c.dataChannels, c.peerConnection)

end FiveGIntegration

/-- A fresh, non-collaborative scene editor whose sample cube and sphere were
made at clock readings 1700000000000 and 1700000000001 (milliseconds): they
are named `Cube_1700000000000` and `Sphere_1700000000001`. -/
def freshScene : Canvas3D :=
  Canvas3D.new false "local" 1700000000000 1700000000001 none

/-- The scenario message: a remote user adds a cube named `Cube_1` at
(1,1,1). -/
def remoteAddCube1 : ObjectChange :=
  { action := "add"
    object :=
      { name := "Cube_1", type := some "cube", position := Vec3.ofRat 1 1 1,
        rotation := RotationData.ofXYZ 0 0 0, scale := Vec3.ofRat 1 1 1, material := none }
    user := "remote" }

/-- The scene editor after the scenario message arrived twice, at clock
readings 1700000000002 and 1700000000003: the two cubes it created
(references 8 and 9) are both named `Cube_1`. -/
def sceneWithTwoCube1 : Canvas3D :=
  Canvas3D.run freshScene
    [.remote remoteAddCube1 1700000000002, .remote remoteAddCube1 1700000000003]

/-- The scene editor after the ground was selected in the object list and
renamed to `Floor` in the properties panel. -/
def sceneWithRenamedGround : Canvas3D :=
  Canvas3D.run freshScene [.selectObject Canvas3D.groundRef, .updateObjectName "Ground" "Floor"]

/-- The scene editor with the ground selected. -/
def sceneWithGroundSelected : Canvas3D :=
  Canvas3D.run freshScene [.selectObject Canvas3D.groundRef]

/-- An inbound message of a remote user deleting the object named
`Ground`. -/
def remoteDeleteGround : ObjectChange :=
  { action := "delete"
    object :=
      { name := "Ground", type := none, position := Vec3.ofRat 0 0 0,
        rotation := RotationData.ofXYZ 0 0 0, scale := Vec3.ofRat 1 1 1, material := none }
    user := "remote" }

/-- The scene editor after the renamed ground was deleted with the delete
button of its object-list entry. -/
def sceneWithGroundDeleted : Canvas3D :=
  Canvas3D.run freshScene
    [.selectObject Canvas3D.groundRef, .updateObjectName "Ground" "Floor", .deleteObject "Floor"]

/-- A collaborative scene editor with its socket open and the sample cube
(reference 6, named `Cube_1700000000000`) selected. -/
def collabSceneCubeSelected : Canvas3D :=
  Canvas3D.run (Canvas3D.new true "local" 1700000000000 1700000000001 none)
    [.socketOpen, .selectObject 6]

/-- The collaborative scene editor after a point light was added at (0,5,0) at
clock reading 1700000000004: the light is reference 9, its helper
reference 10. -/
def collabSceneWithLight : Canvas3D :=
  (collabSceneCubeSelected.addLight (Vec3.ofRat 0 5 0) 1700000000004).1

/-- The `add` message the collaborative scene editor sent for its light. -/
def lightAddMessage : ObjectChange :=
  { action := "add"
    object :=
      { name := "Light_1700000000004", type := some "light", position := Vec3.ofRat 0 5 0,
        rotation := RotationData.ofEuler (Euler.ofRat 0 0 0), scale := Vec3.ofRat 1 1 1,
        material := none }
    user := "local" }

/-- An inbound message of a remote user moving the sample cube to (2,1,0),
turning it by a quarter turn about the vertical axis (`Math.PI / 2`), doubling
its size and painting it red at half opacity, the rotation written as the
program writes it. -/
def remoteMoveCube : ObjectChange :=
  { action := "update"
    object :=
      { name := "Cube_1700000000000", type := some "cube", position := Vec3.ofRat 2 1 0,
        rotation := RotationData.ofEuler ⟨some (JsNumber.ofRat 0), some ⟨0, 1 / 2⟩,
          some (JsNumber.ofRat 0)⟩,
        scale := Vec3.ofRat 2 2 2,
        material := some { color := 0xff0000, opacity := JsNumber.ofRat (1 / 2) } }
    user := "remote" }

/-- An inbound message of a remote user deleting the sample cube. -/
def remoteDeleteCube : ObjectChange :=
  { action := "delete"
    object :=
      { name := "Cube_1700000000000", type := some "cube", position := Vec3.ofRat (-2) 1 0,
        rotation := RotationData.ofXYZ 0 0 0, scale := Vec3.ofRat 1 1 1, material := none }
    user := "remote" }

/-- A collaborative scene editor of the user `local` with its socket open. -/
def collabScene : Canvas3D :=
  Canvas3D.run (Canvas3D.new true "local" 1700000000000 1700000000001 none) [.socketOpen]

/-- The collaborative scene editor of the user `remote`, its socket open, after
the cube tool was chosen and the ground clicked at (1,0,1) at clock reading
1700000000005: the new cube is reference 8. -/
def peerAfterAdd : Canvas3D :=
  Canvas3D.run (Canvas3D.new true "remote" 1700000000000 1700000000001 none)
    [.socketOpen, .setTool "cube", .click (some (Vec3.ofRat 1 0 1)) none 1700000000005]

/-- The `add` message the scene editor of `remote` sent for its new cube, as
`JSON.stringify` writes it: the rotation by the properties `_x`, `_y`, `_z`. -/
def peerAddCube : ObjectChange :=
  { action := "add"
    object :=
      { name := "Cube_1700000000005", type := some "cube", position := Vec3.ofRat 1 (1 / 2) 1,
        rotation := { x := none, y := none, z := none, _x := some (JsNumber.ofRat 0),
                      _y := some (JsNumber.ofRat 0), _z := some (JsNumber.ofRat 0) },
        scale := Vec3.ofRat 1 1 1,
        material := some { color := 0x3498db, opacity := JsNumber.ofRat 1 } }
    user := "remote" }

/-- The collaborative scene editor of the user `remote`, its socket open, after
its sample cube (reference 6) was selected and turned by 90 degrees about the
vertical axis in the properties panel. -/
def peerAfterRotation : Canvas3D :=
  Canvas3D.run (Canvas3D.new true "remote" 1700000000000 1700000000001 none)
    [.socketOpen, .selectObject 6, .updateObjectRotation Axis.y 90]

/-- The `update` message the scene editor of `remote` sent for the turned
cube, as `JSON.stringify` writes it: `_y` is `Math.PI / 2`. -/
def peerRotationUpdate : ObjectChange :=
  { action := "update"
    object :=
      { name := "Cube_1700000000000", type := some "cube", position := Vec3.ofRat 0 1 0,
        rotation := { x := none, y := none, z := none, _x := some (JsNumber.ofRat 0),
                      _y := some ⟨0, 1 / 2⟩, _z := some (JsNumber.ofRat 0) },
        scale := Vec3.ofRat 1 1 1,
        material := some { color := 0x3498db, opacity := JsNumber.ofRat 1 } }
    user := "remote" }

/-! ## Drawing surface controller: history -/

namespace Canvas2D

variable {R : Type}

theorem saveState_history_length (c : Canvas2D R) (h : HistoryInv c) :
    ((saveState c).history.length : Int) = c.historyStep + 2 := by
  obtain ⟨h1, h2, h3⟩ := h
  unfold saveState
  simp only
  split
  · simp [List.length_take]
    omega
  · simp
    omega

theorem saveState_historyStep (c : Canvas2D R) :
    (saveState c).historyStep = c.historyStep + 1 := rfl

theorem restore_history (S : Surface R) (c : Canvas2D R) :
    (restoreCanvasFromHistory S c).history = c.history ∧
    (restoreCanvasFromHistory S c).historyStep = c.historyStep := by
  unfold restoreCanvasFromHistory
  split
  · exact ⟨rfl, rfl⟩
  · split <;> exact ⟨rfl, rfl⟩

theorem undo_history (S : Surface R) (c : Canvas2D R) : (undo S c).history = c.history := by
  unfold undo
  split
  · exact (restore_history S _).1
  · rfl

theorem redo_history (S : Surface R) (c : Canvas2D R) : (redo S c).history = c.history := by
  unfold redo
  split
  · exact (restore_history S _).1
  · rfl

theorem undo_historyStep (S : Surface R) (c : Canvas2D R) :
    (undo S c).historyStep = if c.historyStep > 0 then c.historyStep - 1 else c.historyStep := by
  unfold undo
  split
  · exact (restore_history S _).2
  · rfl

theorem redo_historyStep (S : Surface R) (c : Canvas2D R) :
    (redo S c).historyStep =
      if c.historyStep < (c.history.length : Int) - 1 then c.historyStep + 1
      else c.historyStep := by
  unfold redo
  split
  · exact (restore_history S _).2
  · rfl

theorem drawTool_history (S : Surface R) (pos : Point) (c : Canvas2D R) :
    (drawTool S pos c).history = c.history ∧ (drawTool S pos c).historyStep = c.historyStep := by
  unfold drawTool
  split_ifs <;> exact ⟨rfl, rfl⟩

theorem sendDrawingUpdate_history (pos : Point) (c : Canvas2D R) :
    (sendDrawingUpdate pos c).history = c.history ∧
    (sendDrawingUpdate pos c).historyStep = c.historyStep := by
  unfold sendDrawingUpdate
  split <;> exact ⟨rfl, rfl⟩

theorem setLineWidth_frame (value : Nat) (c : Canvas2D R) :
    ∃ w, setLineWidth value c = { c with lineWidth := w } := by
  unfold setLineWidth
  split
  · exact ⟨c.lineWidth, rfl⟩
  · exact ⟨value, rfl⟩

theorem setStrokeStyle_frame (S : Surface R) (value : String) (c : Canvas2D R) :
    ∃ s, setStrokeStyle S value c = { c with strokeStyle := s } := by
  unfold setStrokeStyle
  split
  · exact ⟨value, rfl⟩
  · exact ⟨c.strokeStyle, rfl⟩

theorem setContext_frame (S : Surface R) (value : Nat) (color : String) (c : Canvas2D R) :
    ∃ w s, setStrokeStyle S color (setLineWidth value c) =
      { c with lineWidth := w, strokeStyle := s } := by
  obtain ⟨w, hw⟩ := setLineWidth_frame value c
  obtain ⟨s, hs⟩ := setStrokeStyle_frame S color (setLineWidth value c)
  exact ⟨w, s, by rw [hs, hw]⟩

theorem prepareContext_history (S : Surface R) (c : Canvas2D R) :
    (prepareContext S c).history = c.history ∧
    (prepareContext S c).historyStep = c.historyStep := by
  unfold prepareContext
  obtain ⟨w, s, h⟩ := setContext_frame S c.currentSize
    (if c.currentTool = "eraser" then "#FFFFFF" else c.currentColor) c
  rw [h]
  exact ⟨rfl, rfl⟩

theorem draw_history (S : Surface R) (pos : Point) (c : Canvas2D R) :
    (draw S pos c).history = c.history ∧ (draw S pos c).historyStep = c.historyStep := by
  unfold draw
  split
  · split
    · exact ⟨((sendDrawingUpdate_history _ _).1.trans
          (drawTool_history S pos (prepareContext S c)).1).trans (prepareContext_history S c).1,
        ((sendDrawingUpdate_history _ _).2.trans
          (drawTool_history S pos (prepareContext S c)).2).trans (prepareContext_history S c).2⟩
    · exact ⟨(drawTool_history S pos (prepareContext S c)).1.trans (prepareContext_history S c).1,
        (drawTool_history S pos (prepareContext S c)).2.trans (prepareContext_history S c).2⟩
  · exact ⟨rfl, rfl⟩

theorem stopDrawing_history (c : Canvas2D R) :
    (stopDrawing c).history = c.history ∧ (stopDrawing c).historyStep = c.historyStep := by
  unfold stopDrawing
  split <;> exact ⟨rfl, rfl⟩

theorem handleRemoteDrawing_history (S : Surface R) (d : DrawingUpdate) (c : Canvas2D R) :
    (settle (handleRemoteDrawing S d c)).history = c.history ∧
    (settle (handleRemoteDrawing S d c)).historyStep = c.historyStep := by
  unfold handleRemoteDrawing
  split
  · exact ⟨rfl, rfl⟩
  · simp only
    obtain ⟨w, s, h⟩ := setContext_frame S d.size d.color
      ({ c with currentTool := d.tool, currentColor := d.color, currentSize := d.size })
    rw [h]
    cases d.position <;> exact ⟨rfl, rfl⟩

theorem saveCanvas_history (response : SaveResponse) (c : Canvas2D R) :
    (saveCanvas response c).history = c.history ∧
    (saveCanvas response c).historyStep = c.historyStep := by
  unfold saveCanvas
  split
  · split
    · split
      · split <;> exact ⟨rfl, rfl⟩
      · exact ⟨rfl, rfl⟩
    · exact ⟨rfl, rfl⟩
  · exact ⟨rfl, rfl⟩

theorem saveState_inv (c : Canvas2D R) (h : HistoryInv c) : HistoryInv (saveState c) := by
  have hl := saveState_history_length c h
  have hs := saveState_historyStep c
  obtain ⟨h1, h2, h3⟩ := h
  refine ⟨?_, ?_, ?_⟩ <;> omega

theorem startDrawing_history (pos : Point) (c : Canvas2D R) :
    (startDrawing pos c).history =
      (saveState { c with isDrawing := true, lastX := pos.x, lastY := pos.y }).history ∧
    (startDrawing pos c).historyStep = c.historyStep + 1 := by
  unfold startDrawing
  simp only
  split <;> exact ⟨rfl, rfl⟩

theorem inv_of_eq {c d : Canvas2D R} (hh : d.history = c.history)
    (hs : d.historyStep = c.historyStep) (h : HistoryInv c) : HistoryInv d := by
  unfold HistoryInv at *
  rw [hh, hs]
  exact h

theorem step_inv (S : Surface R) (c : Canvas2D R) (op : CanvasOp R) (h : HistoryInv c) :
    HistoryInv (step S c op) := by
  cases op with
  | startDrawing pos =>
    have h1 : HistoryInv (saveState { c with isDrawing := true, lastX := pos.x, lastY := pos.y }) :=
      saveState_inv _ h
    exact inv_of_eq (startDrawing_history pos c).1 (startDrawing_history pos c).2 h1
  | draw pos => exact inv_of_eq (draw_history S pos c).1 (draw_history S pos c).2 h
  | stopDrawing => exact inv_of_eq (stopDrawing_history c).1 (stopDrawing_history c).2 h
  | undo =>
    have hh := undo_history S c
    have hs := undo_historyStep S c
    obtain ⟨h1, h2, h3⟩ := h
    show HistoryInv (undo S c)
    unfold HistoryInv
    rw [hh, hs]
    split <;> refine ⟨?_, ?_, ?_⟩ <;> omega
  | redo =>
    have hh := redo_history S c
    have hs := redo_historyStep S c
    obtain ⟨h1, h2, h3⟩ := h
    show HistoryInv (redo S c)
    unfold HistoryInv
    rw [hh, hs]
    split <;> refine ⟨?_, ?_, ?_⟩ <;> omega
  | clearCanvas => exact saveState_inv _ h
  | loadCanvas img => exact saveState_inv _ h
  | setTool tool => exact h
  | setColor color => exact h
  | setSize size => exact h
  | remote data =>
    exact inv_of_eq (handleRemoteDrawing_history S data c).1
      (handleRemoteDrawing_history S data c).2 h
  | resize w h' => exact h
  | socketOpen =>
    show HistoryInv (if c.isCollaborative then { c with socketOpen := true } else c)
    split <;> exact h
  | socketClose => exact h
  | saveCanvas response =>
    exact inv_of_eq (saveCanvas_history response c).1 (saveCanvas_history response c).2 h

theorem run_inv (S : Surface R) (ops : List (CanvasOp R)) (c : Canvas2D R) (h : HistoryInv c) :
    HistoryInv (run S c ops) := by
  induction ops generalizing c with
  | nil => exact h
  | cons op ops ih => exact ih _ (step_inv S c op h)

theorem new_inv (blank : R) (collaborative : Bool) (user : String)
    (sessionId : Option String) : HistoryInv (new blank collaborative user sessionId) := by
  refine ⟨?_, ?_, ?_⟩ <;> simp [new]

theorem reachable_inv (S : Surface R) (c : Canvas2D R) (h : Reachable S c) : HistoryInv c := by
  obtain ⟨blank, collaborative, user, sessionId, ops, rfl⟩ := h
  exact run_inv S ops _ (new_inv blank collaborative user sessionId)


theorem foldl_draw_history (S : Surface R) (moves : List Point) (c : Canvas2D R) :
    (moves.foldl (fun c pos => draw S pos c) c).history = c.history ∧
    (moves.foldl (fun c pos => draw S pos c) c).historyStep = c.historyStep := by
  induction moves generalizing c with
  | nil => exact ⟨rfl, rfl⟩
  | cons pos moves ih =>
    exact ⟨(ih (draw S pos c)).1.trans (draw_history S pos c).1,
      (ih (draw S pos c)).2.trans (draw_history S pos c).2⟩

theorem stroke_historyStep (S : Surface R) (start : Point) (moves : List Point)
    (c : Canvas2D R) : (stroke S start moves c).historyStep = c.historyStep + 1 := by
  unfold stroke
  rw [(stopDrawing_history _).2, (foldl_draw_history S moves _).2]
  exact (startDrawing_history start c).2

theorem undo_eq_self (S : Surface R) (c : Canvas2D R) (h : c.historyStep ≤ 0) :
    undo S c = c := by
  unfold undo
  rw [if_neg (by omega)]

theorem redo_eq_self (S : Surface R) (c : Canvas2D R)
    (h : c.historyStep = (c.history.length : Int) - 1) : redo S c = c := by
  unfold redo
  rw [if_neg (by omega)]

theorem saveState_history_take (c : Canvas2D R) (h0 : 0 ≤ c.historyStep)
    (h1 : c.historyStep < (c.history.length : Int) - 1) :
    (saveState c).history = c.history.take (c.historyStep.toNat + 1) ++ [c.raster] := by
  unfold saveState
  simp only
  rw [if_pos (by omega)]
  have : (c.historyStep + 1).toNat = c.historyStep.toNat + 1 := by omega
  rw [this]

/-- C1, the code at the failing input: on a fresh canvas one stroke followed by
one undo leaves the controller as the stroke left it, under every rasteriser
(the only checkpoint is at cursor 0, where undo does nothing); on the
display-list rasteriser the 2px black pen stroke from (10,10) to (50,50) is
still on the raster after the undo, which so differs from the pre-stroke
raster. -/
theorem undo_after_first_stroke_keeps_stroke :
    (∀ (R : Type) (S : Surface R) (blank : R) (collaborative : Bool) (user : String)
        (sessionId : Option String) (start : Point) (moves : List Point),
      undoN S 1 (strokes S [(start, moves)] (new blank collaborative user sessionId)) =
        strokes S [(start, moves)] (new blank collaborative user sessionId)) ∧
    (undoN displayList 1 afterOneStroke).raster =
      [Paint.stroke [PathCmd.moveTo 10 10, PathCmd.lineTo 50 50] 2 "#000000" "source-over"] ∧
    (undoN displayList 1 afterOneStroke).raster ≠ freshCanvas.raster := by
  refine ⟨?_, by decide, by decide⟩
  intro R S blank collaborative user sessionId start moves
  show undo S (stroke S start moves (new blank collaborative user sessionId)) = _
  apply undo_eq_self
  rw [stroke_historyStep]
  show (-1 : Int) + 1 ≤ 0
  omega

/-- C2, the code at the failing input: after two strokes on a fresh canvas undo
is effective (the cursor is 1); undo followed by redo then shows the first
stroke only, the checkpoint taken when the second stroke started, and not the
raster with both strokes that was displayed before the undo. -/
theorem redo_after_undo_loses_last_stroke :
    0 < afterTwoStrokes.historyStep ∧
    afterTwoStrokes.raster =
      [Paint.stroke [PathCmd.moveTo 10 10, PathCmd.lineTo 50 50] 2 "#000000" "source-over",
       Paint.stroke [PathCmd.moveTo 20 20, PathCmd.lineTo 60 20] 2 "#000000" "source-over"] ∧
    (redo displayList (undo displayList afterTwoStrokes)).raster =
      [Paint.stroke [PathCmd.moveTo 10 10, PathCmd.lineTo 50 50] 2 "#000000" "source-over"] ∧
    (redo displayList (undo displayList afterTwoStrokes)).raster ≠ afterTwoStrokes.raster := by
  refine ⟨by decide, by decide, by decide, by decide⟩

/-- C3: with the cursor strictly before the last checkpoint (one or more undos
were made), `saveState`, and so `startDrawing`, leaves the first `k+1`
checkpoints followed by one snapshot of the current raster, with the cursor on
that last entry; the checkpoints after the old cursor are gone and a following
`redo` changes nothing. -/
theorem saveState_discards_redo_tail (S : Surface R) (c : Canvas2D R) (pos : Point)
    (h0 : 0 ≤ c.historyStep) (h1 : c.historyStep < (c.history.length : Int) - 1) :
    (saveState c).history = c.history.take (c.historyStep.toNat + 1) ++ [c.raster] ∧
    (saveState c).historyStep = c.historyStep + 1 ∧
    (saveState c).historyStep = ((saveState c).history.length : Int) - 1 ∧
    redo S (saveState c) = saveState c ∧
    (startDrawing pos c).history = c.history.take (c.historyStep.toNat + 1) ++ [c.raster] ∧
    (startDrawing pos c).historyStep = c.historyStep + 1 ∧
    redo S (startDrawing pos c) = startDrawing pos c := by
  have hh := saveState_history_take c h0 h1
  have hlen : ((saveState c).history.length : Int) = c.historyStep + 2 := by
    rw [hh]
    simp [List.length_take]
    omega
  have hs := startDrawing_history pos c
  have hh2 : (startDrawing pos c).history =
      c.history.take (c.historyStep.toNat + 1) ++ [c.raster] := by
    rw [hs.1]
    exact saveState_history_take { c with isDrawing := true, lastX := pos.x, lastY := pos.y } h0 h1
  refine ⟨hh, rfl, ?_, ?_, hh2, hs.2, ?_⟩
  · rw [hlen, saveState_historyStep]
    omega
  · apply redo_eq_self
    rw [hlen, saveState_historyStep]
    omega
  · apply redo_eq_self
    rw [hs.2, hh2, ← hh, hlen]
    omega

/-- C3 at the state after two strokes and one undo (cursor 0 of two
checkpoints), for a stroke starting at (5,5). -/
theorem saveState_discards_redo_tail_witness :
    (0 ≤ afterTwoStrokesAndUndo.historyStep ∧
     afterTwoStrokesAndUndo.historyStep < (afterTwoStrokesAndUndo.history.length : Int) - 1) ∧
    ((saveState afterTwoStrokesAndUndo).history =
        afterTwoStrokesAndUndo.history.take (afterTwoStrokesAndUndo.historyStep.toNat + 1) ++
          [afterTwoStrokesAndUndo.raster] ∧
      (saveState afterTwoStrokesAndUndo).historyStep = afterTwoStrokesAndUndo.historyStep + 1 ∧
      (saveState afterTwoStrokesAndUndo).historyStep =
        ((saveState afterTwoStrokesAndUndo).history.length : Int) - 1 ∧
      redo displayList (saveState afterTwoStrokesAndUndo) = saveState afterTwoStrokesAndUndo ∧
      (startDrawing ⟨5, 5⟩ afterTwoStrokesAndUndo).history =
        afterTwoStrokesAndUndo.history.take (afterTwoStrokesAndUndo.historyStep.toNat + 1) ++
          [afterTwoStrokesAndUndo.raster] ∧
      (startDrawing ⟨5, 5⟩ afterTwoStrokesAndUndo).historyStep =
        afterTwoStrokesAndUndo.historyStep + 1 ∧
      redo displayList (startDrawing ⟨5, 5⟩ afterTwoStrokesAndUndo) =
        startDrawing ⟨5, 5⟩ afterTwoStrokesAndUndo) :=
  ⟨⟨by decide, by decide⟩,
    saveState_discards_redo_tail displayList afterTwoStrokesAndUndo ⟨5, 5⟩ (by decide) (by decide)⟩

/-- C4: `undo` with the cursor at the oldest checkpoint (`historyStep <= 0`)
and `redo` with the cursor at the most recent one
(`historyStep = history.length - 1`) return the controller unchanged: history,
cursor and raster stay as they were. -/
theorem undo_redo_noop_at_ends (S : Surface R) (c : Canvas2D R) :
    (c.historyStep ≤ 0 →
      undo S c = c ∧ (undo S c).history = c.history ∧
        (undo S c).historyStep = c.historyStep ∧ (undo S c).raster = c.raster) ∧
    (c.historyStep = (c.history.length : Int) - 1 →
      redo S c = c ∧ (redo S c).history = c.history ∧
        (redo S c).historyStep = c.historyStep ∧ (redo S c).raster = c.raster) := by
  constructor
  · intro h
    rw [undo_eq_self S c h]
    exact ⟨rfl, rfl, rfl, rfl⟩
  · intro h
    rw [redo_eq_self S c h]
    exact ⟨rfl, rfl, rfl, rfl⟩

/-- C4 at the state after one stroke on a fresh canvas, where the cursor 0 is
both the oldest and the most recent checkpoint. -/
theorem undo_redo_noop_at_ends_witness :
    (afterOneStroke.historyStep ≤ 0 ∧ undo displayList afterOneStroke = afterOneStroke) ∧
    (afterOneStroke.historyStep = (afterOneStroke.history.length : Int) - 1 ∧
      redo displayList afterOneStroke = afterOneStroke) :=
  ⟨⟨by decide, ((undo_redo_noop_at_ends displayList afterOneStroke).1 (by decide)).1⟩,
    ⟨by decide, ((undo_redo_noop_at_ends displayList afterOneStroke).2 (by decide)).1⟩⟩

/-- C5: in every state reached from the constructor the cursor satisfies
`-1 <= historyStep <= history.length - 1`, and it is `-1` exactly when the
history is empty; `undo` and `redo` leave the history list as it is; and right
after `saveState`, also when `startDrawing`, `clearCanvas` or a loaded image
calls it, `historyStep = history.length - 1`. -/
theorem history_cursor_invariant (S : Surface R) (c : Canvas2D R) (h : Reachable S c)
    (pos : Point) (img : R) :
    (-1 ≤ c.historyStep ∧ c.historyStep ≤ (c.history.length : Int) - 1 ∧
      (c.historyStep = -1 ↔ c.history = [])) ∧
    (undo S c).history = c.history ∧
    (redo S c).history = c.history ∧
    (saveState c).historyStep = ((saveState c).history.length : Int) - 1 ∧
    (startDrawing pos c).historyStep = ((startDrawing pos c).history.length : Int) - 1 ∧
    (clearCanvas S c).historyStep = ((clearCanvas S c).history.length : Int) - 1 ∧
    (loadCanvas S img c).historyStep = ((loadCanvas S img c).history.length : Int) - 1 := by
  have hinv := reachable_inv S c h
  have key : ∀ d : Canvas2D R, HistoryInv d →
      (saveState d).historyStep = ((saveState d).history.length : Int) - 1 := by
    intro d hd
    rw [saveState_history_length d hd, saveState_historyStep]
    omega
  obtain ⟨h1, h2, h3⟩ := hinv
  refine ⟨⟨h1, by omega, ?_⟩, undo_history S c, redo_history S c, key c ⟨h1, h2, h3⟩, ?_,
    key _ ⟨h1, h2, h3⟩, key _ ⟨h1, h2, h3⟩⟩
  · constructor
    · intro he
      cases hc : c.history with
      | nil => rfl
      | cons a l =>
        rw [hc] at h3
        simp at h3
        omega
    · intro he
      rw [he] at h2
      simp at h2
      omega
  · have hs := startDrawing_history pos c
    rw [hs.2, hs.1]
    exact key { c with isDrawing := true, lastX := pos.x, lastY := pos.y } ⟨h1, h2, h3⟩

/-- C5 at the state after two strokes and one undo, which the constructor
reaches by seven events. -/
theorem history_cursor_invariant_witness :
    Reachable displayList afterTwoStrokesAndUndo ∧
    ((-1 ≤ afterTwoStrokesAndUndo.historyStep ∧
      afterTwoStrokesAndUndo.historyStep ≤ (afterTwoStrokesAndUndo.history.length : Int) - 1 ∧
      (afterTwoStrokesAndUndo.historyStep = -1 ↔ afterTwoStrokesAndUndo.history = [])) ∧
    (undo displayList afterTwoStrokesAndUndo).history = afterTwoStrokesAndUndo.history ∧
    (redo displayList afterTwoStrokesAndUndo).history = afterTwoStrokesAndUndo.history ∧
    (saveState afterTwoStrokesAndUndo).historyStep =
      ((saveState afterTwoStrokesAndUndo).history.length : Int) - 1 ∧
    (startDrawing ⟨5, 5⟩ afterTwoStrokesAndUndo).historyStep =
      ((startDrawing ⟨5, 5⟩ afterTwoStrokesAndUndo).history.length : Int) - 1 ∧
    (clearCanvas displayList afterTwoStrokesAndUndo).historyStep =
      ((clearCanvas displayList afterTwoStrokesAndUndo).history.length : Int) - 1 ∧
    (loadCanvas displayList [] afterTwoStrokesAndUndo).historyStep =
      ((loadCanvas displayList [] afterTwoStrokesAndUndo).history.length : Int) - 1) :=
  have hr : Reachable displayList afterTwoStrokesAndUndo :=
    ⟨[], false, "local", none,
      [.startDrawing ⟨10, 10⟩, .draw ⟨50, 50⟩, .stopDrawing,
       .startDrawing ⟨20, 20⟩, .draw ⟨60, 20⟩, .stopDrawing, .undo], rfl⟩
  ⟨hr, history_cursor_invariant displayList afterTwoStrokesAndUndo hr ⟨5, 5⟩ []⟩

/-- C14, the code at the failing input: a socket message of another user
without a `position` entry. `handleRemoteDrawing` writes the remote tool,
colour and size to the controller and raises when it reads `data.position.x`;
the lines that write the local values back do not run, so on a collaborative
controller (pen, black, size 2) the eraser, red and size 9 of the message stay.
In general: without a position the handler raises and leaves the remote
values; with a position it returns, the three settings are as before the call
and the segment is stroked with the context's line width and colour, which
take the remote size unless it is zero and the remote colour when it is one;
for a message of the local user the controller is returned unchanged. -/
theorem handleRemoteDrawing_raise_keeps_remote_settings :
    (collabCanvas.currentTool = "pen" ∧ collabCanvas.currentColor = "#000000" ∧
      collabCanvas.currentSize = 2) ∧
    (∃ e, handleRemoteDrawing displayList remoteEraserWithoutPosition collabCanvas = .error e ∧
      e.state.currentTool = "eraser" ∧ e.state.currentColor = "#ff0000" ∧
      e.state.currentSize = 9 ∧ e.state.raster = collabCanvas.raster) ∧
    (step displayList collabCanvas (CanvasOp.remote remoteEraserWithoutPosition)).currentTool =
      "eraser" ∧
    (∀ (T : Type) (S : Surface T) (data : DrawingUpdate) (c : Canvas2D T),
      data.user ≠ c.currentUser → data.position = none →
      ∃ e, handleRemoteDrawing S data c = .error e ∧
        e.state.currentTool = data.tool ∧ e.state.currentColor = data.color ∧
        e.state.currentSize = data.size ∧ e.state.raster = c.raster) ∧
    (∀ (T : Type) (S : Surface T) (data : DrawingUpdate) (c : Canvas2D T) (pos : Point),
      data.user ≠ c.currentUser → data.position = some pos →
      ∃ c1, handleRemoteDrawing S data c = .ok c1 ∧
        c1.currentTool = c.currentTool ∧ c1.currentColor = c.currentColor ∧
        c1.currentSize = c.currentSize ∧
        c1.lineWidth = (if data.size = 0 then c.lineWidth else data.size) ∧
        c1.strokeStyle = (if S.isColor data.color then data.color else c.strokeStyle) ∧
        c1.raster =
          S.paint
            (Paint.stroke (c.path ++ [PathCmd.lineTo pos.x pos.y]) c1.lineWidth c1.strokeStyle
              c.globalCompositeOperation) c.raster) ∧
    (∀ (T : Type) (S : Surface T) (data : DrawingUpdate) (c : Canvas2D T),
      data.user = c.currentUser → handleRemoteDrawing S data c = .ok c) := by
  refine ⟨by decide, ⟨_, rfl, by decide, by decide, by decide, by decide⟩, by decide, ?_, ?_, ?_⟩
  · intro T S data c huser hpos
    unfold handleRemoteDrawing
    rw [if_neg huser]
    simp only [hpos]
    obtain ⟨w, s, h⟩ := setContext_frame S data.size data.color
      ({ c with currentTool := data.tool, currentColor := data.color, currentSize := data.size })
    exact ⟨_, rfl, by rw [h], by rw [h], by rw [h], by rw [h]⟩
  · intro T S data c pos huser hpos
    unfold handleRemoteDrawing
    rw [if_neg huser]
    simp only [hpos]
    refine ⟨_, rfl, rfl, rfl, rfl, ?_, ?_, ?_⟩
    · unfold setStrokeStyle setLineWidth
      split <;> split <;> rfl
    · unfold setStrokeStyle setLineWidth
      split <;> split <;> rfl
    · unfold setStrokeStyle setLineWidth
      split <;> split <;> rfl
  · intro T S data c huser
    unfold handleRemoteDrawing
    rw [if_pos huser]

end Canvas2D

/-! ## Realtime session controller: latency window and quality tier -/

namespace FiveGIntegration

theorem pushLatency_eq_drop (w : List Int) (x : Int) (hw : w.length ≤ 100) :
    pushLatency w x = (w ++ [x]).drop ((w ++ [x]).length - 100) := by
  unfold pushLatency
  simp only [List.length_append, List.length_singleton]
  split
  · have hlen : w.length = 100 := by omega
    rw [hlen]
    cases w with
    | nil => simp at hlen
    | cons a l => simp
  · have h0 : w.length + 1 - 100 = 0 := by omega
    rw [h0]
    rfl

theorem pushLatency_length_le (w : List Int) (x : Int) (hw : w.length ≤ 100) :
    (pushLatency w x).length ≤ 100 := by
  rw [pushLatency_eq_drop w x hw]
  simp only [List.length_drop, List.length_append, List.length_singleton]
  omega

theorem pushLatency_ne_nil (w : List Int) (x : Int) : pushLatency w x ≠ [] := by
  unfold pushLatency
  cases w with
  | nil => simp
  | cons a l =>
    simp only [List.cons_append, List.length_cons, List.tail_cons]
    split <;> simp

theorem feed_latencyStats (samples : List Int) (c : FiveGIntegration)
    (hc : c.latencyStats.length ≤ 100) :
    (feed c samples).latencyStats =
      (c.latencyStats ++ samples).drop ((c.latencyStats ++ samples).length - 100) := by
  induction samples generalizing c with
  | nil =>
    have h0 : (c.latencyStats ++ []).length - 100 = 0 := by
      simp only [List.append_nil]
      omega
    rw [h0]
    simp [feed]
  | cons x xs ih =>
    have hstep : feed c (x :: xs) = feed (updateLatencyStats c x) xs := rfl
    have hstats : (updateLatencyStats c x).latencyStats = pushLatency c.latencyStats x := rfl
    rw [hstep, ih _ (by rw [hstats]; exact pushLatency_length_le _ _ hc), hstats,
      pushLatency_eq_drop _ _ hc]
    have hle : (c.latencyStats ++ [x]).length - 100 ≤ (c.latencyStats ++ [x]).length := by omega
    rw [← List.drop_append_of_le_length hle, List.drop_drop]
    have happ : c.latencyStats ++ [x] ++ xs = c.latencyStats ++ x :: xs := by simp
    rw [happ]
    have hidx : ∀ a b : Nat, a = b →
        List.drop a (c.latencyStats ++ x :: xs) = List.drop b (c.latencyStats ++ x :: xs) := by
      intro a b hab
      rw [hab]
    apply hidx
    simp only [List.length_drop, List.length_append, List.length_singleton, List.length_cons,
      List.length_nil]
    omega

theorem setOptimizationLevel_frame (c : FiveGIntegration) (level : String) :
    ∃ (videoQuality : Option String) (frameRate : Option Nat),
      c.setOptimizationLevel level =
        { c with videoQuality := videoQuality, frameRate := frameRate } := by
  unfold setOptimizationLevel
  split_ifs <;> exact ⟨_, _, rfl⟩

theorem updateNetworkInfo_frame (c : FiveGIntegration) :
    ∃ (videoQuality : Option String) (frameRate : Option Nat),
      c.updateNetworkInfo = { c with videoQuality := videoQuality, frameRate := frameRate } := by
  unfold updateNetworkInfo
  split
  · unfold optimizeForNetworkConditions
    split_ifs <;> exact setOptimizationLevel_frame c _
  · exact ⟨c.videoQuality, c.frameRate, rfl⟩

theorem init_frame (c : FiveGIntegration) :
    ∃ (videoQuality : Option String) (frameRate : Option Nat),
      c.init = { c with
        dataSocket := some ReadyState.CONNECTING
        mediaSocket := some ReadyState.CONNECTING
        videoQuality := videoQuality
        frameRate := frameRate
        timers := c.timers ++
          [{ handle := c.nextHandle, repeating := true, delay := 1000,
             action := TimerAction.measureLatency },
           { handle := c.nextHandle + 1, repeating := true, delay := 5000,
             action := TimerAction.collectPerformanceMetrics }]
        nextHandle := c.nextHandle + 1 + 1 } := by
  obtain ⟨vq, fr, h⟩ := updateNetworkInfo_frame c.setupWebSockets
  refine ⟨vq, fr, ?_⟩
  unfold init setupNetworkMonitoring startPerformanceMonitoring
  rw [h]
  simp [setInterval, setupWebSockets]

theorem new_latencyStats (sessionId user : Option String)
    (networkSlicing edgeComputing massiveIoT : Bool) (networkInfo : Option NetworkInfo)
    (webrtc mediaDevices hasCanvas : Bool) :
    (new sessionId user networkSlicing edgeComputing massiveIoT networkInfo webrtc mediaDevices
      hasCanvas).latencyStats = [] := by
  unfold new
  obtain ⟨vq, fr, h⟩ := init_frame
    { sessionId := sessionId
      userId := if truthyId user then user.getD "anonymous" else "anonymous"
      isConnected := false
      dataSocket := none
      mediaSocket := none
      peerConnection := none
      peerConnections := []
      connections := []
      dataChannels := []
      localStream := false
      networkSlicing := networkSlicing
      edgeComputing := edgeComputing
      massiveIoT := massiveIoT
      latencyStats := []
      connectionQuality := "excellent"
      networkInfo := networkInfo
      videoQuality := none
      frameRate := none
      timers := []
      nextHandle := 1
      dataStreamInterval := none
      webrtc := webrtc
      mediaDevices := mediaDevices
      hasCanvas := hasCanvas
      sent := []
      notifications := []
      captureRequests := []
      applied := [] }
  rw [h]

/-- C6: after `n` samples passed one by one to `updateLatencyStats` from the
empty window the constructor leaves, `latencyStats` is the last `min(n, 100)`
samples in arrival order; its length is `min(n, 100)`, never above 100; after
the 120 samples 1, 2, ..., 120 it holds exactly 21, ..., 120. -/
theorem latency_window_keeps_last_100 (sessionId user : Option String)
    (networkSlicing edgeComputing massiveIoT : Bool) (networkInfo : Option NetworkInfo)
    (webrtc mediaDevices hasCanvas : Bool) (samples : List Int) :
    (feed (new sessionId user networkSlicing edgeComputing massiveIoT networkInfo webrtc
      mediaDevices hasCanvas) samples).latencyStats = samples.drop (samples.length - 100) ∧
    (feed (new sessionId user networkSlicing edgeComputing massiveIoT networkInfo webrtc
      mediaDevices hasCanvas) samples).latencyStats.length = min samples.length 100 ∧
    (feed (new sessionId user networkSlicing edgeComputing massiveIoT networkInfo webrtc
      mediaDevices hasCanvas) samples).latencyStats.length ≤ 100 ∧
    (feed freshSession ((List.range' 1 120).map Int.ofNat)).latencyStats =
      (List.range' 21 100).map Int.ofNat := by
  have key : ∀ (c : FiveGIntegration), c.latencyStats = [] → ∀ l : List Int,
      (feed c l).latencyStats = l.drop (l.length - 100) := by
    intro c hc l
    have h := feed_latencyStats l c (by simp [hc])
    simpa [hc] using h
  have hnew := new_latencyStats sessionId user networkSlicing edgeComputing massiveIoT
    networkInfo webrtc mediaDevices hasCanvas
  refine ⟨key _ hnew samples, ?_, ?_, ?_⟩
  · rw [key _ hnew samples, List.length_drop]
    omega
  · rw [key _ hnew samples, List.length_drop]
    omega
  · rw [key freshSession rfl]
    simp only [List.length_map, List.length_range', ← List.map_drop]
    congr 1

theorem qualityOf_cases (avg : ℚ) :
    (avg < 10 → qualityOf avg = "excellent") ∧
    (10 ≤ avg ∧ avg < 50 → qualityOf avg = "good") ∧
    (50 ≤ avg ∧ avg < 100 → qualityOf avg = "fair") ∧
    (100 ≤ avg → qualityOf avg = "poor") := by
  unfold qualityOf
  refine ⟨?_, ?_, ?_, ?_⟩
  · intro h
    rw [if_pos h]
  · rintro ⟨h1, h2⟩
    rw [if_neg (not_lt.mpr h1), if_pos h2]
  · rintro ⟨h1, h2⟩
    rw [if_neg (not_lt.mpr (le_trans (by norm_num) h1)), if_neg (not_lt.mpr h1), if_pos h2]
  · intro h
    rw [if_neg (not_lt.mpr (le_trans (by norm_num) h)),
      if_neg (not_lt.mpr (le_trans (by norm_num) h)), if_neg (not_lt.mpr h)]

/-- C7: after every call of `updateLatencyStats` the window is non-empty, so
the average `a` (sum of the window over its length) is defined, and
`connectionQuality` is `excellent` for `a < 10`, `good` for `10 <= a < 50`,
`fair` for `50 <= a < 100` and `poor` for `a >= 100`; windows with averages 5,
30, 80 and 150 give excellent, good, fair and poor. -/
theorem quality_tier_of_average (c : FiveGIntegration) (latency : Int) :
    (updateLatencyStats c latency).latencyStats ≠ [] ∧
    (updateLatencyStats c latency).latencyStats.length ≠ 0 ∧
    (avgLatency (updateLatencyStats c latency).latencyStats < 10 →
      (updateLatencyStats c latency).connectionQuality = "excellent") ∧
    (10 ≤ avgLatency (updateLatencyStats c latency).latencyStats ∧
      avgLatency (updateLatencyStats c latency).latencyStats < 50 →
      (updateLatencyStats c latency).connectionQuality = "good") ∧
    (50 ≤ avgLatency (updateLatencyStats c latency).latencyStats ∧
      avgLatency (updateLatencyStats c latency).latencyStats < 100 →
      (updateLatencyStats c latency).connectionQuality = "fair") ∧
    (100 ≤ avgLatency (updateLatencyStats c latency).latencyStats →
      (updateLatencyStats c latency).connectionQuality = "poor") ∧
    (avgLatency (feed freshSession [4, 6]).latencyStats = 5 ∧
      (feed freshSession [4, 6]).connectionQuality = "excellent") ∧
    (avgLatency (feed freshSession [20, 30, 40]).latencyStats = 30 ∧
      (feed freshSession [20, 30, 40]).connectionQuality = "good") ∧
    (avgLatency (feed freshSession [80]).latencyStats = 80 ∧
      (feed freshSession [80]).connectionQuality = "fair") ∧
    (avgLatency (feed freshSession [100, 200]).latencyStats = 150 ∧
      (feed freshSession [100, 200]).connectionQuality = "poor") := by
  have hne := pushLatency_ne_nil c.latencyStats latency
  have hq := qualityOf_cases (avgLatency (pushLatency c.latencyStats latency))
  refine ⟨hne, ?_, hq.1, hq.2.1, hq.2.2.1, hq.2.2.2, ?_, ?_, ?_, ?_⟩
  · intro h
    exact hne (List.length_eq_zero.mp h)
  all_goals
    have h0 : freshSession.latencyStats = [] := rfl
    simp [feed, updateLatencyStats, pushLatency, h0, avgLatency, qualityOf]
    try norm_num

end FiveGIntegration

/-! ## Scene editor controller: deletion and the ground object -/

namespace Canvas3D

theorem deref_modifyObject (c : Canvas3D) (r q : Nat) (f : Object3D → Object3D) :
    (c.modifyObject r f).deref q = if q = r then (c.deref r).map f else c.deref q := by
  unfold modifyObject deref
  cases h : c.heap.get? r with
  | none =>
    by_cases hq : q = r
    · subst hq
      simp [h]
      exact List.get?_eq_none.mp h
    · simp [hq]
  | some o =>
    by_cases hq : q = r
    · subst hq
      have hlt : q < c.heap.length := by
        rcases Nat.lt_or_ge q c.heap.length with hl | hl
        · exact hl
        · rw [List.get?_eq_none.mpr hl] at h
          exact absurd h (by simp)
      simp [List.getElem?_set, hlt]
    · have hne : ¬ r = q := fun e => hq e.symm
      simp [List.getElem?_set, hq, hne]

theorem modifyObject_objects (c : Canvas3D) (r : Nat) (f : Object3D → Object3D) :
    (c.modifyObject r f).objects = c.objects := by
  unfold modifyObject
  split <;> rfl

theorem modifyObject_length (c : Canvas3D) (r : Nat) (f : Object3D → Object3D) :
    (c.modifyObject r f).heap.length = c.heap.length := by
  unfold modifyObject
  split
  · simp
  · rfl

theorem modifyObject_selected (c : Canvas3D) (r : Nat) (f : Object3D → Object3D) :
    (c.modifyObject r f).selectedObject = c.selectedObject := by
  unfold modifyObject
  split <;> rfl

theorem deref_lt (c : Canvas3D) (r : Nat) (o : Object3D) (h : c.deref r = some o) :
    r < c.heap.length := by
  unfold deref at h
  rcases Nat.lt_or_ge r c.heap.length with hl | hl
  · exact hl
  · rw [List.get?_eq_none.mpr hl] at h
    exact absurd h (by simp)

theorem deref_alloc (c : Canvas3D) (o : Object3D) (q : Nat) :
    (c.alloc o).1.deref q = if q = c.heap.length then some o else c.deref q := by
  unfold alloc deref
  simp only [List.get?_eq_getElem?]
  by_cases hq : q = c.heap.length
  · subst hq
    simp
  · rw [if_neg hq]
    rcases Nat.lt_or_ge q c.heap.length with hl | hl
    · rw [List.getElem?_append_left hl]
    · have hgt : c.heap.length < q := by omega
      rw [List.getElem?_eq_none (by simp; omega), List.getElem?_eq_none (by omega)]

theorem sceneChildren_modifyObject (c : Canvas3D) (r : Nat) (f : Object3D → Object3D)
    (hf : r = sceneRef → ∀ o, (f o).children = o.children) :
    (c.modifyObject r f).sceneChildren = c.sceneChildren := by
  unfold sceneChildren
  rw [deref_modifyObject]
  by_cases hr : sceneRef = r
  · rw [if_pos hr, ← hr]
    cases c.deref sceneRef with
    | none => rfl
    | some root => simp [hf hr.symm]
  · rw [if_neg hr]

theorem sceneChildren_modifyObject_ne (c : Canvas3D) (r : Nat) (f : Object3D → Object3D)
    (hr : r ≠ sceneRef) : (c.modifyObject r f).sceneChildren = c.sceneChildren := by
  unfold sceneChildren
  rw [deref_modifyObject, if_neg (fun e => hr e.symm)]

theorem sceneChildren_alloc (c : Canvas3D) (o : Object3D) (h : 0 < c.heap.length) :
    (c.alloc o).1.sceneChildren = c.sceneChildren := by
  unfold sceneChildren
  rw [deref_alloc, if_neg]
  unfold sceneRef
  omega

theorem sceneChildren_sceneAdd (c : Canvas3D) (r : Nat) (h : 0 < c.heap.length) :
    (c.sceneAdd r).sceneChildren = c.sceneChildren ++ [r] := by
  unfold sceneAdd sceneChildren
  rw [deref_modifyObject, if_pos rfl]
  cases hd : c.deref sceneRef with
  | none =>
    unfold deref sceneRef at hd
    rw [List.get?_eq_none] at hd
    omega
  | some root => rfl

theorem sceneChildren_sceneRemove (c : Canvas3D) (r : Nat) :
    (c.sceneRemove r).sceneChildren = c.sceneChildren.erase r := by
  unfold sceneRemove sceneChildren
  rw [deref_modifyObject, if_pos rfl]
  cases hd : c.deref sceneRef with
  | none => rfl
  | some root => rfl

theorem alloc_objects (c : Canvas3D) (o : Object3D) : (c.alloc o).1.objects = c.objects := rfl

theorem alloc_length (c : Canvas3D) (o : Object3D) :
    (c.alloc o).1.heap.length = c.heap.length + 1 := by
  simp [alloc]

theorem alloc_snd (c : Canvas3D) (o : Object3D) : (c.alloc o).2 = c.heap.length := rfl

theorem deref_congr {c d : Canvas3D} (hh : d.heap = c.heap) (r : Nat) : d.deref r = c.deref r := by
  unfold deref
  rw [hh]

theorem nameOf_congr {c d : Canvas3D} (hh : d.heap = c.heap) (r : Nat) :
    d.nameOf r = c.nameOf r := by
  unfold nameOf
  rw [deref_congr hh]

theorem sceneChildren_congr {c d : Canvas3D} (hh : d.heap = c.heap) :
    d.sceneChildren = c.sceneChildren := by
  unfold sceneChildren
  rw [deref_congr hh]

theorem getObjectByName_congr {c d : Canvas3D} (hh : d.heap = c.heap) (name : String) :
    d.getObjectByName name = c.getObjectByName name := by
  unfold getObjectByName
  rw [nameOf_congr hh, sceneChildren_congr hh]
  have hf : d.findInChild name = c.findInChild name := by
    funext r
    unfold findInChild
    rw [deref_congr hh]
    cases c.deref r with
    | none => rfl
    | some o =>
      simp only
      have hn : (fun g => decide (d.nameOf g = some name)) =
          (fun g => decide (c.nameOf g = some name)) := by
        funext g
        rw [nameOf_congr hh]
      rw [hn]
  rw [hf]

theorem SceneInv.of_eq {c d : Canvas3D} (h : SceneInv c) (hh : d.heap = c.heap)
    (ho : d.objects = c.objects) : SceneInv d where
  ground_lt := by rw [hh]; exact h.ground_lt
  scene_nodup := by rw [sceneChildren_congr hh]; exact h.scene_nodup
  objects_nodup := by rw [ho]; exact h.objects_nodup
  scene_lt := by rw [sceneChildren_congr hh, hh]; exact h.scene_lt
  objects_lt := by rw [ho, hh]; exact h.objects_lt
  ground_tracked := by rw [sceneChildren_congr hh, ho]; exact h.ground_tracked
  ground_in_scene := by rw [sceneChildren_congr hh, nameOf_congr hh]; exact h.ground_in_scene
  ground_top := by
    intro r o hr hd
    rw [deref_congr hh] at hd
    exact h.ground_top r o hr hd

theorem SceneInv.modifyGen {c : Canvas3D} (h : SceneInv c) (r : Nat) (f : Object3D → Object3D)
    (hf : r = sceneRef → ∀ o, (f o).children = o.children)
    (htop : ∀ o, groundRef ∉ o.children → groundRef ∉ (f o).children)
    (hn : r = groundRef → (∀ o, (f o).name = o.name) ∨ groundRef ∈ c.sceneChildren) :
    SceneInv (c.modifyObject r f) where
  ground_lt := by rw [modifyObject_length]; exact h.ground_lt
  scene_nodup := by rw [sceneChildren_modifyObject c r f hf]; exact h.scene_nodup
  objects_nodup := by rw [modifyObject_objects]; exact h.objects_nodup
  scene_lt := by
    rw [sceneChildren_modifyObject c r f hf, modifyObject_length]
    exact h.scene_lt
  objects_lt := by
    rw [modifyObject_objects, modifyObject_length]
    exact h.objects_lt
  ground_tracked := by
    rw [sceneChildren_modifyObject c r f hf, modifyObject_objects]
    exact h.ground_tracked
  ground_in_scene := by
    rw [sceneChildren_modifyObject c r f hf]
    intro hname
    by_cases hr : r = groundRef
    · rcases hn hr with hkeep | hin
      · apply h.ground_in_scene
        unfold nameOf at hname ⊢
        rw [deref_modifyObject, if_pos hr.symm, hr] at hname
        cases hd : c.deref groundRef with
        | none => rw [hd] at hname; simp at hname
        | some o =>
          rw [hd] at hname
          simp only [Option.map_some', Option.some.injEq] at hname ⊢
          rw [← hkeep o]
          exact hname
      · exact hin
    · apply h.ground_in_scene
      unfold nameOf at hname ⊢
      rw [deref_modifyObject, if_neg (fun e => hr e.symm)] at hname
      exact hname
  ground_top := by
    intro q o hq hd
    rw [deref_modifyObject] at hd
    by_cases hqr : q = r
    · rw [if_pos hqr] at hd
      cases hd0 : c.deref r with
      | none => rw [hd0] at hd; simp at hd
      | some o0 =>
        rw [hd0] at hd
        simp only [Option.map_some', Option.some.injEq] at hd
        rw [← hd]
        exact htop o0 (h.ground_top r o0 (hqr ▸ hq) hd0)
    · rw [if_neg hqr] at hd
      exact h.ground_top q o hq hd

theorem SceneInv.modify {c : Canvas3D} (h : SceneInv c) (r : Nat) (f : Object3D → Object3D)
    (hf : ∀ o, (f o).children = o.children)
    (hn : r = groundRef → (∀ o, (f o).name = o.name) ∨ groundRef ∈ c.sceneChildren) :
    SceneInv (c.modifyObject r f) :=
  h.modifyGen r f (fun _ => hf) (fun o ho => by rw [hf]; exact ho) hn

theorem nameOf_alloc (c : Canvas3D) (o : Object3D) (q : Nat) (hq : q < c.heap.length) :
    (c.alloc o).1.nameOf q = c.nameOf q := by
  unfold nameOf
  rw [deref_alloc, if_neg (by omega)]

theorem SceneInv.alloc {c : Canvas3D} (h : SceneInv c) (o : Object3D)
    (ho : groundRef ∉ o.children) : SceneInv (c.alloc o).1 where
  ground_lt := by rw [alloc_length]; exact Nat.lt_succ_of_lt h.ground_lt
  scene_nodup := by
    rw [sceneChildren_alloc c o (Nat.lt_of_le_of_lt (Nat.zero_le _) h.ground_lt)]
    exact h.scene_nodup
  objects_nodup := h.objects_nodup
  scene_lt := by
    rw [sceneChildren_alloc c o (Nat.lt_of_le_of_lt (Nat.zero_le _) h.ground_lt), alloc_length]
    intro r hr
    exact Nat.lt_succ_of_lt (h.scene_lt r hr)
  objects_lt := by
    rw [alloc_length]
    intro r hr
    exact Nat.lt_succ_of_lt (h.objects_lt r hr)
  ground_tracked := by
    rw [sceneChildren_alloc c o (Nat.lt_of_le_of_lt (Nat.zero_le _) h.ground_lt)]
    exact h.ground_tracked
  ground_in_scene := by
    rw [sceneChildren_alloc c o (Nat.lt_of_le_of_lt (Nat.zero_le _) h.ground_lt),
      nameOf_alloc c o groundRef h.ground_lt]
    exact h.ground_in_scene
  ground_top := by
    intro q o2 hq hd
    rw [deref_alloc] at hd
    by_cases hql : q = c.heap.length
    · rw [if_pos hql] at hd
      simp only [Option.some.injEq] at hd
      rw [← hd]
      exact ho
    · rw [if_neg hql] at hd
      exact h.ground_top q o2 hq hd

theorem sceneAdd_objects (c : Canvas3D) (r : Nat) : (c.sceneAdd r).objects = c.objects :=
  modifyObject_objects _ _ _

theorem sceneAdd_length (c : Canvas3D) (r : Nat) : (c.sceneAdd r).heap.length = c.heap.length :=
  modifyObject_length _ _ _

theorem sceneRemove_objects (c : Canvas3D) (r : Nat) : (c.sceneRemove r).objects = c.objects :=
  modifyObject_objects _ _ _

theorem sceneRemove_length (c : Canvas3D) (r : Nat) :
    (c.sceneRemove r).heap.length = c.heap.length :=
  modifyObject_length _ _ _

theorem deref_root_modify_ne (c : Canvas3D) (f : Object3D → Object3D) (q : Nat)
    (hq : q ≠ sceneRef) : (c.modifyObject sceneRef f).deref q = c.deref q := by
  rw [deref_modifyObject, if_neg hq]

theorem groundRef_ne_sceneRef : groundRef ≠ sceneRef := by decide

theorem SceneInv.sceneAdd {c : Canvas3D} (h : SceneInv c) (r : Nat) (hr : r < c.heap.length)
    (hnot : r ∉ c.sceneChildren) (hg : r ≠ groundRef) : SceneInv (c.sceneAdd r) where
  ground_lt := by rw [sceneAdd_length]; exact h.ground_lt
  scene_nodup := by
    rw [sceneChildren_sceneAdd c r (Nat.lt_of_le_of_lt (Nat.zero_le _) h.ground_lt)]
    exact List.Nodup.append h.scene_nodup (List.nodup_singleton r)
      (fun a ha hb => hnot (List.mem_singleton.mp hb ▸ ha))
  objects_nodup := by rw [sceneAdd_objects]; exact h.objects_nodup
  scene_lt := by
    rw [sceneChildren_sceneAdd c r (Nat.lt_of_le_of_lt (Nat.zero_le _) h.ground_lt),
      sceneAdd_length]
    intro q hq
    rcases List.mem_append.mp hq with hq | hq
    · exact h.scene_lt q hq
    · rw [List.mem_singleton.mp hq]
      exact hr
  objects_lt := by
    rw [sceneAdd_objects, sceneAdd_length]
    exact h.objects_lt
  ground_tracked := by
    rw [sceneChildren_sceneAdd c r (Nat.lt_of_le_of_lt (Nat.zero_le _) h.ground_lt),
      sceneAdd_objects]
    intro hq
    rcases List.mem_append.mp hq with hq | hq
    · exact h.ground_tracked hq
    · exact absurd (List.mem_singleton.mp hq).symm hg
  ground_in_scene := by
    rw [sceneChildren_sceneAdd c r (Nat.lt_of_le_of_lt (Nat.zero_le _) h.ground_lt)]
    intro hname
    apply List.mem_append_left
    apply h.ground_in_scene
    unfold nameOf Canvas3D.sceneAdd at *
    rw [deref_root_modify_ne c _ groundRef groundRef_ne_sceneRef] at hname
    exact hname
  ground_top := by
    intro q o hq hd
    unfold Canvas3D.sceneAdd at hd
    rw [deref_root_modify_ne c _ q hq] at hd
    exact h.ground_top q o hq hd

theorem SceneInv.sceneRemove {c : Canvas3D} (h : SceneInv c) (r : Nat)
    (hr : c.nameOf r ≠ some "Ground") : SceneInv (c.sceneRemove r) where
  ground_lt := by rw [sceneRemove_length]; exact h.ground_lt
  scene_nodup := by
    rw [sceneChildren_sceneRemove]
    exact h.scene_nodup.erase r
  objects_nodup := by rw [sceneRemove_objects]; exact h.objects_nodup
  scene_lt := by
    rw [sceneChildren_sceneRemove, sceneRemove_length]
    intro q hq
    exact h.scene_lt q (List.mem_of_mem_erase hq)
  objects_lt := by
    rw [sceneRemove_objects, sceneRemove_length]
    exact h.objects_lt
  ground_tracked := by
    rw [sceneChildren_sceneRemove, sceneRemove_objects]
    intro hq
    exact h.ground_tracked (List.mem_of_mem_erase hq)
  ground_in_scene := by
    rw [sceneChildren_sceneRemove]
    intro hname
    unfold nameOf Canvas3D.sceneRemove at hname
    rw [deref_root_modify_ne c _ groundRef groundRef_ne_sceneRef] at hname
    have hne : groundRef ≠ r := by
      intro e
      apply hr
      rw [← e]
      exact hname
    exact (List.mem_erase_of_ne hne).mpr (h.ground_in_scene hname)
  ground_top := by
    intro q o hq hd
    unfold Canvas3D.sceneRemove at hd
    rw [deref_root_modify_ne c _ q hq] at hd
    exact h.ground_top q o hq hd

theorem SceneInv.push {c : Canvas3D} (h : SceneInv c) (r : Nat) (hr : r < c.heap.length)
    (hnot : r ∉ c.objects) : SceneInv { c with objects := c.objects ++ [r] } where
  ground_lt := h.ground_lt
  scene_nodup := h.scene_nodup
  objects_nodup :=
    List.Nodup.append h.objects_nodup (List.nodup_singleton r)
      (fun a ha hb => hnot (List.mem_singleton.mp hb ▸ ha))
  scene_lt := h.scene_lt
  objects_lt := by
    intro q hq
    rcases List.mem_append.mp hq with hq | hq
    · exact h.objects_lt q hq
    · rw [List.mem_singleton.mp hq]
      exact hr
  ground_tracked := fun hq => List.mem_append_left _ (h.ground_tracked hq)
  ground_in_scene := h.ground_in_scene
  ground_top := h.ground_top

theorem SceneInv.eraseObject {c : Canvas3D} (h : SceneInv c) (r : Nat)
    (hr : r ∉ c.sceneChildren) : SceneInv { c with objects := c.objects.erase r } where
  ground_lt := h.ground_lt
  scene_nodup := h.scene_nodup
  objects_nodup := h.objects_nodup.erase r
  scene_lt := h.scene_lt
  objects_lt := fun q hq => h.objects_lt q (List.mem_of_mem_erase hq)
  ground_tracked := by
    intro hq
    have hne : groundRef ≠ r := by
      intro e
      apply hr
      rw [← e]
      exact hq
    exact (List.mem_erase_of_ne hne).mpr (h.ground_tracked hq)
  ground_in_scene := h.ground_in_scene
  ground_top := h.ground_top

theorem broadcast_heap (c : Canvas3D) (action : String) (r : Nat) :
    (c.broadcastObjectChange action r).heap = c.heap := by
  unfold broadcastObjectChange
  split
  · split <;> rfl
  · rfl

theorem broadcast_objects (c : Canvas3D) (action : String) (r : Nat) :
    (c.broadcastObjectChange action r).objects = c.objects := by
  unfold broadcastObjectChange
  split
  · split <;> rfl
  · rfl

theorem broadcast_selected (c : Canvas3D) (action : String) (r : Nat) :
    (c.broadcastObjectChange action r).selectedObject = c.selectedObject := by
  unfold broadcastObjectChange
  split
  · split <;> rfl
  · rfl

theorem SceneInv.broadcast {c : Canvas3D} (h : SceneInv c) (action : String) (r : Nat) :
    SceneInv (c.broadcastObjectChange action r) :=
  h.of_eq (broadcast_heap c action r) (broadcast_objects c action r)

theorem SceneInv.broadcastIf {c : Canvas3D} (h : SceneInv c) (b : Bool) (action : String)
    (r : Nat) : SceneInv (if b then c.broadcastObjectChange action r else c) := by
  split
  · exact h.broadcast action r
  · exact h

theorem findInChild_name (c : Canvas3D) (name : String) (q r : Nat)
    (h : c.findInChild name q = some r) : c.nameOf r = some name := by
  unfold findInChild at h
  cases hd : c.deref q with
  | none => rw [hd] at h; simp at h
  | some o =>
    rw [hd] at h
    simp only at h
    split at h
    · rename_i hname
      simp only [Option.some.injEq] at h
      rw [← h]
      unfold nameOf
      rw [hd]
      simp [hname]
    · have := List.find?_some h
      simpa using this

theorem getObjectByName_name (c : Canvas3D) (name : String) (r : Nat)
    (h : c.getObjectByName name = some r) : c.nameOf r = some name := by
  unfold getObjectByName at h
  split at h
  · rename_i hroot
    simp only [Option.some.injEq] at h
    rw [← h]
    exact hroot
  · obtain ⟨q, _, hq⟩ := List.exists_of_findSome?_eq_some h
    exact findInChild_name c name q r hq

theorem getObjectByName_ground (c : Canvas3D) (h : SceneInv c) (name : String)
    (hg : c.getObjectByName name = some groundRef) : groundRef ∈ c.sceneChildren := by
  unfold getObjectByName at hg
  split at hg
  · simp only [Option.some.injEq] at hg
    exact absurd hg.symm groundRef_ne_sceneRef
  · obtain ⟨q, hqmem, hq⟩ := List.exists_of_findSome?_eq_some hg
    unfold findInChild at hq
    cases hd : c.deref q with
    | none => rw [hd] at hq; simp at hq
    | some o =>
      rw [hd] at hq
      simp only at hq
      split at hq
      · simp only [Option.some.injEq] at hq
        rw [← hq]
        exact hqmem
      · have hmem : groundRef ∈ o.children := List.mem_of_find?_eq_some hq
        by_cases hq0 : q = sceneRef
        · unfold sceneChildren
          rw [← hq0, hd]
          exact hmem
        · exact absurd hmem (h.ground_top q o hq0 hd)

theorem addMesh_eq (c : Canvas3D) (label type : String) (defaultColor : Nat)
    (position : Vec3) (options : AddOptions) (now : Nat) :
    ∃ mesh : Object3D, mesh.children = [] ∧
      (c.addMesh label type defaultColor position options now).2 = c.heap.length ∧
      (c.addMesh label type defaultColor position options now).1 =
        (if ({ ((c.alloc mesh).1.sceneAdd c.heap.length) with
                objects := ((c.alloc mesh).1.sceneAdd c.heap.length).objects ++
                  [c.heap.length] } : Canvas3D).isCollaborative
         then ({ ((c.alloc mesh).1.sceneAdd c.heap.length) with
                objects := ((c.alloc mesh).1.sceneAdd c.heap.length).objects ++
                  [c.heap.length] } : Canvas3D).broadcastObjectChange "add" c.heap.length
         else { ((c.alloc mesh).1.sceneAdd c.heap.length) with
                objects := ((c.alloc mesh).1.sceneAdd c.heap.length).objects ++
                  [c.heap.length] }) :=
  ⟨_, rfl, rfl, rfl⟩

theorem SceneInv.added {c : Canvas3D} (h : SceneInv c) (o : Object3D)
    (ho : groundRef ∉ o.children) :
    SceneInv { ((c.alloc o).1.sceneAdd c.heap.length) with
      objects := ((c.alloc o).1.sceneAdd c.heap.length).objects ++ [c.heap.length] } := by
  have h1 := h.alloc o ho
  have hpos : 0 < c.heap.length := Nat.lt_of_le_of_lt (Nat.zero_le _) h.ground_lt
  have h2 : SceneInv ((c.alloc o).1.sceneAdd c.heap.length) := by
    apply h1.sceneAdd
    · rw [alloc_length]
      exact Nat.lt_succ_self _
    · rw [sceneChildren_alloc c o hpos]
      intro hmem
      exact Nat.lt_irrefl _ (h.scene_lt _ hmem)
    · exact fun e => Nat.lt_irrefl _ (e ▸ h.ground_lt)
  apply h2.push
  · rw [sceneAdd_length, alloc_length]
    exact Nat.lt_succ_self _
  · rw [sceneAdd_objects, alloc_objects]
    intro hmem
    exact Nat.lt_irrefl _ (h.objects_lt _ hmem)

theorem SceneInv.addMesh {c : Canvas3D} (h : SceneInv c) (label type : String)
    (defaultColor : Nat) (position : Vec3) (options : AddOptions) (now : Nat) :
    SceneInv (c.addMesh label type defaultColor position options now).1 := by
  obtain ⟨mesh, hch, _, heq⟩ := addMesh_eq c label type defaultColor position options now
  rw [heq]
  have h3 := h.added mesh (by rw [hch]; simp)
  split
  · exact h3.broadcast "add" _
  · exact h3

theorem addMesh_length (c : Canvas3D) (label type : String)
    (defaultColor : Nat) (position : Vec3) (options : AddOptions) (now : Nat) :
    (c.addMesh label type defaultColor position options now).1.heap.length =
      c.heap.length + 1 := by
  obtain ⟨mesh, _, _, heq⟩ := addMesh_eq c label type defaultColor position options now
  rw [heq]
  split
  · rw [broadcast_heap]
    show ((c.alloc mesh).1.sceneAdd c.heap.length).heap.length = _
    rw [sceneAdd_length, alloc_length]
  · show ((c.alloc mesh).1.sceneAdd c.heap.length).heap.length = _
    rw [sceneAdd_length, alloc_length]

theorem addLight_eq (c : Canvas3D) (position : Vec3) (now : Nat) :
    ∃ light helper : Object3D, light.children = [] ∧ helper.children = [] ∧
      (c.addLight position now).2 = c.heap.length ∧
      (c.addLight position now).1 =
        (if ({ ((((c.alloc light).1.alloc helper).1.modifyObject c.heap.length
                  (fun l => { l with children := l.children ++ [(c.alloc light).1.heap.length] })
                ).sceneAdd c.heap.length) with
                objects := ((((c.alloc light).1.alloc helper).1.modifyObject c.heap.length
                  (fun l => { l with children := l.children ++ [(c.alloc light).1.heap.length] })
                ).sceneAdd c.heap.length).objects ++ [c.heap.length] } : Canvas3D).isCollaborative
         then ({ ((((c.alloc light).1.alloc helper).1.modifyObject c.heap.length
                  (fun l => { l with children := l.children ++ [(c.alloc light).1.heap.length] })
                ).sceneAdd c.heap.length) with
                objects := ((((c.alloc light).1.alloc helper).1.modifyObject c.heap.length
                  (fun l => { l with children := l.children ++ [(c.alloc light).1.heap.length] })
                ).sceneAdd c.heap.length).objects ++ [c.heap.length] }
                : Canvas3D).broadcastObjectChange "add" c.heap.length
         else { ((((c.alloc light).1.alloc helper).1.modifyObject c.heap.length
                  (fun l => { l with children := l.children ++ [(c.alloc light).1.heap.length] })
                ).sceneAdd c.heap.length) with
                objects := ((((c.alloc light).1.alloc helper).1.modifyObject c.heap.length
                  (fun l => { l with children := l.children ++ [(c.alloc light).1.heap.length] })
                ).sceneAdd c.heap.length).objects ++ [c.heap.length] }) :=
  ⟨_, _, rfl, rfl, rfl, rfl⟩

theorem SceneInv.addLight {c : Canvas3D} (h : SceneInv c) (position : Vec3) (now : Nat) :
    SceneInv (c.addLight position now).1 := by
  obtain ⟨light, helper, hl, hh, _, heq⟩ := addLight_eq c position now
  rw [heq]
  have hpos : 0 < c.heap.length := Nat.lt_of_le_of_lt (Nat.zero_le _) h.ground_lt
  have h1 := h.alloc light (by rw [hl]; simp)
  have h2 := h1.alloc helper (by rw [hh]; simp)
  have hne : c.heap.length ≠ sceneRef := fun e => Nat.lt_irrefl _ (e ▸ hpos)
  have hgl : c.heap.length ≠ groundRef := fun e => Nat.lt_irrefl _ (e ▸ h.ground_lt)
  have h3 : SceneInv (((c.alloc light).1.alloc helper).1.modifyObject c.heap.length
      (fun l => { l with children := l.children ++ [(c.alloc light).1.heap.length] })) := by
    apply h2.modifyGen
    · intro e
      exact absurd e hne
    · intro o ho hmem
      rcases List.mem_append.mp hmem with hm | hm
      · exact ho hm
      · rw [List.mem_singleton, alloc_length] at hm
        have := h.ground_lt
        omega
    · intro e
      exact absurd e hgl
  have h4 : SceneInv ((((c.alloc light).1.alloc helper).1.modifyObject c.heap.length
      (fun l => { l with children := l.children ++ [(c.alloc light).1.heap.length] })
      ).sceneAdd c.heap.length) := by
    apply h3.sceneAdd
    · rw [modifyObject_length, alloc_length, alloc_length]
      omega
    · rw [sceneChildren_modifyObject_ne _ _ _ hne,
        sceneChildren_alloc _ _ (by rw [alloc_length]; omega), sceneChildren_alloc _ _ hpos]
      intro hmem
      exact Nat.lt_irrefl _ (h.scene_lt _ hmem)
    · exact hgl
  have h5 := h4.push c.heap.length
    (by rw [sceneAdd_length, modifyObject_length, alloc_length, alloc_length]; omega)
    (by
      rw [sceneAdd_objects, modifyObject_objects, alloc_objects, alloc_objects]
      intro hmem
      exact Nat.lt_irrefl _ (h.objects_lt _ hmem))
  split
  · exact h5.broadcast "add" _
  · exact h5

theorem SceneInv.deselectObject {c : Canvas3D} (h : SceneInv c) : SceneInv c.deselectObject := by
  unfold Canvas3D.deselectObject
  cases c.selectedObject with
  | none => exact h
  | some r =>
    simp only
    cases hb : c.getObjectByName "selection_box" with
    | none => exact h.of_eq rfl rfl
    | some box =>
      have hname := getObjectByName_name c _ box hb
      have h1 := h.sceneRemove box (by rw [hname]; decide)
      exact h1.of_eq rfl rfl

theorem SceneInv.boxed {c : Canvas3D} (h : SceneInv c) (box : Object3D)
    (hb : groundRef ∉ box.children) :
    SceneInv ((c.alloc box).1.sceneAdd (c.alloc box).2) := by
  have hpos : 0 < c.heap.length := Nat.lt_of_le_of_lt (Nat.zero_le _) h.ground_lt
  apply (h.alloc box hb).sceneAdd
  · rw [alloc_length, alloc_snd]
    exact Nat.lt_succ_self _
  · rw [sceneChildren_alloc _ _ hpos, alloc_snd]
    intro hmem
    exact Nat.lt_irrefl _ (h.scene_lt _ hmem)
  · rw [alloc_snd]
    exact fun e => Nat.lt_irrefl _ (e ▸ h.ground_lt)

theorem SceneInv.selectObject {c : Canvas3D} (h : SceneInv c) (r : Nat) :
    SceneInv (c.selectObject r) := by
  have h2 : SceneInv { c.deselectObject with selectedObject := some r } :=
    h.deselectObject.of_eq rfl rfl
  exact h2.boxed _ (by simp [blankObject])

theorem SceneInv.removeTracked {c : Canvas3D} (h : SceneInv c) (r : Nat)
    (hr : c.nameOf r ≠ some "Ground") :
    SceneInv { (c.sceneRemove r) with objects := (c.sceneRemove r).objects.erase r } := by
  apply (h.sceneRemove r hr).eraseObject
  rw [sceneChildren_sceneRemove]
  exact h.scene_nodup.not_mem_erase

theorem SceneInv.deleteSelectedObject {c : Canvas3D} (h : SceneInv c) :
    SceneInv c.deleteSelectedObject := by
  unfold Canvas3D.deleteSelectedObject
  cases c.selectedObject with
  | none => exact h
  | some r =>
    simp only
    split
    · rename_i hr
      exact ((h.removeTracked r hr).broadcastIf _ "delete" r).deselectObject
    · exact h

theorem SceneInv.deselectIf {c : Canvas3D} (h : SceneInv c) (p : Prop) [Decidable p] :
    SceneInv (if p then c.deselectObject else c) := by
  split
  · exact h.deselectObject
  · exact h

theorem SceneInv.deleteObject {c : Canvas3D} (h : SceneInv c) (objectName : String) :
    SceneInv (c.deleteObject objectName) := by
  unfold Canvas3D.deleteObject
  cases c.getObjectByName objectName with
  | none => exact h
  | some r =>
    simp only
    split
    · rename_i hr
      exact ((h.removeTracked r hr).deselectIf _).broadcastIf _ "delete" r
    · exact h

theorem SceneInv.updateObjectName {c : Canvas3D} (h : SceneInv c) (oldName newName : String) :
    SceneInv (c.updateObjectName oldName newName) := by
  unfold Canvas3D.updateObjectName
  cases hg : c.getObjectByName oldName with
  | none => exact h
  | some r =>
    simp only
    apply h.modify
    · intro o
      rfl
    · intro hr
      right
      rw [hr] at hg
      exact getObjectByName_ground c h oldName hg

theorem SceneInv.edit {c : Canvas3D} (h : SceneInv c) (r : Nat) (f : Object3D → Object3D)
    (hf : ∀ o, (f o).children = o.children) (hn : ∀ o, (f o).name = o.name) :
    SceneInv ((c.modifyObject r f).broadcastObjectChange "update" r) :=
  (h.modify r f hf (fun _ => Or.inl hn)).broadcast "update" r

theorem SceneInv.updateObjectPosition {c : Canvas3D} (h : SceneInv c) (axis : Axis)
    (value : ℚ) : SceneInv (c.updateObjectPosition axis value) := by
  unfold Canvas3D.updateObjectPosition
  cases c.selectedObject with
  | none => exact h
  | some r => exact h.edit r _ (fun _ => rfl) (fun _ => rfl)

theorem SceneInv.updateObjectRotation {c : Canvas3D} (h : SceneInv c) (axis : Axis)
    (value : ℚ) : SceneInv (c.updateObjectRotation axis value) := by
  unfold Canvas3D.updateObjectRotation
  cases c.selectedObject with
  | none => exact h
  | some r => exact h.edit r _ (fun _ => rfl) (fun _ => rfl)

theorem SceneInv.updateObjectScale {c : Canvas3D} (h : SceneInv c) (axis : Axis)
    (value : ℚ) : SceneInv (c.updateObjectScale axis value) := by
  unfold Canvas3D.updateObjectScale
  cases c.selectedObject with
  | none => exact h
  | some r => exact h.edit r _ (fun _ => rfl) (fun _ => rfl)

theorem SceneInv.updateObjectColor {c : Canvas3D} (h : SceneInv c) (color : Nat) :
    SceneInv (c.updateObjectColor color) := by
  unfold Canvas3D.updateObjectColor
  cases c.selectedObject with
  | none => exact h
  | some r =>
    simp only
    split
    · exact h.edit r _ (fun _ => rfl) (fun _ => rfl)
    · exact h

theorem SceneInv.updateObjectOpacity {c : Canvas3D} (h : SceneInv c) (opacity : ℚ) :
    SceneInv (c.updateObjectOpacity opacity) := by
  unfold Canvas3D.updateObjectOpacity
  cases c.selectedObject with
  | none => exact h
  | some r =>
    simp only
    split
    · exact h.edit r _ (fun _ => rfl) (fun _ => rfl)
    · exact h

theorem SceneInv.setTool {c : Canvas3D} (h : SceneInv c) (tool : String) :
    SceneInv (c.setTool tool) :=
  h.of_eq rfl rfl

theorem SceneInv.backToSelect {c : Canvas3D} (h : SceneInv c) :
    SceneInv ({ c with isAddingObject := false }.setTool "select") :=
  h.of_eq rfl rfl

theorem SceneInv.handleObjectAddition {c : Canvas3D} (h : SceneInv c) (hit : Option Vec3)
    (now : Nat) : SceneInv (c.handleObjectAddition hit now) := by
  unfold Canvas3D.handleObjectAddition
  cases c.getObjectByName "Ground" with
  | none => exact h
  | some g =>
    cases hit with
    | none => exact h
    | some point =>
      simp only
      apply SceneInv.backToSelect
      split
      · exact h.addMesh _ _ _ _ _ _
      · split
        · exact h.addMesh _ _ _ _ _ _
        · split
          · exact h.addMesh _ _ _ _ _ _
          · split
            · exact h.addLight _ _
            · exact h

theorem SceneInv.handleObjectSelection {c : Canvas3D} (h : SceneInv c) (hit : Option Nat) :
    SceneInv (c.handleObjectSelection hit) := by
  unfold Canvas3D.handleObjectSelection
  cases hit with
  | none => exact h.deselectObject
  | some r => exact h.selectObject r

theorem SceneInv.onMouseClick {c : Canvas3D} (h : SceneInv c) (groundHit : Option Vec3)
    (objectHit : Option Nat) (now : Nat) :
    SceneInv (c.onMouseClick groundHit objectHit now) := by
  unfold Canvas3D.onMouseClick
  split
  · exact h.handleObjectAddition groundHit now
  · exact h.handleObjectSelection objectHit

theorem SceneInv.renameFresh {c : Canvas3D} (h : SceneInv c) (label type : String)
    (defaultColor : Nat) (position : Vec3) (options : AddOptions) (now : Nat)
    (f : Object3D → Object3D) (hf : ∀ o, (f o).children = o.children) :
    SceneInv ((c.addMesh label type defaultColor position options now).1.modifyObject
      (c.addMesh label type defaultColor position options now).2 f) := by
  apply (h.addMesh label type defaultColor position options now).modify _ f hf
  intro e
  obtain ⟨_, _, hsnd, _⟩ := addMesh_eq c label type defaultColor position options now
  rw [hsnd] at e
  exact absurd e (fun e => Nat.lt_irrefl _ (e ▸ h.ground_lt))

theorem SceneInv.createObjectFromData {c : Canvas3D} (h : SceneInv c) (objectData : ObjectData)
    (now : Nat) : SceneInv (c.createObjectFromData objectData now) := by
  unfold Canvas3D.createObjectFromData
  simp only
  split
  · rename_i c1 r heq
    split at heq
    · simp only [Option.some.injEq] at heq
      have h1 := congrArg Prod.fst heq
      have h2 := congrArg Prod.snd heq
      dsimp only at h1 h2
      rw [← h1, ← h2]
      exact h.renameFresh _ _ _ _ _ _ _ (fun _ => rfl)
    · split at heq
      · simp only [Option.some.injEq] at heq
        have h1 := congrArg Prod.fst heq
        have h2 := congrArg Prod.snd heq
        dsimp only at h1 h2
        rw [← h1, ← h2]
        exact h.renameFresh _ _ _ _ _ _ _ (fun _ => rfl)
      · split at heq
        · simp only [Option.some.injEq] at heq
          have h1 := congrArg Prod.fst heq
          have h2 := congrArg Prod.snd heq
          dsimp only at h1 h2
          rw [← h1, ← h2]
          exact h.renameFresh _ _ _ _ _ _ _ (fun _ => rfl)
        · simp at heq
  · exact h

theorem SceneInv.updateObjectFromData {c : Canvas3D} (h : SceneInv c) (objectData : ObjectData) :
    SceneInv (c.updateObjectFromData objectData) := by
  unfold Canvas3D.updateObjectFromData
  cases c.getObjectByName objectData.name with
  | none => exact h
  | some r => exact h.modify r _ (fun _ => rfl) (fun _ => Or.inl (fun _ => rfl))

theorem SceneInv.handleRemoteUpdate {c : Canvas3D} (h : SceneInv c) (data : ObjectChange)
    (now : Nat) : SceneInv (c.handleRemoteUpdate data now) := by
  unfold Canvas3D.handleRemoteUpdate
  split
  · exact h
  · split
    · exact h.createObjectFromData _ now
    · split
      · exact h.updateObjectFromData _
      · split
        · exact h.deleteObject _
        · exact h

theorem saveScene_heap (c : Canvas3D) (response : SaveResponse) :
    (c.saveScene response).heap = c.heap ∧ (c.saveScene response).objects = c.objects := by
  unfold Canvas3D.saveScene
  split
  · split
    · split
      · split <;> exact ⟨rfl, rfl⟩
      · exact ⟨rfl, rfl⟩
    · exact ⟨rfl, rfl⟩
  · exact ⟨rfl, rfl⟩

theorem SceneInv.saveScene {c : Canvas3D} (h : SceneInv c) (response : SaveResponse) :
    SceneInv (c.saveScene response) :=
  h.of_eq (saveScene_heap c response).1 (saveScene_heap c response).2

theorem SceneInv.step {c : Canvas3D} (h : SceneInv c) (op : SceneOp) : SceneInv (c.step op) := by
  cases op with
  | setTool tool => exact h.setTool tool
  | click groundHit objectHit now =>
    cases objectHit with
    | none => exact h.onMouseClick groundHit none now
    | some r =>
      show SceneInv (if r < c.heap.length then c.onMouseClick groundHit (some r) now else c)
      split
      · exact h.onMouseClick groundHit (some r) now
      · exact h
  | selectObject r =>
    show SceneInv (if r < c.heap.length then c.selectObject r else c)
    split
    · exact h.selectObject r
    · exact h
  | keyDelete => exact h.deleteSelectedObject
  | keyEscape => exact (h.deselectObject.of_eq rfl rfl).setTool "select"
  | updateObjectName oldName newName => exact h.updateObjectName oldName newName
  | updateObjectPosition axis value => exact h.updateObjectPosition axis value
  | updateObjectRotation axis value => exact h.updateObjectRotation axis value
  | updateObjectScale axis value => exact h.updateObjectScale axis value
  | updateObjectColor color => exact h.updateObjectColor color
  | updateObjectOpacity opacity => exact h.updateObjectOpacity opacity
  | deleteObject objectName => exact h.deleteObject objectName
  | remote data now => exact h.handleRemoteUpdate data now
  | socketOpen =>
    show SceneInv (if c.isCollaborative then { c with socketOpen := true } else c)
    split
    · exact h.of_eq rfl rfl
    · exact h
  | socketClose => exact h.of_eq rfl rfl
  | saveScene response => exact h.saveScene response

theorem SceneInv.run {c : Canvas3D} (h : SceneInv c) (ops : List SceneOp) :
    SceneInv (c.run ops) := by
  induction ops generalizing c with
  | nil => exact h
  | cons op ops ih => exact ih (h.step op)

theorem SceneInv.initialClosed :
    SceneInv
      { heap := initialHeap
        objects := [groundRef]
        selectedObject := none
        currentTool := "select"
        isAddingObject := false
        isCollaborative := false
        socketOpen := false
        currentUser := ""
        sent := []
        sessionId := none
        notifications := [] } where
  ground_lt := by decide
  scene_nodup := by decide
  objects_nodup := by decide
  scene_lt := by decide
  objects_lt := by decide
  ground_tracked := by decide
  ground_in_scene := by decide
  ground_top := by
    intro r o hr hd
    have hlt := deref_lt _ r o hd
    have hlen : initialHeap.length = 6 := rfl
    simp only [hlen] at hlt
    unfold deref at hd
    simp only at hd
    have hr0 : r ≠ 0 := hr
    have hcases : r = 1 ∨ r = 2 ∨ r = 3 ∨ r = 4 ∨ r = 5 := by omega
    rcases hcases with e | e | e | e | e <;> subst e <;>
      simp [initialHeap, blankObject] at hd <;> subst hd <;> simp

theorem SceneInv.initial (collaborative : Bool) (user : String)
    (sessionId : Option String) :
    SceneInv
      { heap := initialHeap
        objects := [groundRef]
        selectedObject := none
        currentTool := "select"
        isAddingObject := false
        isCollaborative := collaborative
        socketOpen := false
        currentUser := user
        sent := []
        sessionId := sessionId
        notifications := [] } :=
  SceneInv.initialClosed.of_eq rfl rfl

theorem SceneInv.new (collaborative : Bool) (user : String) (t1 t2 : Nat)
    (sessionId : Option String) : SceneInv (Canvas3D.new collaborative user t1 t2 sessionId) :=
  ((SceneInv.initial collaborative user sessionId).addMesh _ _ _ _ _ _).addMesh _ _ _ _ _ _

theorem SceneInv.of_reachable {c : Canvas3D} (h : Reachable c) : SceneInv c := by
  obtain ⟨collaborative, user, t1, t2, sessionId, ops, rfl⟩ := h
  exact (SceneInv.new collaborative user t1 t2 sessionId).run ops

theorem deleteObject_ground (c : Canvas3D) : c.deleteObject "Ground" = c := by
  unfold Canvas3D.deleteObject
  cases hg : c.getObjectByName "Ground" with
  | none => rfl
  | some r =>
    simp only
    rw [if_neg]
    rw [getObjectByName_name c _ r hg]
    simp

theorem deselectObject_objects (c : Canvas3D) : c.deselectObject.objects = c.objects := by
  unfold Canvas3D.deselectObject
  cases c.selectedObject with
  | none => rfl
  | some r =>
    simp only
    cases c.getObjectByName "selection_box" with
    | none => rfl
    | some box => exact sceneRemove_objects c box

theorem deselectObject_selected (c : Canvas3D) : c.deselectObject.selectedObject = none := by
  unfold Canvas3D.deselectObject
  cases hs : c.selectedObject with
  | none => exact hs
  | some r => rfl

theorem deselectObject_sceneChildren (c : Canvas3D) (r : Nat)
    (h : r ∈ c.deselectObject.sceneChildren) : r ∈ c.sceneChildren := by
  unfold Canvas3D.deselectObject at h
  cases hs : c.selectedObject with
  | none =>
    rw [hs] at h
    exact h
  | some q =>
    rw [hs] at h
    simp only at h
    cases hb : c.getObjectByName "selection_box" with
    | none =>
      rw [hb] at h
      exact h
    | some box =>
      rw [hb] at h
      have h2 : r ∈ (c.sceneRemove box).sceneChildren := h
      rw [sceneChildren_sceneRemove] at h2
      exact List.mem_of_mem_erase h2

theorem broadcastIf_objects (c : Canvas3D) (b : Bool) (action : String) (r : Nat) :
    (if b then c.broadcastObjectChange action r else c).objects = c.objects := by
  split
  · exact broadcast_objects c action r
  · rfl

theorem broadcastIf_heap (c : Canvas3D) (b : Bool) (action : String) (r : Nat) :
    (if b then c.broadcastObjectChange action r else c).heap = c.heap := by
  split
  · exact broadcast_heap c action r
  · rfl

theorem broadcastIf_selected (c : Canvas3D) (b : Bool) (action : String) (r : Nat) :
    (if b then c.broadcastObjectChange action r else c).selectedObject = c.selectedObject := by
  split
  · exact broadcast_selected c action r
  · rfl

theorem deselectIf_objects (c : Canvas3D) (p : Prop) [Decidable p] :
    (if p then c.deselectObject else c).objects = c.objects := by
  split
  · exact deselectObject_objects c
  · rfl

theorem deselectIf_sceneChildren (c : Canvas3D) (p : Prop) [Decidable p] (r : Nat)
    (h : r ∈ (if p then c.deselectObject else c).sceneChildren) : r ∈ c.sceneChildren := by
  split at h
  · exact deselectObject_sceneChildren c r h
  · exact h

/-- C8: deleting the ground is rejected on every path. `deleteObject('Ground')`,
`deleteSelectedObject()` while the selected object is named `Ground`, and an
inbound remote delete naming `Ground` each return the controller unchanged:
the tracked list, the scene, the selection and the list of sent messages are
what they were. -/
theorem ground_delete_rejected (c : Canvas3D) (data : ObjectChange) (now : Nat) :
    c.deleteObject "Ground" = c ∧
    (∀ r, c.selectedObject = some r → c.nameOf r = some "Ground" →
      c.deleteSelectedObject = c) ∧
    (data.action = "delete" → data.object.name = "Ground" →
      c.handleRemoteUpdate data now = c) := by
  refine ⟨deleteObject_ground c, ?_, ?_⟩
  · intro r hs hn
    unfold Canvas3D.deleteSelectedObject
    rw [hs]
    simp only
    rw [if_neg]
    rw [hn]
    simp
  · intro ha hn
    unfold Canvas3D.handleRemoteUpdate
    split
    · rfl
    · rw [ha, hn, if_neg (by decide), if_neg (by decide)]
      exact deleteObject_ground c

/-- C8 with the ground selected in a fresh scene and a remote delete naming
`Ground`. -/
theorem ground_delete_rejected_witness :
    (sceneWithGroundSelected.selectedObject = some groundRef ∧
      sceneWithGroundSelected.nameOf groundRef = some "Ground" ∧
      sceneWithGroundSelected.deleteSelectedObject = sceneWithGroundSelected) ∧
    (remoteDeleteGround.action = "delete" ∧ remoteDeleteGround.object.name = "Ground" ∧
      sceneWithGroundSelected.handleRemoteUpdate remoteDeleteGround 1700000000002 =
        sceneWithGroundSelected) :=
  ⟨⟨by decide, by decide,
      (ground_delete_rejected sceneWithGroundSelected remoteDeleteGround 1700000000002).2.1 groundRef
        (by decide) (by decide)⟩,
    ⟨by decide, by decide,
      (ground_delete_rejected sceneWithGroundSelected remoteDeleteGround 1700000000002).2.2
        (by decide) (by decide)⟩⟩

/-- C9 as stated fails: after the scenario message arrived twice, the second
cube named `Cube_1` (reference 9) is tracked and not named `Ground`, yet
`deleteObject('Cube_1')` removes the first cube of that name (reference 8),
the one `scene.getObjectByName` finds, and leaves reference 9 in the tracked
list and in the scene. -/
theorem deleteObject_duplicate_name_keeps_object :
    Reachable sceneWithTwoCube1 ∧
    9 ∈ sceneWithTwoCube1.objects ∧
    sceneWithTwoCube1.nameOf 9 = some "Cube_1" ∧
    9 ∈ (sceneWithTwoCube1.deleteObject "Cube_1").objects ∧
    9 ∈ (sceneWithTwoCube1.deleteObject "Cube_1").sceneChildren ∧
    8 ∉ (sceneWithTwoCube1.deleteObject "Cube_1").objects :=
  ⟨⟨false, "local", 1700000000000, 1700000000001, none,
      [.remote remoteAddCube1 1700000000002, .remote remoteAddCube1 1700000000003], rfl⟩,
    by decide, by decide, by decide, by decide, by decide⟩

/-- C9, amended: in every reachable state, for a tracked object not named
`Ground` that is the object `scene.getObjectByName` returns for its name (the
first object of that name in the scene graph), `deleteObject` of that name
removes it from the tracked list and from the scene, keeps every other tracked
object in its original order, and clears the selection when it was the
selected object. -/
theorem deleteObject_removes_first_named (c : Canvas3D) (h : Reachable c) (r : Nat)
    (name : String) (hr : r ∈ c.objects) (hg : name ≠ "Ground")
    (hfirst : c.getObjectByName name = some r) :
    r ∉ (c.deleteObject name).objects ∧
    r ∉ (c.deleteObject name).sceneChildren ∧
    (c.deleteObject name).objects = c.objects.filter (fun q => q ≠ r) ∧
    (∀ q ∈ c.objects, q ≠ r → q ∈ (c.deleteObject name).objects) ∧
    (c.selectedObject = some r → (c.deleteObject name).selectedObject = none) := by
  have hinv := SceneInv.of_reachable h
  have _ := hr
  have hname := getObjectByName_name c name r hfirst
  have hng : c.nameOf r ≠ some "Ground" := by
    rw [hname]
    simpa using hg
  have hobj : (c.deleteObject name).objects = c.objects.erase r := by
    unfold Canvas3D.deleteObject
    rw [hfirst]
    simp only
    rw [if_pos hng, broadcastIf_objects, deselectIf_objects]
    show (c.sceneRemove r).objects.erase r = _
    rw [sceneRemove_objects]
  have hfilter : c.objects.erase r = c.objects.filter (fun q => q ≠ r) := by
    rw [hinv.objects_nodup.erase_eq_filter]
    congr 1
    funext q
    by_cases hq : q = r <;> simp [hq]
  have hbase : r ∉ ({ (c.sceneRemove r) with objects := (c.sceneRemove r).objects.erase r }
      : Canvas3D).sceneChildren := by
    show r ∉ (c.sceneRemove r).sceneChildren
    rw [sceneChildren_sceneRemove]
    exact hinv.scene_nodup.not_mem_erase
  have hscene : r ∉ (c.deleteObject name).sceneChildren := by
    unfold Canvas3D.deleteObject
    rw [hfirst]
    simp only
    rw [if_pos hng, sceneChildren_congr (broadcastIf_heap _ _ _ _)]
    exact fun hm => hbase (deselectIf_sceneChildren _ _ r hm)
  have hsel : c.selectedObject = some r → (c.deleteObject name).selectedObject = none := by
    intro hs
    have hs2 : ({ (c.sceneRemove r) with objects := (c.sceneRemove r).objects.erase r }
        : Canvas3D).selectedObject = some r := by
      show (c.sceneRemove r).selectedObject = some r
      unfold Canvas3D.sceneRemove
      rw [modifyObject_selected]
      exact hs
    unfold Canvas3D.deleteObject
    rw [hfirst]
    simp only
    rw [if_pos hng, broadcastIf_selected, if_pos hs2]
    exact deselectObject_selected _
  refine ⟨?_, hscene, hobj.trans hfilter, ?_, hsel⟩
  · rw [hobj]
    exact hinv.objects_nodup.not_mem_erase
  · intro q hq hne
    rw [hobj]
    exact (List.mem_erase_of_ne hne).mpr hq

/-- C9, amended, at the first cube named `Cube_1` (reference 8) of the state
with two cubes of that name. -/
theorem deleteObject_removes_first_named_witness :
    Reachable sceneWithTwoCube1 ∧ 8 ∈ sceneWithTwoCube1.objects ∧ "Cube_1" ≠ "Ground" ∧
    sceneWithTwoCube1.getObjectByName "Cube_1" = some 8 ∧
    (8 ∉ (sceneWithTwoCube1.deleteObject "Cube_1").objects ∧
      8 ∉ (sceneWithTwoCube1.deleteObject "Cube_1").sceneChildren ∧
      (sceneWithTwoCube1.deleteObject "Cube_1").objects =
        sceneWithTwoCube1.objects.filter (fun q => q ≠ 8) ∧
      (∀ q ∈ sceneWithTwoCube1.objects, q ≠ 8 →
        q ∈ (sceneWithTwoCube1.deleteObject "Cube_1").objects) ∧
      (sceneWithTwoCube1.selectedObject = some 8 →
        (sceneWithTwoCube1.deleteObject "Cube_1").selectedObject = none)) :=
  have hreach : Reachable sceneWithTwoCube1 :=
    ⟨false, "local", 1700000000000, 1700000000001, none,
      [.remote remoteAddCube1 1700000000002, .remote remoteAddCube1 1700000000003], rfl⟩
  ⟨hreach, by decide, by decide, by decide,
    deleteObject_removes_first_named sceneWithTwoCube1 hreach 8 "Cube_1"
      (by decide) (by decide) (by decide)⟩

/-- C10 as stated fails: the ground is selected in the object list, renamed to
`Floor` in the properties panel and deleted with the delete button of its
list entry; the state is reachable and the ground plane created by
`addDefaultObjects` is no longer in the tracked list nor in the scene. -/
theorem renamed_ground_is_deleted :
    Reachable sceneWithGroundDeleted ∧
    groundRef ∈ freshScene.objects ∧
    freshScene.nameOf groundRef = some "Ground" ∧
    groundRef ∉ sceneWithGroundDeleted.objects ∧
    groundRef ∉ sceneWithGroundDeleted.sceneChildren :=
  ⟨⟨false, "local", 1700000000000, 1700000000001, none,
      [.selectObject groundRef, .updateObjectName "Ground" "Floor", .deleteObject "Floor"], rfl⟩,
    by decide, by decide, by decide, by decide⟩

/-- C10, amended: in every reachable state the ground plane created by
`addDefaultObjects` is in the tracked list and in the scene as long as it is
still named `Ground`; no operation removes an object while it carries that
name. -/
theorem ground_tracked_while_named_ground (c : Canvas3D) (h : Reachable c)
    (hname : c.nameOf groundRef = some "Ground") :
    groundRef ∈ c.objects ∧ groundRef ∈ c.sceneChildren := by
  have hinv := SceneInv.of_reachable h
  exact ⟨hinv.ground_tracked (hinv.ground_in_scene hname), hinv.ground_in_scene hname⟩

/-- C10, amended, at the state after two remote adds, where the ground still
carries its name. -/
theorem ground_tracked_while_named_ground_witness :
    Reachable sceneWithTwoCube1 ∧ sceneWithTwoCube1.nameOf groundRef = some "Ground" ∧
    (groundRef ∈ sceneWithTwoCube1.objects ∧ groundRef ∈ sceneWithTwoCube1.sceneChildren) :=
  have hreach : Reachable sceneWithTwoCube1 :=
    ⟨false, "local", 1700000000000, 1700000000001, none,
      [.remote remoteAddCube1 1700000000002, .remote remoteAddCube1 1700000000003], rfl⟩
  ⟨hreach, by decide, ground_tracked_while_named_ground sceneWithTwoCube1 hreach (by decide)⟩

end Canvas3D

/-! ## Scene editor controller: remote changes, property edits, saving -/

namespace Canvas3D

theorem addMesh_spec (c : Canvas3D) (label type : String) (defaultColor : Nat)
    (position : Vec3) (options : AddOptions) (now : Nat) :
    ∃ mesh : Object3D,
      mesh.name = label ++ "_" ++ toString now ∧ mesh.type = some type ∧
      mesh.position = position ∧ mesh.rotation = Euler.ofRat 0 0 0 ∧
      mesh.scale = Vec3.ofRat 1 1 1 ∧
      mesh.material = some
        { color := orNat options.color defaultColor
          transparent := orFalse options.transparent
          opacity := JsNumber.ofRat (orRat options.opacity 1) } ∧
      (c.addMesh label type defaultColor position options now).2 = c.heap.length ∧
      (c.addMesh label type defaultColor position options now).1 =
        (if ({ ((c.alloc mesh).1.sceneAdd c.heap.length) with
                objects := ((c.alloc mesh).1.sceneAdd c.heap.length).objects ++
                  [c.heap.length] } : Canvas3D).isCollaborative
         then ({ ((c.alloc mesh).1.sceneAdd c.heap.length) with
                objects := ((c.alloc mesh).1.sceneAdd c.heap.length).objects ++
                  [c.heap.length] } : Canvas3D).broadcastObjectChange "add" c.heap.length
         else { ((c.alloc mesh).1.sceneAdd c.heap.length) with
                objects := ((c.alloc mesh).1.sceneAdd c.heap.length).objects ++
                  [c.heap.length] }) :=
  ⟨_, rfl, rfl, rfl, rfl, rfl, rfl, rfl, rfl⟩

theorem addMesh_objects (c : Canvas3D) (label type : String) (defaultColor : Nat)
    (position : Vec3) (options : AddOptions) (now : Nat) :
    (c.addMesh label type defaultColor position options now).1.objects =
      c.objects ++ [c.heap.length] := by
  obtain ⟨mesh, _, _, heq⟩ := addMesh_eq c label type defaultColor position options now
  rw [heq, broadcastIf_objects]
  show ((c.alloc mesh).1.sceneAdd c.heap.length).objects ++ [c.heap.length] = _
  rw [sceneAdd_objects, alloc_objects]

theorem addMesh_deref (c : Canvas3D) (hpos : 0 < c.heap.length) (label type : String)
    (defaultColor : Nat) (position : Vec3) (options : AddOptions) (now : Nat) :
    ∃ mesh : Object3D,
      mesh.name = label ++ "_" ++ toString now ∧ mesh.type = some type ∧
      mesh.position = position ∧ mesh.rotation = Euler.ofRat 0 0 0 ∧
      mesh.scale = Vec3.ofRat 1 1 1 ∧
      mesh.material = some
        { color := orNat options.color defaultColor
          transparent := orFalse options.transparent
          opacity := JsNumber.ofRat (orRat options.opacity 1) } ∧
      (c.addMesh label type defaultColor position options now).1.deref c.heap.length =
        some mesh := by
  obtain ⟨mesh, h1, h2, h3, h4, h5, h6, _, heq⟩ :=
    addMesh_spec c label type defaultColor position options now
  refine ⟨mesh, h1, h2, h3, h4, h5, h6, ?_⟩
  rw [heq, deref_congr (broadcastIf_heap _ _ _ _)]
  show ((c.alloc mesh).1.sceneAdd c.heap.length).deref c.heap.length = some mesh
  unfold Canvas3D.sceneAdd
  rw [deref_root_modify_ne _ _ _ (fun e => Nat.lt_irrefl _ (e ▸ hpos)), deref_alloc, if_pos rfl]

theorem createObjectFromData_mesh (c : Canvas3D) (objectData : ObjectData) (now : Nat)
    (htype : objectData.type = some "cube" ∨ objectData.type = some "sphere" ∨
      objectData.type = some "cylinder") :
    ∃ (label type : String) (defaultColor : Nat) (options : AddOptions),
      objectData.type = some type ∧
      options.color = some (match objectData.material with
                            | some m => m.color
                            | none => 0x3498db) ∧
      options.opacity = none ∧
      c.createObjectFromData objectData now =
        (c.addMesh label type defaultColor objectData.position options now).1.modifyObject
          (c.addMesh label type defaultColor objectData.position options now).2
          (fun o => { o with name := objectData.name,
                             rotation := Euler.ofData objectData.rotation,
                             scale := objectData.scale }) := by
  unfold Canvas3D.createObjectFromData
  rcases htype with h | h | h
  · exact ⟨"Cube", "cube", 0x3498db, _, h, rfl, rfl, by rw [h]; rfl⟩
  · exact ⟨"Sphere", "sphere", 0xe74c3c, _, h, rfl, rfl, by rw [h]; rfl⟩
  · exact ⟨"Cylinder", "cylinder", 0x9b59b6, _, h, rfl, rfl, by rw [h]; rfl⟩

theorem createObjectFromData_appends (c : Canvas3D) (h : Reachable c) (data : ObjectChange)
    (now : Nat) (huser : data.user ≠ c.currentUser) (hact : data.action = "add")
    (htype : data.object.type = some "cube" ∨ data.object.type = some "sphere" ∨
      data.object.type = some "cylinder") :
    (c.handleRemoteUpdate data now).objects = c.objects ++ [c.heap.length] ∧
    c.heap.length ∉ c.objects ∧
    c.deref c.heap.length = none ∧
    ∃ o, (c.handleRemoteUpdate data now).deref c.heap.length = some o ∧
      o.type = data.object.type ∧ o.name = data.object.name ∧
      o.position = data.object.position ∧
      o.rotation = ⟨data.object.rotation.x, data.object.rotation.y, data.object.rotation.z⟩ ∧
      o.scale = data.object.scale := by
  have hinv := SceneInv.of_reachable h
  have hpos : 0 < c.heap.length := Nat.lt_of_le_of_lt (Nat.zero_le _) hinv.ground_lt
  have hrun : c.handleRemoteUpdate data now = c.createObjectFromData data.object now := by
    unfold Canvas3D.handleRemoteUpdate
    rw [if_neg huser, if_pos hact]
  obtain ⟨label, type, defaultColor, options, ht, _, _, heq⟩ :=
    createObjectFromData_mesh c data.object now htype
  obtain ⟨mesh, _, hmt, hmp, _, _, _, hderef⟩ :=
    addMesh_deref c hpos label type defaultColor data.object.position options now
  obtain ⟨_, _, hsnd, _⟩ := addMesh_eq c label type defaultColor data.object.position options now
  rw [hrun, heq]
  refine ⟨?_, ?_, ?_, ?_⟩
  · rw [modifyObject_objects, addMesh_objects]
  · exact fun hm => Nat.lt_irrefl _ (hinv.objects_lt _ hm)
  · unfold deref
    exact List.get?_eq_none.mpr (Nat.le_refl _)
  · rw [hsnd, deref_modifyObject, if_pos rfl, hderef]
    exact ⟨_, rfl, hmt.trans ht.symm, rfl, hmp, rfl, rfl⟩

theorem peerAfterAdd_sent : peerAfterAdd.sent = [peerAddCube] := by
  have h : peerAfterAdd.sent =
      [{ peerAddCube with
         object := { peerAddCube.object with
           position := ⟨JsNumber.ofRat 1, (JsNumber.ofRat 0).add (JsNumber.ofRat (1 / 2)),
             JsNumber.ofRat 1⟩ } }] := rfl
  rw [h]
  simp [peerAddCube, JsNumber.add, JsNumber.ofRat, Vec3.ofRat]

/-- C11, the code at the failing input: the `add` message the program itself
sends. A peer adds a cube; `serializeObject` hands the cube's `THREE.Euler` to
`JSON.stringify`, which writes it as `_x`, `_y`, `_z`, while
`createObjectFromData` reads `rotation.x`, `rotation.y`, `rotation.z`. On the
receiving controller the tracked list grows by one cube with the name,
position and scale of the message, but its three angles are `undefined`, not
the zero angles of the peer's cube. For every reachable controller and every
`add` message of another user for a cube, sphere or cylinder, one object is
appended last with the type, name, position and scale of the message and the
angles read from the entries `x`, `y`, `z`; for the scenario message, which
writes the rotation as `{x, y, z}`, these are the angles of the message. -/
theorem remote_add_drops_peer_rotation :
    peerAfterAdd.sent = [peerAddCube] ∧
    (peerAfterAdd.deref 8).map (fun o => o.rotation) = some (Euler.ofRat 0 0 0) ∧
    peerAddCube.object.rotation = RotationData.ofEuler (Euler.ofRat 0 0 0) ∧
    (collabScene.handleRemoteUpdate peerAddCube 1700000000006).objects = [5, 6, 7, 8] ∧
    (∃ o, (collabScene.handleRemoteUpdate peerAddCube 1700000000006).deref 8 = some o ∧
      o.type = some "cube" ∧ o.name = "Cube_1700000000005" ∧
      o.position = Vec3.ofRat 1 (1 / 2) 1 ∧ o.scale = Vec3.ofRat 1 1 1 ∧
      o.rotation = ⟨none, none, none⟩ ∧ o.rotation ≠ Euler.ofRat 0 0 0) ∧
    (∃ o, (collabScene.handleRemoteUpdate remoteAddCube1 1700000000006).deref 8 = some o ∧
      o.type = some "cube" ∧ o.name = "Cube_1" ∧ o.position = Vec3.ofRat 1 1 1 ∧
      o.scale = Vec3.ofRat 1 1 1 ∧ o.rotation = Euler.ofRat 0 0 0) ∧
    (∀ (c : Canvas3D) (data : ObjectChange) (now : Nat), Reachable c →
      data.user ≠ c.currentUser → data.action = "add" →
      (data.object.type = some "cube" ∨ data.object.type = some "sphere" ∨
        data.object.type = some "cylinder") →
      (c.handleRemoteUpdate data now).objects = c.objects ++ [c.heap.length] ∧
      c.heap.length ∉ c.objects ∧
      c.deref c.heap.length = none ∧
      ∃ o, (c.handleRemoteUpdate data now).deref c.heap.length = some o ∧
        o.type = data.object.type ∧ o.name = data.object.name ∧
        o.position = data.object.position ∧
        o.rotation = ⟨data.object.rotation.x, data.object.rotation.y, data.object.rotation.z⟩ ∧
        o.scale = data.object.scale) := by
  have hreach : Reachable collabScene :=
    ⟨true, "local", 1700000000000, 1700000000001, none, [.socketOpen], rfl⟩
  have hpeer := createObjectFromData_appends collabScene hreach peerAddCube 1700000000006
    (by decide) (by decide) (Or.inl (by decide))
  have hscen := createObjectFromData_appends collabScene hreach remoteAddCube1 1700000000006
    (by decide) (by decide) (Or.inl (by decide))
  refine ⟨peerAfterAdd_sent, by decide, rfl, hpeer.1.trans (by decide), ?_, ?_, ?_⟩
  · obtain ⟨o, h1, h2, h3, h4, h5, h6⟩ := hpeer.2.2.2
    refine ⟨o, h1, h2.trans rfl, h3.trans rfl, h4.trans rfl, h6.trans rfl, h5.trans rfl, ?_⟩
    rw [h5]
    decide
  · obtain ⟨o, h1, h2, h3, h4, h5, h6⟩ := hscen.2.2.2
    exact ⟨o, h1, h2.trans rfl, h3.trans rfl, h4.trans rfl, h6.trans rfl, h5.trans rfl⟩
  · intro c data now h huser hact htype
    exact createObjectFromData_appends c h data now huser hact htype

theorem modifyObject_sent (c : Canvas3D) (r : Nat) (f : Object3D → Object3D) :
    (c.modifyObject r f).sent = c.sent := by
  unfold modifyObject
  split <;> rfl

/-- C18, the code at the failing input: `updateObjectName` never sends
anything. In the collaborative scene with an open socket and the sample cube
selected, renaming the cube to `Box` commits the name and sends no message,
while a position edit of the same object sends exactly one `update` message
carrying the serialized object. -/
theorem rename_sends_no_update :
    (∀ (c : Canvas3D) (oldName newName : String),
      (c.updateObjectName oldName newName).sent = c.sent) ∧
    collabSceneCubeSelected.isCollaborative = true ∧
    collabSceneCubeSelected.socketOpen = true ∧
    collabSceneCubeSelected.selectedObject = some 6 ∧
    collabSceneCubeSelected.nameOf 6 = some "Cube_1700000000000" ∧
    collabSceneCubeSelected.sent = [] ∧
    (collabSceneCubeSelected.updateObjectName "Cube_1700000000000" "Box").nameOf 6 =
      some "Box" ∧
    (collabSceneCubeSelected.updateObjectName "Cube_1700000000000" "Box").sent = [] ∧
    (collabSceneCubeSelected.updateObjectPosition Axis.x 3).sent.map (fun m => m.action) =
      ["update"] ∧
    (collabSceneCubeSelected.updateObjectPosition Axis.x 3).sent.map
        (fun m => m.object.name) = ["Cube_1700000000000"] := by
  refine ⟨?_, by decide, by decide, by decide, by decide, by decide, by decide, by decide,
    by decide, by decide⟩
  intro c oldName newName
  unfold Canvas3D.updateObjectName
  split
  · exact modifyObject_sent c _ _
  · rfl

/-- C20, the code at the failing input: `createObjectFromData` has no case for
the type `light`, so on every peer it returns the controller unchanged. The
light the collaborative scene added at (0,5,0) was broadcast as an `add`
message with type `light`; a peer receiving that message adds no object. -/
theorem light_add_is_not_recreated :
    (∀ (peer : Canvas3D) (objectData : ObjectData) (now : Nat),
      objectData.type = some "light" → peer.createObjectFromData objectData now = peer) ∧
    collabSceneWithLight.objects = collabSceneCubeSelected.objects ++ [9] ∧
    (collabSceneWithLight.deref 9).map serializeObject = some lightAddMessage.object ∧
    collabSceneWithLight.sent = [lightAddMessage] ∧
    (freshScene.handleRemoteUpdate { lightAddMessage with user := "remote" }
      1700000000005).objects = freshScene.objects ∧
    freshScene.handleRemoteUpdate { lightAddMessage with user := "remote" } 1700000000005 =
      freshScene := by
  have hgen : ∀ (peer : Canvas3D) (objectData : ObjectData) (now : Nat),
      objectData.type = some "light" → peer.createObjectFromData objectData now = peer := by
    intro peer objectData now ht
    unfold Canvas3D.createObjectFromData
    rw [ht]
    rfl
  have hpeer : freshScene.handleRemoteUpdate { lightAddMessage with user := "remote" }
      1700000000005 = freshScene := by
    unfold Canvas3D.handleRemoteUpdate
    rw [if_neg (by decide), if_pos (by decide)]
    exact hgen _ _ _ rfl
  refine ⟨hgen, by decide, ?_, ?_, ?_, hpeer⟩
  · rfl
  · rfl
  · rw [hpeer]

/-- C15, the code at the failing input: for an answer whose status is not
`success`, `saveScene` (3D) returns the controller unchanged, showing no
notice, while `saveCanvas` (2D) shows the error notice `Failed to save
canvas`; both set `sessionId` on a success answer with a non-empty
`session_id`, and both show an error notice on a failed request. -/
theorem saveScene_failure_shows_no_notice :
    (∀ (c : Canvas3D) (status session_id : Option String),
      status ≠ some "success" → c.saveScene (.json status session_id) = c) ∧
    (freshScene.saveScene (.json (some "error") none)).notifications = [] ∧
    (∀ (R : Type) (c : Canvas2D R) (status session_id : Option String),
      status ≠ some "success" →
        Canvas2D.saveCanvas (.json status session_id) c =
          { c with notifications :=
              c.notifications ++ [{ message := "Failed to save canvas", type := "error" }] }) ∧
    (∀ (c : Canvas3D) (id : String), id ≠ "" →
      (c.saveScene (.json (some "success") (some id))).sessionId = some id) ∧
    (∀ (R : Type) (c : Canvas2D R) (id : String), id ≠ "" →
      (Canvas2D.saveCanvas (.json (some "success") (some id)) c).sessionId = some id) ∧
    (∀ (c : Canvas3D), c.saveScene .failed =
      { c with notifications :=
          c.notifications ++ [{ message := "Error saving 3D scene", type := "error" }] }) ∧
    (∀ (R : Type) (c : Canvas2D R), Canvas2D.saveCanvas .failed c =
      { c with notifications :=
          c.notifications ++ [{ message := "Error saving canvas", type := "error" }] }) := by
  refine ⟨?_, by decide, ?_, ?_, ?_, fun _ => rfl, fun _ _ => rfl⟩
  · intro c status session_id hs
    unfold Canvas3D.saveScene
    simp only
    rw [if_neg hs]
  · intro R c status session_id hs
    unfold Canvas2D.saveCanvas
    simp only
    rw [if_neg hs]
    rfl
  · intro c id hid
    unfold Canvas3D.saveScene
    simp only
    rw [if_pos trivial, if_pos hid]
  · intro R c id hid
    unfold Canvas2D.saveCanvas
    simp only
    rw [if_pos trivial, if_pos hid]

end Canvas3D

/-! ## Realtime session controller: dispatch, timers and peers -/

namespace FiveGIntegration

/-- C12, the code at the failing input: the close handler of the data socket
schedules exactly one timeout of 3000 ms whose callback re-initializes the
controller while it is disconnected; `initMediaSocket` sets no close handler,
so a close of the media socket leaves the timers as they were and schedules no
re-initialization. -/
theorem media_close_schedules_no_reinit :
    (∀ c : FiveGIntegration, c.onDataSocketClose.timers =
      c.timers ++ [{ handle := c.nextHandle, repeating := false, delay := 3000,
                     action := TimerAction.reconnect }]) ∧
    (∀ c : FiveGIntegration, c.onMediaSocketClose.timers = c.timers) ∧
    (freshSession.step .mediaSocketClose).timers = freshSession.timers ∧
    (freshSession.step .mediaSocketClose).timers.filter
      (fun t => t.action = TimerAction.reconnect) = [] ∧
    (freshSession.step .dataSocketClose).timers.filter
      (fun t => t.action = TimerAction.reconnect) =
      [{ handle := 3, repeating := false, delay := 3000, action := TimerAction.reconnect }] ∧
    (run freshSession [.dataSocketClose, .timer 3 1700000003000]).dataSocket =
      some ReadyState.CONNECTING ∧
    (run freshSession [.mediaSocketClose]).mediaSocket = some ReadyState.CLOSED :=
  ⟨fun _ => rfl, fun _ => rfl, by decide, by decide, by decide, by decide, by decide⟩

theorem dispatchData_unrecognized (c : FiveGIntegration) (data : ControlMessage)
    (h : data.type ∉ ["handshake_response", "peer_join", "peer_leave", "webrtc_offer",
      "webrtc_answer", "ice_candidate", "canvas_update", "real_time_data", "edge_response"]) :
    c.dispatchData data = .ok c := by
  simp only [List.mem_cons, List.mem_singleton, List.not_mem_nil, or_false, not_or] at h
  obtain ⟨h1, h2, h3, h4, h5, h6, h7, h8, h9⟩ := h
  unfold dispatchData
  rw [if_neg h1, if_neg h2, if_neg h3, if_neg h4, if_neg h5, if_neg h6, if_neg h7, if_neg h8,
    if_neg h9]

theorem handleRealTimeData_unrecognized (c : FiveGIntegration) (data : ControlMessage)
    (h : data.dataType ∉ [some "canvas_update", some "cursor_position", some "voice_data"]) :
    c.handleRealTimeData data = .ok c := by
  simp only [List.mem_cons, List.mem_singleton, List.not_mem_nil, or_false, not_or] at h
  obtain ⟨h1, h2, h3⟩ := h
  unfold handleRealTimeData
  rw [if_neg h1, if_neg h2, if_neg h3]

/-- C13: an inbound message with an unrecognized tag is dropped without an
error. On the control channel an unknown `type`, and a `real_time_data`
message with an unknown `dataType`, only add the latency sample of the
dispatch: nothing is sent, no notice is shown, timers and peers stay. An
unknown `type` on the media channel, an unknown `dataType` in
`handleRealTimeData`, an unknown `action` in `handleEdgeResponse` and an
unknown `action` in the scene editor's `handleRemoteUpdate` return the
controller unchanged. -/
theorem unrecognized_tags_are_dropped (c : FiveGIntegration) (data : ControlMessage)
    (startTime endTime : Int) (scene : Canvas3D) (change : ObjectChange) (now : Nat) :
    (data.type ∉ ["handshake_response", "peer_join", "peer_leave", "webrtc_offer",
        "webrtc_answer", "ice_candidate", "canvas_update", "real_time_data",
        "edge_response"] →
      c.handleDataMessage data startTime endTime =
        .ok { c with
              latencyStats := pushLatency c.latencyStats (endTime - startTime)
              connectionQuality :=
                qualityOf (avgLatency (pushLatency c.latencyStats (endTime - startTime))) }) ∧
    (data.type = "real_time_data" →
      data.dataType ∉ [some "canvas_update", some "cursor_position", some "voice_data"] →
      c.handleDataMessage data startTime endTime =
        .ok { c with
              latencyStats := pushLatency c.latencyStats (endTime - startTime)
              connectionQuality :=
                qualityOf (avgLatency (pushLatency c.latencyStats (endTime - startTime))) }) ∧
    (data.type ∉ ["video_stream", "audio_stream", "screen_share"] →
      c.handleMediaMessage data = .ok c) ∧
    (data.dataType ∉ [some "canvas_update", some "cursor_position", some "voice_data"] →
      c.handleRealTimeData data = .ok c) ∧
    (data.action ∉ [some "deployment_complete", some "processing_result", some "edge_error"] →
      c.handleEdgeResponse data = .ok c) ∧
    (change.action ∉ ["add", "update", "delete"] →
      scene.handleRemoteUpdate change now = scene) := by
  refine ⟨?_, ?_, ?_, handleRealTimeData_unrecognized c data, ?_, ?_⟩
  · intro h
    unfold handleDataMessage
    rw [dispatchData_unrecognized c data h]
    rfl
  · intro ht hd
    unfold handleDataMessage dispatchData
    rw [ht, if_neg (by decide), if_neg (by decide), if_neg (by decide), if_neg (by decide),
      if_neg (by decide), if_neg (by decide), if_neg (by decide), if_pos rfl,
      handleRealTimeData_unrecognized c data hd]
    rfl
  · intro h
    simp only [List.mem_cons, List.mem_singleton, List.not_mem_nil, or_false, not_or] at h
    obtain ⟨h1, h2, h3⟩ := h
    unfold handleMediaMessage
    rw [if_neg h1, if_neg h2, if_neg h3]
  · intro h
    simp only [List.mem_cons, List.mem_singleton, List.not_mem_nil, or_false, not_or] at h
    obtain ⟨h1, h2, h3⟩ := h
    unfold handleEdgeResponse
    rw [if_neg h1, if_neg h2, if_neg h3]
  · intro h
    simp only [List.mem_cons, List.mem_singleton, List.not_mem_nil, or_false, not_or] at h
    obtain ⟨h1, h2, h3⟩ := h
    unfold Canvas3D.handleRemoteUpdate
    by_cases hu : change.user = scene.currentUser
    · rw [if_pos hu]
    · rw [if_neg hu, if_neg h1, if_neg h2, if_neg h3]

/-- C13 at a message whose tags are all unknown, in the session with a data
stream running and in the fresh scene. -/
theorem unrecognized_tags_are_dropped_witness :
    (unknownMessage.type ∉ ["handshake_response", "peer_join", "peer_leave", "webrtc_offer",
        "webrtc_answer", "ice_candidate", "canvas_update", "real_time_data",
        "edge_response"] ∧
      streamingSession.handleDataMessage unknownMessage 1700000000100 1700000000103 =
        .ok { streamingSession with
              latencyStats := pushLatency streamingSession.latencyStats
                (1700000000103 - 1700000000100)
              connectionQuality :=
                qualityOf (avgLatency (pushLatency streamingSession.latencyStats
                  (1700000000103 - 1700000000100))) }) ∧
    (unknownMessage.type ∉ ["video_stream", "audio_stream", "screen_share"] ∧
      streamingSession.handleMediaMessage unknownMessage = .ok streamingSession) ∧
    (unknownMessage.dataType ∉
        [some "canvas_update", some "cursor_position", some "voice_data"] ∧
      streamingSession.handleRealTimeData unknownMessage = .ok streamingSession) ∧
    (unknownMessage.action ∉
        [some "deployment_complete", some "processing_result", some "edge_error"] ∧
      streamingSession.handleEdgeResponse unknownMessage = .ok streamingSession) ∧
    (unknownSceneChange.action ∉ ["add", "update", "delete"] ∧
      freshScene.handleRemoteUpdate unknownSceneChange 1700000000002 = freshScene) :=
  ⟨⟨by decide,
      (unrecognized_tags_are_dropped streamingSession unknownMessage 1700000000100
        1700000000103 freshScene unknownSceneChange 1700000000002).1 (by decide)⟩,
    ⟨by decide,
      (unrecognized_tags_are_dropped streamingSession unknownMessage 1700000000100
        1700000000103 freshScene unknownSceneChange 1700000000002).2.2.1 (by decide)⟩,
    ⟨by decide,
      (unrecognized_tags_are_dropped streamingSession unknownMessage 1700000000100
        1700000000103 freshScene unknownSceneChange 1700000000002).2.2.2.1 (by decide)⟩,
    ⟨by decide,
      (unrecognized_tags_are_dropped streamingSession unknownMessage 1700000000100
        1700000000103 freshScene unknownSceneChange 1700000000002).2.2.2.2.1 (by decide)⟩,
    ⟨by decide,
      (unrecognized_tags_are_dropped streamingSession unknownMessage 1700000000100
        1700000000103 freshScene unknownSceneChange 1700000000002).2.2.2.2.2 (by decide)⟩⟩

/-- C19, the code at the failing input: `handleHandshakeResponse`,
`handlePeerJoin`, `handlePeerLeave` and `handleCanvasUpdate` are not defined on
the class, so for these four recognized types `handleDataMessage` raises at
the call and records no latency sample; for the three WebRTC types the call
of the `async` handler returns and one sample is recorded. -/
theorem undefined_handlers_raise :
    (∀ (c : FiveGIntegration) (data : ControlMessage) (startTime endTime : Int),
      data.type ∈ ["handshake_response", "peer_join", "peer_leave", "canvas_update"] →
        (∃ e, c.handleDataMessage data startTime endTime = .error e) ∧
        (c.step (.dataMessage data startTime endTime)).latencyStats = c.latencyStats) ∧
    (∀ (c : FiveGIntegration) (data : ControlMessage) (startTime endTime : Int),
      data.type ∈ ["webrtc_offer", "webrtc_answer", "ice_candidate"] →
        ∃ c1, c.handleDataMessage data startTime endTime = .ok c1 ∧
          c1.latencyStats = pushLatency c.latencyStats (endTime - startTime)) ∧
    freshSession.handleDataMessage handshakeResponse 1700000000100 1700000000103 =
      .error "TypeError: this.handleHandshakeResponse is not a function" ∧
    (freshSession.step (.dataMessage handshakeResponse 1700000000100 1700000000103)
      ).latencyStats = [] := by
  refine ⟨?_, ?_, rfl, by decide⟩
  · intro c data startTime endTime h
    simp only [List.mem_cons, List.mem_singleton, List.not_mem_nil, or_false] at h
    have herr : ∃ e, c.dispatchData data = .error e := by
      unfold dispatchData
      rcases h with h | h | h | h <;> rw [h] <;> exact ⟨_, rfl⟩
    obtain ⟨e, he⟩ := herr
    have hd : c.handleDataMessage data startTime endTime = .error e := by
      unfold handleDataMessage
      rw [he]
    refine ⟨⟨e, hd⟩, ?_⟩
    show (match c.handleDataMessage data startTime endTime with
      | .ok c1 => c1
      | .error _ => c).latencyStats = c.latencyStats
    rw [hd]
  · intro c data startTime endTime h
    simp only [List.mem_cons, List.mem_singleton, List.not_mem_nil, or_false] at h
    have hok : ∃ c1, c.dispatchData data = .ok c1 ∧ c1.latencyStats = c.latencyStats := by
      unfold dispatchData
      rcases h with h | h | h <;> rw [h]
      · refine ⟨_, rfl, ?_⟩
        unfold handleWebRTCOffer createPeerConnection
        simp only
        split
        · split <;> rfl
        · rfl
      · exact ⟨_, rfl, by unfold handleWebRTCAnswer; split <;> rfl⟩
      · exact ⟨_, rfl, by unfold handleICECandidate; split <;> rfl⟩
    obtain ⟨c1, h1, h2⟩ := hok
    refine ⟨c1.updateLatencyStats (endTime - startTime), ?_, ?_⟩
    · unfold handleDataMessage
      rw [h1]
    · show pushLatency c1.latencyStats (endTime - startTime) = _
      rw [h2]

/-- C16, the code at the failing input: `destroy()` clears only the interval
whose handle `dataStreamInterval` keeps; every other scheduled timer stays.
After `destroy()` of a fresh controller the 1-second probe and the 5-second
push are still scheduled; with a data stream running only the 16-millisecond
broadcast is cleared; a pending 3-second reconnect stays, and when it fires
after `destroy()` its callback re-initializes the torn-down controller. -/
theorem destroy_leaves_timers_scheduled :
    (∀ (c : FiveGIntegration) (t : Timer), t ∈ c.timers →
      c.dataStreamInterval ≠ some t.handle → t ∈ c.destroy.timers) ∧
    freshSession.destroy.timers =
      [{ handle := 1, repeating := true, delay := 1000, action := TimerAction.measureLatency },
       { handle := 2, repeating := true, delay := 5000,
         action := TimerAction.collectPerformanceMetrics }] ∧
    streamingSession.timers.map (fun t => t.delay) = [1000, 5000, 16] ∧
    streamingSession.destroy.timers.map (fun t => t.delay) = [1000, 5000] ∧
    (run freshSession [.dataSocketClose, .destroy]).timers.map (fun t => t.delay) =
      [1000, 5000, 3000] ∧
    (run freshSession [.dataSocketClose, .destroy, .timer 3 1700000003000]).dataSocket =
      some ReadyState.CONNECTING ∧
    (run freshSession [.dataSocketClose, .destroy, .timer 3 1700000003000]).timers.map
      (fun t => t.delay) = [1000, 5000, 1000, 5000] := by
  refine ⟨?_, by decide, by decide, by decide, by decide, by decide, by decide⟩
  intro c t ht hne
  unfold destroy
  simp only
  cases hd : c.dataStreamInterval with
  | none => exact ht
  | some handle =>
    simp only [clearInterval]
    rw [hd] at hne
    refine List.mem_filter.mpr ⟨ht, ?_⟩
    have : t.handle ≠ handle := fun e => hne (by rw [e])
    simpa using this

theorem mem_keys_mapSet_self {α β : Type} [DecidableEq α] (m : List (α × β)) (key : α)
    (value : β) : key ∈ (mapSet m key value).map Prod.fst := by
  unfold mapSet
  split
  · rename_i h
    obtain ⟨e, he, hk⟩ := List.any_eq_true.mp h
    have hk2 : e.1 = key := by simpa using hk
    refine List.mem_map.mpr ⟨(key, value), List.mem_map.mpr ⟨e, he, ?_⟩, rfl⟩
    rw [if_pos hk2]
  · simp

theorem mem_keys_mapSet_of_mem {α β : Type} [DecidableEq α] (m : List (α × β)) (key : α)
    (value : β) (x : α) (hx : x ∈ m.map Prod.fst) : x ∈ (mapSet m key value).map Prod.fst := by
  obtain ⟨e, he, hxe⟩ := List.mem_map.mp hx
  unfold mapSet
  split
  · by_cases hk : e.1 = key
    · refine List.mem_map.mpr ⟨(key, value), List.mem_map.mpr ⟨e, he, ?_⟩, ?_⟩
      · rw [if_pos hk]
      · rw [← hxe, hk]
    · refine List.mem_map.mpr ⟨e, List.mem_map.mpr ⟨e, he, ?_⟩, hxe⟩
      rw [if_neg hk]
  · exact List.mem_map.mpr ⟨e, List.mem_append_left _ he, hxe⟩

theorem fst_of_mem_mapSet {α β : Type} [DecidableEq α] (m : List (α × β)) (key : α)
    (value : β) (e : α × β) (he : e ∈ mapSet m key value) : e.1 = key ∨ e ∈ m := by
  unfold mapSet at he
  split at he
  · obtain ⟨e0, he0, heq⟩ := List.mem_map.mp he
    by_cases hk : e0.1 = key
    · rw [if_pos hk] at heq
      left
      rw [← heq]
    · rw [if_neg hk] at heq
      right
      rw [← heq]
      exact he0
  · rcases List.mem_append.mp he with h | h
    · exact Or.inr h
    · left
      rw [List.mem_singleton.mp h]

theorem PeerInv.sameState {c d : FiveGIntegration} (h : PeerInv c)
    (he : d.peerState = c.peerState) : PeerInv d := by
  unfold peerState at he
  simp only [Prod.mk.injEq] at he
  obtain ⟨h1, h2, h3, h4⟩ := he
  unfold PeerInv KeyOk at *
  rw [h1, h2, h3, h4]
  exact h

theorem peerState_sendData (c : FiveGIntegration) (data : Outbound) :
    (c.sendData data).peerState = c.peerState := by
  unfold sendData
  split <;> rfl

theorem peerState_init (c : FiveGIntegration) : c.init.peerState = c.peerState := by
  obtain ⟨vq, fr, h⟩ := init_frame c
  rw [h]
  rfl

theorem peerState_updateNetworkInfo (c : FiveGIntegration) :
    c.updateNetworkInfo.peerState = c.peerState := by
  obtain ⟨vq, fr, h⟩ := updateNetworkInfo_frame c
  rw [h]
  rfl

theorem peerState_runTimer (c : FiveGIntegration) (action : TimerAction) (now : Int) :
    (c.runTimer action now).peerState = c.peerState := by
  cases action with
  | measureLatency => exact peerState_sendData c _
  | collectPerformanceMetrics => exact peerState_sendData c _
  | sendCanvasData =>
    show (if c.hasCanvas then c.sendCanvasData now else c).peerState = _
    split
    · exact peerState_sendData c _
    · rfl
  | reconnect =>
    show (if c.isConnected then c else c.init).peerState = _
    split
    · rfl
    · exact peerState_init c

theorem peerState_fireTimer (c : FiveGIntegration) (handle : Nat) (now : Int) :
    (c.fireTimer handle now).peerState = c.peerState := by
  unfold fireTimer
  split
  · split
    · exact peerState_runTimer c _ now
    · exact (peerState_runTimer _ _ now).trans rfl
  · rfl

theorem KeyOk.mono {c d : FiveGIntegration} {k : Option String} (h : KeyOk c k)
    (hkeys : ∀ s, s ∈ c.peerConnections.map Prod.fst → s ∈ d.peerConnections.map Prod.fst)
    (hprimary : c.peerConnection.isSome = true → d.peerConnection.isSome = true) :
    KeyOk d k :=
  ⟨fun ht => by
      obtain ⟨s, hs, hm⟩ := h.1 ht
      exact ⟨s, hs, hkeys s hm⟩,
    fun hf => hprimary (h.2 hf)⟩

theorem PeerInv.createPeerConnection {c : FiveGIntegration} (h : PeerInv c)
    (peerId : Option String) : PeerInv (c.createPeerConnection peerId).1 := by
  have hkey : KeyOk (c.createPeerConnection peerId).1 peerId ∧
      (∀ s, s ∈ c.peerConnections.map Prod.fst →
        s ∈ (c.createPeerConnection peerId).1.peerConnections.map Prod.fst) ∧
      (c.peerConnection.isSome = true →
        (c.createPeerConnection peerId).1.peerConnection.isSome = true) ∧
      (c.createPeerConnection peerId).1.connections = c.connections ++ [peerId] ∧
      (c.createPeerConnection peerId).1.dataChannels = c.dataChannels := by
    unfold FiveGIntegration.createPeerConnection
    cases peerId with
    | none =>
      refine ⟨⟨fun ht => ?_, fun _ => rfl⟩, fun s hs => hs, fun _ => rfl, rfl, rfl⟩
      simp [truthyId] at ht
    | some s =>
      simp only
      by_cases hs : s ≠ ""
      · rw [if_pos hs]
        refine ⟨⟨fun _ => ⟨s, rfl, mem_keys_mapSet_self _ _ _⟩, fun hf => ?_⟩,
          fun x hx => mem_keys_mapSet_of_mem _ _ _ x hx, fun hp => hp, rfl, rfl⟩
        simp [truthyId, hs] at hf
      · rw [if_neg hs]
        refine ⟨⟨fun ht => ?_, fun _ => rfl⟩, fun x hx => hx, fun _ => rfl, rfl, rfl⟩
        simp [truthyId] at ht
        exact absurd ht hs
  obtain ⟨hk, hkeys, hprimary, hconn, hchan⟩ := hkey
  constructor
  · intro k hkmem
    rw [hconn] at hkmem
    rcases List.mem_append.mp hkmem with hm | hm
    · exact (h.1 k hm).mono hkeys hprimary
    · rw [List.mem_singleton.mp hm]
      exact hk
  · intro e he
    rw [hchan] at he
    exact (h.2 e he).mono hkeys hprimary

theorem PeerInv.onDataChannelOpen {c : FiveGIntegration} (h : PeerInv c) (r : Nat) :
    PeerInv (c.onDataChannelOpen r) := by
  unfold FiveGIntegration.onDataChannelOpen
  cases hr : c.connections.get? r with
  | none => exact h
  | some peerId =>
    have hmem : peerId ∈ c.connections := List.get?_mem hr
    constructor
    · intro k hk
      exact (h.1 k hk).mono (fun s hs => hs) (fun hp => hp)
    · intro e he
      have hor := fst_of_mem_mapSet c.dataChannels peerId r e he
      rcases hor with hkey | hold
      · rw [hkey]
        exact (h.1 peerId hmem).mono (fun s hs => hs) (fun hp => hp)
      · exact (h.2 e hold).mono (fun s hs => hs) (fun hp => hp)

theorem PeerInv.destroy {c : FiveGIntegration} (h : PeerInv c) : PeerInv c.destroy := by
  have hfields : c.destroy.connections = c.connections ∧
      c.destroy.peerConnections = c.peerConnections ∧
      c.destroy.peerConnection = c.peerConnection ∧ c.destroy.dataChannels = [] := by
    unfold FiveGIntegration.destroy
    simp only
    split <;> exact ⟨rfl, rfl, rfl, rfl⟩
  obtain ⟨h1, h2, h3, h4⟩ := hfields
  constructor
  · intro k hk
    rw [h1] at hk
    exact (h.1 k hk).mono (fun s hs => by rw [h2]; exact hs) (fun hp => by rw [h3]; exact hp)
  · intro e he
    rw [h4] at he
    exact absurd he (List.not_mem_nil e)

theorem PeerInv.dispatchData {c c1 : FiveGIntegration} (h : PeerInv c)
    (data : ControlMessage) (hd : c.dispatchData data = .ok c1) : PeerInv c1 := by
  unfold FiveGIntegration.dispatchData at hd
  split_ifs at hd
  · injection hd with hd
    rw [← hd]
    exact h.createPeerConnection data.userId
  · injection hd with hd
    rw [← hd]
    exact h.sameState (by unfold FiveGIntegration.handleWebRTCAnswer; split <;> rfl)
  · injection hd with hd
    rw [← hd]
    exact h.sameState (by unfold FiveGIntegration.handleICECandidate; split <;> rfl)
  · unfold handleRealTimeData at hd
    split_ifs at hd
    injection hd with hd
    rw [← hd]
    exact h
  · unfold handleEdgeResponse at hd
    split_ifs at hd
    · injection hd with hd
      rw [← hd]
      exact h.sameState rfl
    · injection hd with hd
      rw [← hd]
      exact h.sameState rfl
    · injection hd with hd
      rw [← hd]
      exact h
  · injection hd with hd
    rw [← hd]
    exact h

theorem PeerInv.afterEvent {c : FiveGIntegration} (h : PeerInv c) (op : SessionOp) :
    PeerInv (c.step op) := by
  cases op with
  | dataSocketOpen now => exact h.sameState ((peerState_sendData _ _).trans rfl)
  | dataSocketClose => exact h.sameState rfl
  | dataSocketError => exact h.sameState rfl
  | dataMessage data startTime endTime =>
    show PeerInv (match c.handleDataMessage data startTime endTime with
      | .ok c1 => c1
      | .error _ => c)
    unfold handleDataMessage
    cases hd : c.dispatchData data with
    | error e => exact h
    | ok c1 => exact (h.dispatchData data hd).sameState rfl
  | mediaSocketOpen => exact h.sameState rfl
  | mediaSocketClose => exact h.sameState rfl
  | mediaMessage data =>
    show PeerInv (match c.handleMediaMessage data with
      | .ok c1 => c1
      | .error _ => c)
    unfold handleMediaMessage
    split_ifs <;> exact h
  | timer handle now => exact h.sameState (peerState_fireTimer c handle now)
  | startVideoCall outcome =>
    cases outcome with
    | captureFailed => exact h.sameState rfl
    | offerFailed =>
      have h1 : PeerInv ({ c with localStream := true } : FiveGIntegration) := h.sameState rfl
      exact (h1.createPeerConnection none).sameState rfl
    | ok =>
      have h1 : PeerInv ({ c with localStream := true } : FiveGIntegration) := h.sameState rfl
      exact (h1.createPeerConnection none).sameState ((peerState_sendData _ _).trans rfl)
  | startScreenShare captured => cases captured <;> exact h.sameState rfl
  | startDataStream now => exact h.sameState ((peerState_sendData c _).trans rfl)
  | dataChannelOpen r => exact h.onDataChannelOpen r
  | iceCandidate r =>
    show PeerInv (c.onIceCandidate r)
    unfold onIceCandidate
    split
    · exact h.sameState (peerState_sendData c _)
    · exact h
  | answerSet peer => exact h.sameState (peerState_sendData c _)
  | networkChange info =>
    show PeerInv (match c.networkInfo with
      | some _i => ({ c with networkInfo := some info } : FiveGIntegration).updateNetworkInfo
      | none => c)
    split
    · exact h.sameState ((peerState_updateNetworkInfo _).trans rfl)
    · exact h
  | destroy => exact h.destroy

theorem PeerInv.holds {c : FiveGIntegration} (h : Reachable c) : PeerInv c := by
  obtain ⟨sessionId, user, networkSlicing, edgeComputing, massiveIoT, networkInfo, webrtc,
    mediaDevices, hasCanvas, ops, rfl⟩ := h
  have hnew : PeerInv (new sessionId user networkSlicing edgeComputing massiveIoT networkInfo
      webrtc mediaDevices hasCanvas) := by
    have h0 : PeerInv
        { sessionId := sessionId
          userId := if truthyId user then user.getD "anonymous" else "anonymous"
          isConnected := false
          dataSocket := none
          mediaSocket := none
          peerConnection := none
          peerConnections := []
          connections := []
          dataChannels := []
          localStream := false
          networkSlicing := networkSlicing
          edgeComputing := edgeComputing
          massiveIoT := massiveIoT
          latencyStats := []
          connectionQuality := "excellent"
          networkInfo := networkInfo
          videoQuality := none
          frameRate := none
          timers := []
          nextHandle := 1
          dataStreamInterval := none
          webrtc := webrtc
          mediaDevices := mediaDevices
          hasCanvas := hasCanvas
          sent := []
          notifications := []
          captureRequests := []
          applied := [] } :=
      ⟨fun k hk => absurd hk (List.not_mem_nil k), fun e he => absurd he (List.not_mem_nil e)⟩
    exact h0.sameState (peerState_init _)
  have hrun : ∀ (ops : List SessionOp) (c : FiveGIntegration), PeerInv c → PeerInv (c.run ops) := by
    intro ops
    induction ops with
    | nil => exact fun c hc => hc
    | cons op ops ih => exact fun c hc => ih (c.step op) (hc.afterEvent op)
  exact hrun ops _ hnew

/-- C17 as stated fails: after a video call was started and the data channel
of its connection opened, the `dataChannels` map has the key `null` (the
connection was made without a peer identifier) while the `peerConnections` map
is empty: that connection is the primary one, kept in `this.peerConnection`. -/
theorem primary_channel_key_not_in_peerConnections :
    Reachable sessionInCall ∧
    sessionInCall.dataChannels = [(none, 0)] ∧
    sessionInCall.peerConnections = [] ∧
    sessionInCall.peerConnection = some 0 ∧
    ¬ (∀ e ∈ sessionInCall.dataChannels,
        ∃ s, e.1 = some s ∧ s ∈ sessionInCall.peerConnections.map Prod.fst) := by
  refine ⟨⟨some "s1", some "local", false, false, false, none, true, true, true,
    [.dataSocketOpen 1700000000000, .startVideoCall CallOutcome.ok, .dataChannelOpen 0], rfl⟩,
    by decide, by decide, by decide, ?_⟩
  intro hall
  obtain ⟨s, hs, _⟩ := hall (none, 0) (by decide)
  exact absurd hs (by simp)

/-- C17, amended: in every reachable state every key of the `dataChannels` map
that is a truthy peer identifier is also a key of the `peerConnections` map;
a falsy key (`null` or the empty string) belongs to the data channel of a
connection made without a peer identifier, and then the primary connection
`this.peerConnection` exists. -/
theorem channel_keys_are_connection_keys (c : FiveGIntegration) (h : Reachable c) :
    ∀ e ∈ c.dataChannels,
      (truthyId e.1 = true → ∃ s, e.1 = some s ∧ s ∈ c.peerConnections.map Prod.fst) ∧
      (truthyId e.1 = false → c.peerConnection.isSome = true) :=
  (PeerInv.holds h).2

/-- C17, amended, at the session in a call. -/
theorem channel_keys_are_connection_keys_witness :
    Reachable sessionInCall ∧
    ∀ e ∈ sessionInCall.dataChannels,
      (truthyId e.1 = true →
        ∃ s, e.1 = some s ∧ s ∈ sessionInCall.peerConnections.map Prod.fst) ∧
      (truthyId e.1 = false → sessionInCall.peerConnection.isSome = true) :=
  have hreach : Reachable sessionInCall :=
    ⟨some "s1", some "local", false, false, false, none, true, true, true,
      [.dataSocketOpen 1700000000000, .startVideoCall CallOutcome.ok, .dataChannelOpen 0], rfl⟩
  ⟨hreach, channel_keys_are_connection_keys sessionInCall hreach⟩

end FiveGIntegration

/-! ## Two-dimensional canvas: stroke end and the cursor under undo and redo -/

namespace Canvas2D

variable {R : Type}

/-- C25: `stopDrawing` leaves `history` and `historyStep` as they are; while a
stroke is active it changes exactly `isDrawing` (to false) and the compositing
mode (to `source-over`), and with no stroke active it returns the state
unchanged. -/
theorem stopDrawing_takes_no_checkpoint (c : Canvas2D R) :
    (stopDrawing c).history = c.history ∧ (stopDrawing c).historyStep = c.historyStep ∧
      (stopDrawing c).isDrawing = false ∧
      (c.isDrawing = true →
        stopDrawing c = { c with isDrawing := false, globalCompositeOperation := "source-over" }) ∧
      (c.isDrawing = false → stopDrawing c = c) := by
  unfold stopDrawing
  refine ⟨?_, ?_, ?_, ?_, ?_⟩
  · split <;> rfl
  · split <;> rfl
  · split
    · rfl
    · rename_i h
      simpa using h
  · intro h
    rw [if_pos h]
  · intro h
    rw [if_neg (by simp [h])]

/-- An eraser stroke in progress is ended by `stopDrawing`: the snapshot taken
at its start and the cursor stay, the flag falls and the compositing mode goes
from `destination-out` back to `source-over`. -/
theorem stopDrawing_takes_no_checkpoint_witness :
    eraserStrokeInProgress.isDrawing = true ∧
      eraserStrokeInProgress.globalCompositeOperation = "destination-out" ∧
      (stopDrawing eraserStrokeInProgress).history = eraserStrokeInProgress.history ∧
      (stopDrawing eraserStrokeInProgress).historyStep = eraserStrokeInProgress.historyStep ∧
      (stopDrawing eraserStrokeInProgress).isDrawing = false ∧
      stopDrawing eraserStrokeInProgress =
        { eraserStrokeInProgress with
          isDrawing := false, globalCompositeOperation := "source-over" } :=
  have h := stopDrawing_takes_no_checkpoint eraserStrokeInProgress
  ⟨by decide, by decide, h.1, h.2.1, h.2.2.1, h.2.2.2.1 (by decide)⟩

/-- C30: on a reachable canvas, when `historyStep > 0` an `undo` followed by a
`redo` gives back the same `history` and `historyStep`, and when
`historyStep < history.length - 1` a `redo` followed by an `undo` does. -/
theorem undo_redo_cursor_inverse (S : Surface R) (c : Canvas2D R) (h : Reachable S c) :
    (c.historyStep > 0 →
      (redo S (undo S c)).history = c.history ∧
        (redo S (undo S c)).historyStep = c.historyStep) ∧
    (c.historyStep < (c.history.length : Int) - 1 →
      (undo S (redo S c)).history = c.history ∧
        (undo S (redo S c)).historyStep = c.historyStep) := by
  have hinv := reachable_inv S c h
  obtain ⟨h1, h2, h3⟩ := hinv
  constructor
  · intro hpos
    refine ⟨by rw [redo_history, undo_history], ?_⟩
    rw [redo_historyStep, undo_history, undo_historyStep, if_pos hpos]
    rw [if_pos (by omega)]
    omega
  · intro hlt
    refine ⟨by rw [undo_history, redo_history], ?_⟩
    rw [undo_historyStep, redo_historyStep, if_pos hlt]
    have hlen : 0 < c.history.length := by omega
    have h0 := h3 hlen
    rw [if_pos (by omega)]
    omega

/-- After two strokes the cursor is 1 of the snapshots 0 and 1: undo then redo
returns to 1. One undo later it is 0, and redo then undo returns to 0. -/
theorem undo_redo_cursor_inverse_witness :
    Reachable displayList afterTwoStrokes ∧
      afterTwoStrokes.historyStep = 1 ∧ afterTwoStrokes.history.length = 2 ∧
      ((redo displayList (undo displayList afterTwoStrokes)).history =
          afterTwoStrokes.history ∧
        (redo displayList (undo displayList afterTwoStrokes)).historyStep =
          afterTwoStrokes.historyStep) ∧
      Reachable displayList afterTwoStrokesAndUndo ∧
      afterTwoStrokesAndUndo.historyStep = 0 ∧ afterTwoStrokesAndUndo.history.length = 2 ∧
      ((undo displayList (redo displayList afterTwoStrokesAndUndo)).history =
          afterTwoStrokesAndUndo.history ∧
        (undo displayList (redo displayList afterTwoStrokesAndUndo)).historyStep =
          afterTwoStrokesAndUndo.historyStep) :=
  have hr : Reachable displayList afterTwoStrokes :=
    ⟨[], false, "local", none,
      [.startDrawing ⟨10, 10⟩, .draw ⟨50, 50⟩, .stopDrawing,
       .startDrawing ⟨20, 20⟩, .draw ⟨60, 20⟩, .stopDrawing], rfl⟩
  have hu : Reachable displayList afterTwoStrokesAndUndo :=
    ⟨[], false, "local", none,
      [.startDrawing ⟨10, 10⟩, .draw ⟨50, 50⟩, .stopDrawing,
       .startDrawing ⟨20, 20⟩, .draw ⟨60, 20⟩, .stopDrawing, .undo], rfl⟩
  ⟨hr, by decide, by decide,
    (undo_redo_cursor_inverse displayList afterTwoStrokes hr).1 (by decide),
    hu, by decide, by decide,
    (undo_redo_cursor_inverse displayList afterTwoStrokesAndUndo hu).2 (by decide)⟩

end Canvas2D

/-! ## Scene editor controller: inbound updates and what remote changes send -/

namespace Canvas3D

theorem getObjectByName_none (c : Canvas3D) (name : String)
    (h : c.getObjectByName name = none) :
    c.nameOf sceneRef ≠ some name ∧ ∀ q ∈ c.sceneChildren, c.nameOf q ≠ some name := by
  unfold getObjectByName at h
  split at h
  · exact absurd h (by simp)
  · rename_i hroot
    refine ⟨hroot, ?_⟩
    intro q hq hname
    have hnone := (List.findSome?_eq_none_iff.mp h) q hq
    unfold findInChild at hnone
    unfold nameOf at hname
    cases hd : c.deref q with
    | none => rw [hd] at hname; simp at hname
    | some o =>
      rw [hd] at hname hnone
      simp only [Option.map_some', Option.some.injEq] at hname
      simp only at hnone
      rw [if_pos hname] at hnone
      exact absurd hnone (by simp)

theorem handleRemoteUpdate_update (c : Canvas3D) (data : ObjectChange) (now : Nat)
    (huser : data.user ≠ c.currentUser) (hact : data.action = "update") :
    c.handleRemoteUpdate data now = c.updateObjectFromData data.object := by
  unfold Canvas3D.handleRemoteUpdate
  rw [if_neg huser, if_neg (by rw [hact]; decide), if_pos hact]

theorem updateObjectFromData_sent (c : Canvas3D) (objectData : ObjectData) :
    (c.updateObjectFromData objectData).sent = c.sent := by
  unfold Canvas3D.updateObjectFromData
  split
  · exact modifyObject_sent _ _ _
  · rfl

theorem updateObjectFromData_effect (c : Canvas3D) (data : ObjectChange) (now : Nat)
    (huser : data.user ≠ c.currentUser) (hact : data.action = "update") :
    (∀ r, c.getObjectByName data.object.name = some r →
      ∃ o o1, c.deref r = some o ∧ o.name = data.object.name ∧
        (c.handleRemoteUpdate data now).deref r = some o1 ∧
        o1.position = data.object.position ∧
        o1.rotation = ⟨data.object.rotation.x, data.object.rotation.y, data.object.rotation.z⟩ ∧
        o1.scale = data.object.scale ∧
        (∀ m d, o.material = some m → data.object.material = some d →
          o1.material = some { m with color := d.color, opacity := d.opacity }) ∧
        (o.material = none ∨ data.object.material = none → o1.material = o.material) ∧
        o1.name = o.name ∧ o1.type = o.type ∧ o1.children = o.children ∧
        ∀ q, q ≠ r → (c.handleRemoteUpdate data now).deref q = c.deref q) ∧
    (c.getObjectByName data.object.name = none →
      (c.nameOf sceneRef ≠ some data.object.name ∧
        ∀ q ∈ c.sceneChildren, c.nameOf q ≠ some data.object.name) ∧
      c.handleRemoteUpdate data now = c) ∧
    (c.handleRemoteUpdate data now).objects = c.objects ∧
    (c.handleRemoteUpdate data now).sent = c.sent := by
  rw [handleRemoteUpdate_update c data now huser hact]
  refine ⟨?_, ?_, ?_, updateObjectFromData_sent c data.object⟩
  · intro r hr
    have hname := getObjectByName_name c _ r hr
    unfold nameOf at hname
    cases hd : c.deref r with
    | none => rw [hd] at hname; simp at hname
    | some o =>
      rw [hd] at hname
      simp only [Option.map_some', Option.some.injEq] at hname
      unfold Canvas3D.updateObjectFromData
      rw [hr]
      simp only
      refine ⟨o,
        { o with
          position := data.object.position
          rotation := Euler.ofData data.object.rotation
          scale := data.object.scale
          material :=
            match o.material, data.object.material with
            | some m, some d => some { m with color := d.color, opacity := d.opacity }
            | m, _ => m },
        rfl, hname, ?_, rfl, rfl, rfl, ?_, ?_, rfl, rfl, rfl, ?_⟩
      · rw [deref_modifyObject, if_pos rfl, hd]
        rfl
      · intro m d hm hdm
        simp only [hm, hdm]
      · intro hnone
        rcases hnone with hm | hdm
        · simp only [hm]
        · simp only [hdm]
          cases o.material <;> rfl
      · intro q hq
        rw [deref_modifyObject, if_neg hq]
  · intro hnone
    refine ⟨getObjectByName_none c _ hnone, ?_⟩
    unfold Canvas3D.updateObjectFromData
    rw [hnone]
  · unfold Canvas3D.updateObjectFromData
    split
    · exact modifyObject_objects _ _ _
    · rfl

theorem peerAfterRotation_sent : peerAfterRotation.sent = [peerRotationUpdate] := by
  have h : peerAfterRotation.sent =
      [{ peerRotationUpdate with
         object := { peerRotationUpdate.object with
           rotation := RotationData.ofEuler
             ⟨some (JsNumber.ofRat 0), some ⟨0, 90 / 180⟩, some (JsNumber.ofRat 0)⟩ } }] := rfl
  rw [h]
  simp [peerRotationUpdate, RotationData.ofEuler]
  norm_num

/-- C21, the code at the failing input: the `update` message the program
itself sends. A peer turns its cube by 90 degrees about the vertical axis;
`serializeObject` hands the cube's `THREE.Euler` to `JSON.stringify`, which
writes it as `_x`, `_y`, `_z`, while `updateObjectFromData` reads
`rotation.x`, `rotation.y`, `rotation.z`. On the receiving controller the
cube of that name keeps the message's position and scale, but its three
angles are `undefined`, not the angles of the peer's cube. For every
controller and every `update` message of another user: the object the lookup
by name finds gets the position and scale of the message, the angles read
from the entries `x`, `y`, `z`, and colour and opacity when both carry a
material, every other object is as before; without an object of the name the
controller is unchanged; the tracked list and the sent messages are as
before. -/
theorem remote_update_drops_peer_rotation :
    peerAfterRotation.sent = [peerRotationUpdate] ∧
    (peerAfterRotation.deref 6).map (fun o => o.rotation) =
      some ⟨some (JsNumber.ofRat 0), some ⟨0, 90 / 180⟩, some (JsNumber.ofRat 0)⟩ ∧
    peerRotationUpdate.object.rotation._y = some ⟨0, 1 / 2⟩ ∧
    peerRotationUpdate.object.rotation.y = none ∧
    collabScene.getObjectByName peerRotationUpdate.object.name = some 6 ∧
    (collabScene.deref 6).map (fun o => o.rotation) = some (Euler.ofRat 0 0 0) ∧
    (∃ o1, (collabScene.handleRemoteUpdate peerRotationUpdate 1700000000006).deref 6 = some o1 ∧
      o1.position = Vec3.ofRat 0 1 0 ∧ o1.scale = Vec3.ofRat 1 1 1 ∧
      o1.rotation = ⟨none, none, none⟩) ∧
    (collabScene.handleRemoteUpdate peerRotationUpdate 1700000000006).sent = collabScene.sent ∧
    (∀ (c : Canvas3D) (data : ObjectChange) (now : Nat),
      data.user ≠ c.currentUser → data.action = "update" →
      (∀ r, c.getObjectByName data.object.name = some r →
        ∃ o o1, c.deref r = some o ∧ o.name = data.object.name ∧
          (c.handleRemoteUpdate data now).deref r = some o1 ∧
          o1.position = data.object.position ∧
          o1.rotation =
            ⟨data.object.rotation.x, data.object.rotation.y, data.object.rotation.z⟩ ∧
          o1.scale = data.object.scale ∧
          (∀ m d, o.material = some m → data.object.material = some d →
            o1.material = some { m with color := d.color, opacity := d.opacity }) ∧
          (o.material = none ∨ data.object.material = none → o1.material = o.material) ∧
          o1.name = o.name ∧ o1.type = o.type ∧ o1.children = o.children ∧
          ∀ q, q ≠ r → (c.handleRemoteUpdate data now).deref q = c.deref q) ∧
      (c.getObjectByName data.object.name = none →
        (c.nameOf sceneRef ≠ some data.object.name ∧
          ∀ q ∈ c.sceneChildren, c.nameOf q ≠ some data.object.name) ∧
        c.handleRemoteUpdate data now = c) ∧
      (c.handleRemoteUpdate data now).objects = c.objects ∧
      (c.handleRemoteUpdate data now).sent = c.sent) := by
  have h := updateObjectFromData_effect collabScene peerRotationUpdate 1700000000006
    (by decide) (by decide)
  have h6 : collabScene.getObjectByName peerRotationUpdate.object.name = some 6 := by decide
  refine ⟨peerAfterRotation_sent, rfl, rfl, rfl, h6, by decide, ?_, h.2.2.2, ?_⟩
  · obtain ⟨o, o1, _, _, h3, h4, h5, h6, _⟩ := h.1 6 h6
    exact ⟨o1, h3, h4.trans rfl, h6.trans rfl, h5.trans rfl⟩
  · intro c data now huser hact
    exact updateObjectFromData_effect c data now huser hact

theorem modifyObject_channel (c : Canvas3D) (r : Nat) (f : Object3D → Object3D) :
    (c.modifyObject r f).isCollaborative = c.isCollaborative ∧
      (c.modifyObject r f).socketOpen = c.socketOpen ∧
      (c.modifyObject r f).currentUser = c.currentUser ∧
      (c.modifyObject r f).sent = c.sent := by
  unfold modifyObject
  split <;> exact ⟨rfl, rfl, rfl, rfl⟩

theorem deselectObject_channel (c : Canvas3D) :
    c.deselectObject.isCollaborative = c.isCollaborative ∧
      c.deselectObject.socketOpen = c.socketOpen ∧
      c.deselectObject.currentUser = c.currentUser ∧
      c.deselectObject.sent = c.sent := by
  unfold Canvas3D.deselectObject
  cases c.selectedObject with
  | none => exact ⟨rfl, rfl, rfl, rfl⟩
  | some r =>
    simp only
    cases c.getObjectByName "selection_box" with
    | none => exact ⟨rfl, rfl, rfl, rfl⟩
    | some box => exact modifyObject_channel c _ _

theorem nameOf_modifyObject (c : Canvas3D) (r q : Nat) (f : Object3D → Object3D)
    (hf : ∀ o, (f o).name = o.name) : (c.modifyObject r f).nameOf q = c.nameOf q := by
  unfold nameOf
  rw [deref_modifyObject]
  split
  · rename_i hq
    rw [hq]
    cases c.deref r with
    | none => rfl
    | some o => simp [hf o]
  · rfl

theorem nameOf_deselectObject (c : Canvas3D) (q : Nat) :
    c.deselectObject.nameOf q = c.nameOf q := by
  unfold Canvas3D.deselectObject
  cases c.selectedObject with
  | none => rfl
  | some r =>
    simp only
    cases c.getObjectByName "selection_box" with
    | none => rfl
    | some box => exact nameOf_modifyObject c _ q _ (fun _ => rfl)

theorem broadcast_sent (c : Canvas3D) (action : String) (r : Nat) (name : String)
    (hcollab : c.isCollaborative = true) (hopen : c.socketOpen = true)
    (hname : c.nameOf r = some name) :
    ∃ o, c.deref r = some o ∧ o.name = name ∧
      (if c.isCollaborative then c.broadcastObjectChange action r else c).sent =
        c.sent ++ [{ action := action, object := serializeObject o, user := c.currentUser }] := by
  unfold nameOf at hname
  cases hd : c.deref r with
  | none => rw [hd] at hname; simp at hname
  | some o =>
    rw [hd] at hname
    simp only [Option.map_some', Option.some.injEq] at hname
    refine ⟨o, rfl, hname, ?_⟩
    rw [if_pos hcollab]
    unfold broadcastObjectChange
    rw [if_pos hopen, hd]

theorem addMesh_sent (c : Canvas3D) (hpos : 0 < c.heap.length)
    (hcollab : c.isCollaborative = true) (hopen : c.socketOpen = true) (label type : String)
    (defaultColor : Nat) (position : Vec3) (options : AddOptions) (now : Nat) :
    ∃ mesh : Object3D,
      mesh.name = label ++ "_" ++ toString now ∧ mesh.type = some type ∧
      mesh.position = position ∧
      (c.addMesh label type defaultColor position options now).1.sent =
        c.sent ++ [{ action := "add", object := serializeObject mesh, user := c.currentUser }] := by
  obtain ⟨mesh, h1, h2, h3, _, _, _, _, heq⟩ :=
    addMesh_spec c label type defaultColor position options now
  have hch := modifyObject_channel (c.alloc mesh).1 sceneRef
    (fun root => { root with children := root.children ++ [c.heap.length] })
  have hderef : ((c.alloc mesh).1.sceneAdd c.heap.length).deref c.heap.length = some mesh := by
    unfold Canvas3D.sceneAdd
    rw [deref_root_modify_ne _ _ _ (fun e => Nat.lt_irrefl _ (e ▸ hpos)), deref_alloc,
      if_pos rfl]
  obtain ⟨o, ho, _, hsent⟩ := broadcast_sent
    ({ ((c.alloc mesh).1.sceneAdd c.heap.length) with
        objects := ((c.alloc mesh).1.sceneAdd c.heap.length).objects ++ [c.heap.length] }
      : Canvas3D) "add" c.heap.length mesh.name (hch.1.trans hcollab) (hch.2.1.trans hopen)
    (by
      show (((c.alloc mesh).1.sceneAdd c.heap.length).deref c.heap.length).map
        (fun o => o.name) = _
      rw [hderef]
      rfl)
  have hom : o = mesh := Option.some.inj (ho.symm.trans hderef)
  refine ⟨mesh, h1, h2, h3, ?_⟩
  rw [heq, hsent, hom]
  show ((c.alloc mesh).1.sceneAdd c.heap.length).sent ++
    [{ action := "add", object := serializeObject mesh,
       user := ((c.alloc mesh).1.sceneAdd c.heap.length).currentUser }] = _
  unfold Canvas3D.sceneAdd
  rw [hch.2.2.1, hch.2.2.2]
  rfl

theorem deleteObject_sent (c : Canvas3D) (name : String) (r : Nat)
    (hcollab : c.isCollaborative = true) (hopen : c.socketOpen = true)
    (hfound : c.getObjectByName name = some r) (hg : name ≠ "Ground") :
    ∃ o, o.name = name ∧
      (c.deleteObject name).sent =
        c.sent ++ [{ action := "delete", object := serializeObject o, user := c.currentUser }] := by
  have hname := getObjectByName_name c name r hfound
  have hng : c.nameOf r ≠ some "Ground" := by
    rw [hname]
    simpa using hg
  have hch1 := modifyObject_channel c sceneRef
    (fun root => { root with children := root.children.erase r })
  have hn1 : (c.sceneRemove r).nameOf r = some name :=
    (nameOf_modifyObject c sceneRef r
      (fun root => { root with children := root.children.erase r }) (fun _ => rfl)).trans hname
  have hstep : ∀ c2 : Canvas3D, c2.isCollaborative = true → c2.socketOpen = true →
      c2.currentUser = c.currentUser → c2.sent = c.sent → c2.nameOf r = some name →
      ∀ (p : Prop) [Decidable p],
      ∃ o, o.name = name ∧
        (if (if p then c2.deselectObject else c2).isCollaborative then
            (if p then c2.deselectObject else c2).broadcastObjectChange "delete" r
          else (if p then c2.deselectObject else c2)).sent =
          c.sent ++
            [{ action := "delete", object := serializeObject o, user := c.currentUser }] := by
    intro c2 h1 h2 h3 h4 h5 p _
    have hch := deselectObject_channel c2
    have hc3 : (if p then c2.deselectObject else c2).isCollaborative = true ∧
        (if p then c2.deselectObject else c2).socketOpen = true ∧
        (if p then c2.deselectObject else c2).currentUser = c.currentUser ∧
        (if p then c2.deselectObject else c2).sent = c.sent ∧
        (if p then c2.deselectObject else c2).nameOf r = some name := by
      split
      · exact ⟨hch.1.trans h1, hch.2.1.trans h2, hch.2.2.1.trans h3, hch.2.2.2.trans h4,
          (nameOf_deselectObject c2 r).trans h5⟩
      · exact ⟨h1, h2, h3, h4, h5⟩
    obtain ⟨o, _, hon, hsent⟩ := broadcast_sent _ "delete" r name hc3.1 hc3.2.1 hc3.2.2.2.2
    exact ⟨o, hon, by rw [hsent, hc3.2.2.1, hc3.2.2.2.1]⟩
  unfold Canvas3D.deleteObject
  rw [hfound]
  simp only
  rw [if_pos hng]
  exact hstep
    ({ (c.sceneRemove r) with objects := (c.sceneRemove r).objects.erase r } : Canvas3D)
    (hch1.1.trans hcollab) (hch1.2.1.trans hopen) hch1.2.2.1 hch1.2.2.2 hn1 _

/-- C28: on a reachable collaborative controller with its socket open, an
inbound `add` of another user for a cube, sphere or cylinder sends exactly one
`add` message, whose object carries the name made here, `Cube_`, `Sphere_` or
`Cylinder_` followed by the clock reading, and the message's type and
position; an inbound `delete` naming an object the lookup finds, other than
`Ground`, sends exactly one `delete` message for an object of that name; an
inbound `update` sends nothing. -/
theorem remote_changes_are_sent_on (c : Canvas3D) (h : Reachable c)
    (hcollab : c.isCollaborative = true) (hopen : c.socketOpen = true)
    (data : ObjectChange) (now : Nat) (huser : data.user ≠ c.currentUser) :
    (data.action = "add" →
      ∀ label type, (label, type) ∈ [("Cube", "cube"), ("Sphere", "sphere"),
          ("Cylinder", "cylinder")] → data.object.type = some type →
        ∃ m : ObjectChange, (c.handleRemoteUpdate data now).sent = c.sent ++ [m] ∧
          m.action = "add" ∧ m.user = c.currentUser ∧
          m.object.name = label ++ "_" ++ toString now ∧
          m.object.type = some type ∧ m.object.position = data.object.position) ∧
    (data.action = "delete" →
      ∀ r, c.getObjectByName data.object.name = some r → data.object.name ≠ "Ground" →
        ∃ m : ObjectChange, (c.handleRemoteUpdate data now).sent = c.sent ++ [m] ∧
          m.action = "delete" ∧ m.user = c.currentUser ∧
          m.object.name = data.object.name) ∧
    (data.action = "update" → (c.handleRemoteUpdate data now).sent = c.sent) := by
  have hinv := SceneInv.of_reachable h
  have hpos : 0 < c.heap.length := Nat.lt_of_le_of_lt (Nat.zero_le _) hinv.ground_lt
  refine ⟨?_, ?_, ?_⟩
  · intro hact label type hmem htype
    have hrun : c.handleRemoteUpdate data now = c.createObjectFromData data.object now := by
      unfold Canvas3D.handleRemoteUpdate
      rw [if_neg huser, if_pos hact]
    simp only [List.mem_cons, Prod.mk.injEq, List.mem_singleton, List.not_mem_nil,
      or_false] at hmem
    have hcreate : ∃ (defaultColor : Nat) (options : AddOptions),
        c.createObjectFromData data.object now =
          (c.addMesh label type defaultColor data.object.position options now).1.modifyObject
            (c.addMesh label type defaultColor data.object.position options now).2
            (fun o => { o with name := data.object.name,
                               rotation := Euler.ofData data.object.rotation,
                               scale := data.object.scale }) := by
      unfold Canvas3D.createObjectFromData
      rcases hmem with ⟨hl, ht⟩ | ⟨hl, ht⟩ | ⟨hl, ht⟩
      · subst hl; subst ht
        exact ⟨0x3498db, _, by rw [htype]; rfl⟩
      · subst hl; subst ht
        exact ⟨0xe74c3c, _, by rw [htype]; rfl⟩
      · subst hl; subst ht
        exact ⟨0x9b59b6, _, by rw [htype]; rfl⟩
    obtain ⟨defaultColor, options, heq⟩ := hcreate
    obtain ⟨mesh, hn, ht, hp, hsent⟩ :=
      addMesh_sent c hpos hcollab hopen label type defaultColor data.object.position options now
    refine ⟨{ action := "add", object := serializeObject mesh, user := c.currentUser },
      ?_, rfl, rfl, hn, ht, hp⟩
    rw [hrun, heq, modifyObject_sent, hsent]
  · intro hact r hfound hg
    have hrun : c.handleRemoteUpdate data now = c.deleteObject data.object.name := by
      unfold Canvas3D.handleRemoteUpdate
      rw [if_neg huser, if_neg (by rw [hact]; decide), if_neg (by rw [hact]; decide),
        if_pos hact]
    obtain ⟨o, hon, hsent⟩ := deleteObject_sent c _ r hcollab hopen hfound hg
    exact ⟨{ action := "delete", object := serializeObject o, user := c.currentUser },
      by rw [hrun, hsent], rfl, rfl, hon⟩
  · intro hact
    rw [handleRemoteUpdate_update c data now huser hact]
    exact updateObjectFromData_sent c data.object

/-- C28 at the collaborative scene with the sample cube selected: the remote
`add` of `Cube_1` arriving at clock reading 1700000000002 is answered by one
`add` message naming `Cube_1700000000002`, the remote `delete` of the sample
cube by one `delete` message naming it, and the remote `update` by nothing. -/
theorem remote_changes_are_sent_on_witness :
    Reachable collabSceneCubeSelected ∧ collabSceneCubeSelected.isCollaborative = true ∧
    collabSceneCubeSelected.socketOpen = true ∧ collabSceneCubeSelected.sent = [] ∧
    (∃ m : ObjectChange,
      (collabSceneCubeSelected.handleRemoteUpdate remoteAddCube1 1700000000002).sent =
        collabSceneCubeSelected.sent ++ [m] ∧
      m.action = "add" ∧ m.user = "local" ∧ m.object.name = "Cube_1700000000002") ∧
    (∃ m : ObjectChange,
      (collabSceneCubeSelected.handleRemoteUpdate remoteDeleteCube 1700000000002).sent =
        collabSceneCubeSelected.sent ++ [m] ∧
      m.action = "delete" ∧ m.user = "local" ∧ m.object.name = "Cube_1700000000000") ∧
    (collabSceneCubeSelected.handleRemoteUpdate remoteMoveCube 1700000000002).sent =
      collabSceneCubeSelected.sent :=
  have hreach : Reachable collabSceneCubeSelected :=
    ⟨true, "local", 1700000000000, 1700000000001, none, [.socketOpen, .selectObject 6], rfl⟩
  have hadd := (remote_changes_are_sent_on collabSceneCubeSelected hreach (by decide)
    (by decide) remoteAddCube1 1700000000002 (by decide)).1 (by decide) "Cube" "cube"
    (by decide) (by decide)
  have hdel := (remote_changes_are_sent_on collabSceneCubeSelected hreach (by decide)
    (by decide) remoteDeleteCube 1700000000002 (by decide)).2.1 (by decide) 6 (by decide)
    (by decide)
  have hupd := (remote_changes_are_sent_on collabSceneCubeSelected hreach (by decide)
    (by decide) remoteMoveCube 1700000000002 (by decide)).2.2 (by decide)
  ⟨hreach, by decide, by decide, by decide,
    hadd.elim (fun m hm => ⟨m, hm.1, hm.2.1, hm.2.2.1.trans (by decide),
      hm.2.2.2.1.trans (by decide)⟩),
    hdel.elim (fun m hm => ⟨m, hm.1, hm.2.1, hm.2.2.1.trans (by decide), hm.2.2.2.trans rfl⟩),
    hupd⟩

end Canvas3D

/-! ## Session controller: quality tiers, captures, latency samples, teardown -/

namespace FiveGIntegration

/-- C22: `optimizeForNetworkConditions` is defined on every connection class,
an absent one included, and sets the target quality by it: `4g` gives `1080p`
at 30, `3g` gives `720p` at 24, `2g` gives `480p` at 15, and every other
value, `slow-2g` and the absent class among them, gives `4k` at 60. -/
theorem network_class_sets_quality (c : FiveGIntegration) (effectiveType : Option String) :
    (c.optimizeForNetworkConditions effectiveType).videoQuality =
      some (if effectiveType = some "4g" then "1080p"
            else if effectiveType = some "3g" then "720p"
            else if effectiveType = some "2g" then "480p"
            else "4k") ∧
    (c.optimizeForNetworkConditions effectiveType).frameRate =
      some (if effectiveType = some "4g" then 30
            else if effectiveType = some "3g" then 24
            else if effectiveType = some "2g" then 15
            else 60) ∧
    (c.optimizeForNetworkConditions (some "slow-2g")).videoQuality = some "4k" ∧
    (c.optimizeForNetworkConditions (some "slow-2g")).frameRate = some 60 ∧
    (c.optimizeForNetworkConditions none).videoQuality = some "4k" ∧
    (c.optimizeForNetworkConditions none).frameRate = some 60 := by
  refine ⟨?_, ?_, rfl, rfl, rfl, rfl⟩
  · unfold optimizeForNetworkConditions
    split_ifs <;> rfl
  · unfold optimizeForNetworkConditions
    split_ifs <;> rfl

/-- C23 as stated fails: after `setOptimizationLevel('ultra')` the controller
holds `4k` at 60, and the next `startVideoCall` requests 1280 by 720 at 30
frames per second; no capture at 60 frames per second is requested. -/
theorem startVideoCall_ignores_quality_tier :
    (freshSession.setOptimizationLevel "ultra").videoQuality = some "4k" ∧
    (freshSession.setOptimizationLevel "ultra").frameRate = some 60 ∧
    ((freshSession.setOptimizationLevel "ultra").startVideoCall CallOutcome.ok).captureRequests =
      [{ kind := "user", width := 1280, height := 720, frameRate := 30 }] ∧
    ¬ ∃ r ∈ ((freshSession.setOptimizationLevel "ultra").startVideoCall
        CallOutcome.ok).captureRequests, r.frameRate = 60 := by
  decide

/-- C23, amended: `setOptimizationLevel` stores the tier (`4k` at 60, `1080p`
at 30, `720p` at 24, `480p` at 15 for `ultra`, `high`, `medium`, `low`) and
requests nothing; the next `startVideoCall` requests capture at 1280 by 720 at
30 frames per second after every level and with every outcome of the call. -/
theorem startVideoCall_requests_fixed_capture (c : FiveGIntegration) (level : String)
    (outcome : CallOutcome) :
    ((c.setOptimizationLevel level).startVideoCall outcome).captureRequests =
      c.captureRequests ++ [{ kind := "user", width := 1280, height := 720, frameRate := 30 }] ∧
    (c.setOptimizationLevel level).captureRequests = c.captureRequests ∧
    ((c.setOptimizationLevel "ultra").videoQuality = some "4k" ∧
      (c.setOptimizationLevel "ultra").frameRate = some 60) ∧
    ((c.setOptimizationLevel "high").videoQuality = some "1080p" ∧
      (c.setOptimizationLevel "high").frameRate = some 30) ∧
    ((c.setOptimizationLevel "medium").videoQuality = some "720p" ∧
      (c.setOptimizationLevel "medium").frameRate = some 24) ∧
    ((c.setOptimizationLevel "low").videoQuality = some "480p" ∧
      (c.setOptimizationLevel "low").frameRate = some 15) := by
  obtain ⟨vq, fr, h⟩ := setOptimizationLevel_frame c level
  refine ⟨?_, by rw [h], ⟨rfl, rfl⟩, ⟨rfl, rfl⟩, ⟨rfl, rfl⟩, ⟨rfl, rfl⟩⟩
  rw [h]
  cases outcome with
  | captureFailed => rfl
  | offerFailed =>
    unfold startVideoCall createPeerConnection
    rfl
  | ok =>
    unfold startVideoCall createPeerConnection sendData
    simp only
    split <;> rfl

theorem scheduleState_sendData (c : FiveGIntegration) (data : Outbound) :
    (c.sendData data).scheduleState = c.scheduleState := by
  unfold sendData
  split <;> rfl

theorem scheduleState_updateNetworkInfo (c : FiveGIntegration) :
    c.updateNetworkInfo.scheduleState = c.scheduleState := by
  obtain ⟨vq, fr, h⟩ := updateNetworkInfo_frame c
  rw [h]
  rfl

theorem scheduleState_createPeerConnection (c : FiveGIntegration) (peerId : Option String) :
    (c.createPeerConnection peerId).1.scheduleState = c.scheduleState := by
  unfold createPeerConnection
  simp only
  split
  · split <;> rfl
  · rfl

theorem scheduleState_startVideoCall (c : FiveGIntegration) (outcome : CallOutcome) :
    (c.startVideoCall outcome).scheduleState = c.scheduleState := by
  cases outcome with
  | captureFailed => rfl
  | offerFailed =>
    exact (scheduleState_createPeerConnection
      ({ c with captureRequests := c.captureRequests ++ [videoCallRequest],
                localStream := true } : FiveGIntegration) none).trans rfl
  | ok =>
    exact ((scheduleState_sendData _ _).trans (scheduleState_createPeerConnection
      ({ c with captureRequests := c.captureRequests ++ [videoCallRequest],
                localStream := true } : FiveGIntegration) none)).trans rfl

theorem scheduleState_dispatchData (c c1 : FiveGIntegration) (data : ControlMessage)
    (hd : c.dispatchData data = .ok c1) : c1.scheduleState = c.scheduleState := by
  unfold dispatchData at hd
  split_ifs at hd
  · injection hd with hd
    rw [← hd]
    exact scheduleState_createPeerConnection c data.userId
  · injection hd with hd
    rw [← hd]
    unfold handleWebRTCAnswer
    split <;> rfl
  · injection hd with hd
    rw [← hd]
    unfold handleICECandidate
    split <;> rfl
  · unfold handleRealTimeData at hd
    split_ifs at hd
    injection hd with hd
    rw [← hd]
  · unfold handleEdgeResponse at hd
    split_ifs at hd
    · injection hd with hd
      rw [← hd]
      rfl
    · injection hd with hd
      rw [← hd]
      rfl
    · injection hd with hd
      rw [← hd]
  · injection hd with hd
    rw [← hd]

theorem handleDataMessage_schedule (c c1 : FiveGIntegration) (data : ControlMessage)
    (startTime endTime : Int) (h : c.handleDataMessage data startTime endTime = .ok c1) :
    c1.latencyStats = pushLatency c.latencyStats (endTime - startTime) ∧
      c1.timers = c.timers ∧ c1.nextHandle = c.nextHandle := by
  unfold handleDataMessage at h
  cases hd : c.dispatchData data with
  | error e => rw [hd] at h; exact absurd h (by simp)
  | ok c2 =>
    rw [hd] at h
    injection h with h
    have hs := scheduleState_dispatchData c c2 data hd
    unfold scheduleState at hs
    simp only [Prod.mk.injEq] at hs
    rw [← h]
    exact ⟨by show pushLatency c2.latencyStats _ = _; rw [hs.1], hs.2.1, hs.2.2⟩

theorem latencyStats_init (c : FiveGIntegration) : c.init.latencyStats = c.latencyStats := by
  obtain ⟨vq, fr, h⟩ := init_frame c
  rw [h]

theorem latencyStats_of_scheduleState {c d : FiveGIntegration}
    (h : d.scheduleState = c.scheduleState) : d.latencyStats = c.latencyStats :=
  congrArg Prod.fst h

theorem latencyStats_runTimer (c : FiveGIntegration) (action : TimerAction) (now : Int) :
    (c.runTimer action now).latencyStats = c.latencyStats := by
  cases action with
  | measureLatency => exact latencyStats_of_scheduleState (scheduleState_sendData c _)
  | collectPerformanceMetrics => exact latencyStats_of_scheduleState (scheduleState_sendData c _)
  | sendCanvasData =>
    show (if c.hasCanvas then c.sendCanvasData now else c).latencyStats = _
    split
    · exact latencyStats_of_scheduleState (scheduleState_sendData c _)
    · rfl
  | reconnect =>
    show (if c.isConnected then c else c.init).latencyStats = _
    split
    · rfl
    · exact latencyStats_init c

theorem latencyStats_fireTimer (c : FiveGIntegration) (handle : Nat) (now : Int) :
    (c.fireTimer handle now).latencyStats = c.latencyStats := by
  unfold fireTimer
  split
  · split
    · exact latencyStats_runTimer c _ now
    · exact (latencyStats_runTimer _ _ now).trans rfl
  · rfl

theorem latencyStats_destroy (c : FiveGIntegration) : c.destroy.latencyStats = c.latencyStats := by
  unfold destroy
  simp only
  split <;> rfl

theorem latencyStats_step (c : FiveGIntegration) (op : SessionOp)
    (hop : ∀ data startTime endTime, op ≠ SessionOp.dataMessage data startTime endTime) :
    (c.step op).latencyStats = c.latencyStats := by
  cases op with
  | dataSocketOpen now => exact latencyStats_of_scheduleState ((scheduleState_sendData _ _).trans rfl)
  | dataSocketClose => rfl
  | dataSocketError => rfl
  | dataMessage data startTime endTime => exact absurd rfl (hop data startTime endTime)
  | mediaSocketOpen => rfl
  | mediaSocketClose => rfl
  | mediaMessage data =>
    show (match c.handleMediaMessage data with
      | .ok c1 => c1
      | .error _ => c).latencyStats = _
    unfold handleMediaMessage
    split_ifs <;> rfl
  | timer handle now => exact latencyStats_fireTimer c handle now
  | startVideoCall outcome =>
    exact latencyStats_of_scheduleState (scheduleState_startVideoCall c outcome)
  | startScreenShare captured => cases captured <;> rfl
  | startDataStream now =>
    show ((c.sendData (Outbound.data_stream_start now c.userId)).latencyStats) = _
    exact latencyStats_of_scheduleState (scheduleState_sendData c _)
  | dataChannelOpen r =>
    show (c.onDataChannelOpen r).latencyStats = _
    unfold onDataChannelOpen
    split <;> rfl
  | iceCandidate r =>
    show (c.onIceCandidate r).latencyStats = _
    unfold onIceCandidate
    split
    · exact latencyStats_of_scheduleState (scheduleState_sendData c _)
    · rfl
  | answerSet peer => exact latencyStats_of_scheduleState (scheduleState_sendData c _)
  | networkChange info =>
    show (match c.networkInfo with
      | some _ => ({ c with networkInfo := some info } : FiveGIntegration).updateNetworkInfo
      | none => c).latencyStats = _
    split
    · exact latencyStats_of_scheduleState ((scheduleState_updateNetworkInfo _).trans rfl)
    · rfl
  | destroy => exact latencyStats_destroy c

/-- C24: `measureLatency` is one `sendData` of a ping and leaves
`latencyStats` as it is; no event other than an inbound data message changes
`latencyStats`; `handleDataMessage`, whenever it does not raise, pushes
exactly one sample, the clock reading after the dispatch minus the one before
(the window then ends with it, and below 100 entries it is the old window with
the sample appended); when it raises, no sample is added. -/
theorem latency_sample_per_handled_message :
    (∀ (c : FiveGIntegration) (now : Int),
      c.measureLatency now = c.sendData (Outbound.ping now c.userId) ∧
      (c.measureLatency now).latencyStats = c.latencyStats ∧
      (c.measureLatency now).connectionQuality = c.connectionQuality) ∧
    (∀ (c : FiveGIntegration) (op : SessionOp),
      (∀ data startTime endTime, op ≠ SessionOp.dataMessage data startTime endTime) →
      (c.step op).latencyStats = c.latencyStats) ∧
    (∀ (c c1 : FiveGIntegration) (data : ControlMessage) (startTime endTime : Int),
      c.handleDataMessage data startTime endTime = .ok c1 →
      c1.latencyStats = pushLatency c.latencyStats (endTime - startTime) ∧
      c1.latencyStats.getLast? = some (endTime - startTime) ∧
      (c.latencyStats.length < 100 →
        c1.latencyStats = c.latencyStats ++ [endTime - startTime])) ∧
    (∀ (c : FiveGIntegration) (data : ControlMessage) (startTime endTime : Int) (e : String),
      c.handleDataMessage data startTime endTime = .error e →
      (c.step (SessionOp.dataMessage data startTime endTime)).latencyStats =
        c.latencyStats) := by
  refine ⟨?_, latencyStats_step, ?_, ?_⟩
  · intro c now
    refine ⟨rfl, ?_, ?_⟩
    · exact latencyStats_of_scheduleState (scheduleState_sendData c _)
    · unfold measureLatency sendData
      split <;> rfl
  · intro c c1 data startTime endTime h
    obtain ⟨h1, _, _⟩ := handleDataMessage_schedule c c1 data startTime endTime h
    refine ⟨h1, ?_, ?_⟩
    · rw [h1]
      unfold pushLatency
      simp only
      split
      · cases hl : c.latencyStats with
        | nil =>
          rename_i hlen
          rw [hl] at hlen
          simp at hlen
        | cons a w =>
          show (w ++ [endTime - startTime]).getLast? = _
          simp
      · simp
    · intro hlen
      rw [h1]
      unfold pushLatency
      simp only
      rw [if_neg (by simp; omega)]
  · intro c data startTime endTime e h
    show (match c.handleDataMessage data startTime endTime with
      | .ok c1 => c1
      | .error _ => c).latencyStats = _
    rw [h]

/-- C24 at a fresh controller: the unknown message handled between clock
readings 1000 and 1007 leaves the window `[7]`; the 1-second probe (handle 1)
firing leaves the window empty. -/
theorem latency_sample_per_handled_message_witness :
    (∃ c1, freshSession.handleDataMessage unknownMessage 1000 1007 = .ok c1 ∧
      c1.latencyStats = [7]) ∧
    (freshSession.step (SessionOp.timer 1 1700000001000)).latencyStats = [] :=
  ⟨⟨freshSession.updateLatencyStats (1007 - 1000), rfl,
      (latency_sample_per_handled_message.2.2.1 freshSession
        (freshSession.updateLatencyStats (1007 - 1000)) unknownMessage 1000 1007
        rfl).1.trans (by decide)⟩,
    (latency_sample_per_handled_message.2.1 freshSession (SessionOp.timer 1 1700000001000)
      (fun _ _ _ h => SessionOp.noConfusion h)).trans (by decide)⟩

theorem TimerInv.congr {c d : FiveGIntegration} (h : TimerInv c)
    (ht : d.timers = c.timers) (hn : d.nextHandle = c.nextHandle) : TimerInv d := by
  unfold TimerInv at *
  rw [ht, hn]
  exact h

theorem TimerInv.sameSchedule {c d : FiveGIntegration} (h : TimerInv c)
    (he : d.scheduleState = c.scheduleState) : TimerInv d := by
  unfold scheduleState at he
  simp only [Prod.mk.injEq] at he
  exact h.congr he.2.1 he.2.2

theorem TimerInv.scheduled {c d : FiveGIntegration} (h : TimerInv c) (t : Timer)
    (hh : t.handle = c.nextHandle) (ht : d.timers = c.timers ++ [t])
    (hn : d.nextHandle = c.nextHandle + 1) : TimerInv d := by
  unfold TimerInv at *
  rw [ht, hn]
  intro u hu
  rcases List.mem_append.mp hu with hu | hu
  · exact Nat.lt_succ_of_lt (h u hu)
  · rw [List.mem_singleton.mp hu, hh]
    exact Nat.lt_succ_self _

theorem TimerInv.cleared {c d : FiveGIntegration} (h : TimerInv c) (p : Timer → Bool)
    (ht : d.timers = c.timers.filter p) (hn : d.nextHandle = c.nextHandle) : TimerInv d := by
  unfold TimerInv at *
  rw [ht, hn]
  intro u hu
  exact h u (List.mem_filter.mp hu).1

theorem TimerInv.ofInit {c : FiveGIntegration} (h : TimerInv c) : TimerInv c.init := by
  obtain ⟨vq, fr, he⟩ := init_frame c
  rw [he]
  have h1 : TimerInv ({ c with
      timers := c.timers ++
        [{ handle := c.nextHandle, repeating := true, delay := 1000,
           action := TimerAction.measureLatency }]
      nextHandle := c.nextHandle + 1 } : FiveGIntegration) :=
    h.scheduled _ rfl rfl rfl
  refine h1.scheduled
    { handle := c.nextHandle + 1, repeating := true, delay := 5000,
      action := TimerAction.collectPerformanceMetrics } rfl ?_ rfl
  show c.timers ++ [_, _] = c.timers ++ [_] ++ [_]
  simp

theorem TimerInv.ofRunTimer {c : FiveGIntegration} (h : TimerInv c) (action : TimerAction)
    (now : Int) : TimerInv (c.runTimer action now) := by
  cases action with
  | measureLatency => exact h.sameSchedule (scheduleState_sendData c _)
  | collectPerformanceMetrics => exact h.sameSchedule (scheduleState_sendData c _)
  | sendCanvasData =>
    show TimerInv (if c.hasCanvas then c.sendCanvasData now else c)
    split
    · exact h.sameSchedule (scheduleState_sendData c _)
    · exact h
  | reconnect =>
    show TimerInv (if c.isConnected then c else c.init)
    split
    · exact h
    · exact h.ofInit

theorem TimerInv.ofFireTimer {c : FiveGIntegration} (h : TimerInv c) (handle : Nat)
    (now : Int) : TimerInv (c.fireTimer handle now) := by
  unfold fireTimer
  split
  · split
    · exact h.ofRunTimer _ now
    · have h1 : TimerInv ({ c with
          timers := c.timers.filter (fun u => u.handle ≠ handle) } : FiveGIntegration) :=
        h.cleared _ rfl rfl
      exact h1.ofRunTimer _ now
  · exact h

theorem TimerInv.ofDestroy {c : FiveGIntegration} (h : TimerInv c) : TimerInv c.destroy := by
  unfold FiveGIntegration.destroy
  simp only
  split
  · rename_i handle _
    exact h.cleared (fun t => t.handle ≠ handle) rfl rfl
  · exact h.congr rfl rfl

theorem TimerInv.ofStep {c : FiveGIntegration} (h : TimerInv c) (op : SessionOp) :
    TimerInv (c.step op) := by
  cases op with
  | dataSocketOpen now => exact h.sameSchedule ((scheduleState_sendData _ _).trans rfl)
  | dataSocketClose =>
    exact h.scheduled
      { handle := c.nextHandle, repeating := false, delay := 3000,
        action := TimerAction.reconnect } rfl rfl rfl
  | dataSocketError => exact h.congr rfl rfl
  | dataMessage data startTime endTime =>
    show TimerInv (match c.handleDataMessage data startTime endTime with
      | .ok c1 => c1
      | .error _ => c)
    cases hd : c.handleDataMessage data startTime endTime with
    | error e => exact h
    | ok c1 =>
      obtain ⟨_, h2, h3⟩ := handleDataMessage_schedule c c1 data startTime endTime hd
      exact h.congr h2 h3
  | mediaSocketOpen => exact h.congr rfl rfl
  | mediaSocketClose => exact h.congr rfl rfl
  | mediaMessage data =>
    show TimerInv (match c.handleMediaMessage data with
      | .ok c1 => c1
      | .error _ => c)
    unfold handleMediaMessage
    split_ifs <;> exact h
  | timer handle now => exact h.ofFireTimer handle now
  | startVideoCall outcome => exact h.sameSchedule (scheduleState_startVideoCall c outcome)
  | startScreenShare captured => cases captured <;> exact h.congr rfl rfl
  | startDataStream now =>
    have h1 : TimerInv (c.sendData (Outbound.data_stream_start now c.userId)) :=
      h.sameSchedule (scheduleState_sendData c _)
    exact h1.scheduled
      { handle := (c.sendData (Outbound.data_stream_start now c.userId)).nextHandle,
        repeating := true, delay := 16, action := TimerAction.sendCanvasData } rfl rfl rfl
  | dataChannelOpen r =>
    show TimerInv (c.onDataChannelOpen r)
    unfold onDataChannelOpen
    split
    · exact h.congr rfl rfl
    · exact h
  | iceCandidate r =>
    show TimerInv (c.onIceCandidate r)
    unfold onIceCandidate
    split
    · exact h.sameSchedule (scheduleState_sendData c _)
    · exact h
  | answerSet peer => exact h.sameSchedule (scheduleState_sendData c _)
  | networkChange info =>
    show TimerInv (match c.networkInfo with
      | some _ => ({ c with networkInfo := some info } : FiveGIntegration).updateNetworkInfo
      | none => c)
    split
    · exact h.sameSchedule ((scheduleState_updateNetworkInfo _).trans rfl)
    · exact h
  | destroy => exact h.ofDestroy

theorem TimerInv.ofRun (ops : List SessionOp) {c : FiveGIntegration} (h : TimerInv c) :
    TimerInv (c.run ops) := by
  induction ops generalizing c with
  | nil => exact h
  | cons op ops ih => exact ih (h.ofStep op)

theorem TimerInv.ofReachable {c : FiveGIntegration} (h : Reachable c) : TimerInv c := by
  obtain ⟨sessionId, user, networkSlicing, edgeComputing, massiveIoT, networkInfo, webrtc,
    mediaDevices, hasCanvas, ops, rfl⟩ := h
  refine TimerInv.ofRun ops (TimerInv.ofInit ?_)
  intro t ht
  exact absurd ht (List.not_mem_nil t)

theorem destroy_schedule (c : FiveGIntegration) :
    c.destroy.nextHandle = c.nextHandle ∧ c.destroy.isConnected = c.isConnected ∧
      c.destroy.dataSocket = closeSocket c.dataSocket ∧
      c.destroy.mediaSocket = closeSocket c.mediaSocket := by
  unfold FiveGIntegration.destroy
  simp only
  split <;> exact ⟨rfl, rfl, rfl, rfl⟩

theorem find_appended_timer (l : List Timer) (t : Timer)
    (hl : ∀ u ∈ l, u.handle < t.handle) :
    (l ++ [t]).find? (fun u => u.handle = t.handle) = some t ∧
      (l ++ [t]).filter (fun u => u.handle ≠ t.handle) = l := by
  constructor
  · rw [List.find?_append]
    have hnone : l.find? (fun u => decide (u.handle = t.handle)) = none := by
      rw [List.find?_eq_none]
      intro u hu
      have := hl u hu
      simp only [decide_eq_true_eq]
      omega
    rw [hnone]
    simp
  · rw [List.filter_append]
    have hall : l.filter (fun u => decide (u.handle ≠ t.handle)) = l := by
      rw [List.filter_eq_self]
      intro u hu
      have := hl u hu
      simp only [decide_eq_true_eq]
      omega
    rw [hall]
    simp

/-- C29: teardown is followed by a new start. On a reachable controller whose
data socket is open or connecting, `destroy()` leaves the socket closing; its
close handler then sets `isConnected` to false and schedules the 3000 ms
reconnect under the next free handle; when that timer fires, the callback
finds `isConnected` false and runs `init()`: both sockets are new and
connecting, and a new 1000 ms and a new 5000 ms interval are scheduled after
the timers `destroy()` left. -/
theorem teardown_is_followed_by_init (c : FiveGIntegration) (h : Reachable c)
    (hsock : c.dataSocket = some ReadyState.OPEN ∨ c.dataSocket = some ReadyState.CONNECTING)
    (now : Int) :
    c.destroy.dataSocket = some ReadyState.CLOSING ∧
    (c.run [.destroy, .dataSocketClose]).isConnected = false ∧
    (c.run [.destroy, .dataSocketClose]).dataSocket = some ReadyState.CLOSED ∧
    (c.run [.destroy, .dataSocketClose]).timers =
      c.destroy.timers ++
        [{ handle := c.nextHandle, repeating := false, delay := 3000,
           action := TimerAction.reconnect }] ∧
    (c.run [.destroy, .dataSocketClose, .timer c.nextHandle now]).isConnected = false ∧
    (c.run [.destroy, .dataSocketClose, .timer c.nextHandle now]).dataSocket =
      some ReadyState.CONNECTING ∧
    (c.run [.destroy, .dataSocketClose, .timer c.nextHandle now]).mediaSocket =
      some ReadyState.CONNECTING ∧
    (c.run [.destroy, .dataSocketClose, .timer c.nextHandle now]).timers =
      c.destroy.timers ++
        [{ handle := c.nextHandle + 1, repeating := true, delay := 1000,
           action := TimerAction.measureLatency },
         { handle := c.nextHandle + 1 + 1, repeating := true, delay := 5000,
           action := TimerAction.collectPerformanceMetrics }] := by
  have hinv : TimerInv c.destroy := (TimerInv.ofReachable h).ofDestroy
  obtain ⟨hn, _, hds, _⟩ := destroy_schedule c
  have hclosing : c.destroy.dataSocket = some ReadyState.CLOSING := by
    rw [hds]
    rcases hsock with hs | hs <;> rw [hs] <;> rfl
  have hclose : c.run [.destroy, .dataSocketClose] =
      { c.destroy with
        dataSocket := some ReadyState.CLOSED
        isConnected := false
        timers := c.destroy.timers ++
          [{ handle := c.nextHandle, repeating := false, delay := 3000,
             action := TimerAction.reconnect }]
        nextHandle := c.nextHandle + 1 } := by
    show c.destroy.onDataSocketClose = _
    unfold onDataSocketClose attemptReconnection setTimeout
    simp only [hn]
  obtain ⟨hfind, hfilter⟩ := find_appended_timer c.destroy.timers
    { handle := c.nextHandle, repeating := false, delay := 3000,
      action := TimerAction.reconnect }
    (fun u hu => by
      have := hinv u hu
      rw [hn] at this
      exact this)
  have hfire : c.run [.destroy, .dataSocketClose, .timer c.nextHandle now] =
      FiveGIntegration.init
        { c.destroy with
          dataSocket := some ReadyState.CLOSED
          isConnected := false
          nextHandle := c.nextHandle + 1 } := by
    show (c.run [.destroy, .dataSocketClose]).fireTimer c.nextHandle now = _
    rw [hclose]
    unfold fireTimer
    simp only
    rw [hfind]
    simp only [Bool.false_eq_true, if_false]
    rw [hfilter]
    rfl
  obtain ⟨vq, fr, hinit⟩ := init_frame
    ({ c.destroy with
        dataSocket := some ReadyState.CLOSED
        isConnected := false
        nextHandle := c.nextHandle + 1 } : FiveGIntegration)
  refine ⟨hclosing, ?_, ?_, ?_, ?_, ?_, ?_, ?_⟩
  · rw [hclose]
  · rw [hclose]
  · rw [hclose]
  · rw [hfire, hinit]
  · rw [hfire, hinit]
  · rw [hfire, hinit]
  · rw [hfire, hinit]

/-- C29 at the controller with its data socket open, whose next free handle is
3: after `destroy()`, the close event and the timer of handle 3, the data
socket is connecting again and the schedule holds two 1000 ms and two 5000 ms
intervals. -/
theorem teardown_is_followed_by_init_witness :
    Reachable connectedSession ∧ connectedSession.dataSocket = some ReadyState.OPEN ∧
    connectedSession.nextHandle = 3 ∧
    connectedSession.destroy.dataSocket = some ReadyState.CLOSING ∧
    (connectedSession.run [.destroy, .dataSocketClose]).isConnected = false ∧
    (connectedSession.run
      [.destroy, .dataSocketClose, .timer 3 1700000003000]).dataSocket =
        some ReadyState.CONNECTING ∧
    (connectedSession.run
      [.destroy, .dataSocketClose, .timer 3 1700000003000]).timers =
        [{ handle := 1, repeating := true, delay := 1000, action := TimerAction.measureLatency },
         { handle := 2, repeating := true, delay := 5000,
           action := TimerAction.collectPerformanceMetrics },
         { handle := 4, repeating := true, delay := 1000, action := TimerAction.measureLatency },
         { handle := 5, repeating := true, delay := 5000,
           action := TimerAction.collectPerformanceMetrics }] :=
  have hreach : Reachable connectedSession :=
    ⟨some "s1", some "local", false, false, false, none, true, true, true,
      [.dataSocketOpen 1700000000000], rfl⟩
  have h := teardown_is_followed_by_init connectedSession hreach (Or.inl (by decide))
    1700000003000
  ⟨hreach, by decide, by decide, h.1, h.2.1, h.2.2.2.2.2.1, h.2.2.2.2.2.2.2.trans (by decide)⟩

/-- C26: `handleWebRTCAnswer` and `handleICECandidate` hand their payload to
the connection the `peerConnections` map holds under `data.userId` when it
holds one; otherwise to the primary connection when there is one; and when
there is neither they leave the controller as it is, and the dispatch of a
`webrtc_answer` or `ice_candidate` message does not raise. In each case
nothing but the record of applied payloads changes. -/
theorem answer_and_candidate_target (c : FiveGIntegration) (data : ControlMessage) :
    (∀ s r, data.userId = some s → mapGet c.peerConnections s = some r →
      c.handleWebRTCAnswer data = { c with applied := c.applied ++ [Applied.answer r] } ∧
      c.handleICECandidate data = { c with applied := c.applied ++ [Applied.candidate r] }) ∧
    ((∀ s, data.userId = some s → mapGet c.peerConnections s = none) →
      ∀ p, c.peerConnection = some p →
      c.handleWebRTCAnswer data = { c with applied := c.applied ++ [Applied.answer p] } ∧
      c.handleICECandidate data = { c with applied := c.applied ++ [Applied.candidate p] }) ∧
    ((∀ s, data.userId = some s → mapGet c.peerConnections s = none) →
      c.peerConnection = none →
      c.handleWebRTCAnswer data = c ∧ c.handleICECandidate data = c) ∧
    (data.type = "webrtc_answer" → c.dispatchData data = .ok (c.handleWebRTCAnswer data)) ∧
    (data.type = "ice_candidate" → c.dispatchData data = .ok (c.handleICECandidate data)) := by
  refine ⟨?_, ?_, ?_, ?_, ?_⟩
  · intro s r hs hr
    have ht : c.targetConnection data = some r := by
      unfold targetConnection
      rw [hs]
      simp only
      rw [hr]
    unfold handleWebRTCAnswer handleICECandidate
    rw [ht]
    exact ⟨rfl, rfl⟩
  · intro hnone p hp
    have ht : c.targetConnection data = some p := by
      unfold targetConnection
      cases hu : data.userId with
      | none => exact hp
      | some s =>
        simp only
        rw [hnone s hu]
        exact hp
    unfold handleWebRTCAnswer handleICECandidate
    rw [ht]
    exact ⟨rfl, rfl⟩
  · intro hnone hp
    have ht : c.targetConnection data = none := by
      unfold targetConnection
      cases hu : data.userId with
      | none => exact hp
      | some s =>
        simp only
        rw [hnone s hu]
        exact hp
    unfold handleWebRTCAnswer handleICECandidate
    rw [ht]
    exact ⟨rfl, rfl⟩
  · intro h
    unfold dispatchData
    rw [h]
    rfl
  · intro h
    unfold dispatchData
    rw [h]
    rfl

/-- C26 at the controller holding the primary connection (reference 0) and
the connection of `peer1` (reference 1): the answer of `peer1` goes to
reference 1, the candidate of an unknown peer to the primary connection, and
on a fresh controller, which has no connection, the candidate changes
nothing. -/
theorem answer_and_candidate_target_witness :
    sessionWithPeers.peerConnections = [("peer1", 1)] ∧
    sessionWithPeers.peerConnection = some 0 ∧
    (sessionWithPeers.handleWebRTCAnswer answerFromPeer1).applied = [Applied.answer 1] ∧
    (sessionWithPeers.handleICECandidate candidateFromStranger).applied =
      [Applied.candidate 0] ∧
    freshSession.handleICECandidate candidateFromStranger = freshSession ∧
    freshSession.dispatchData candidateFromStranger =
      .ok (freshSession.handleICECandidate candidateFromStranger) :=
  ⟨by decide, by decide,
    (congrArg FiveGIntegration.applied
      ((answer_and_candidate_target sessionWithPeers answerFromPeer1).1 "peer1" 1
        (by decide) (by decide)).1).trans (by decide),
    (congrArg FiveGIntegration.applied
      (((answer_and_candidate_target sessionWithPeers candidateFromStranger).2.1
        (fun s hs => by
          have hs2 : s = "peer9" := (Option.some.inj hs).symm
          rw [hs2]
          decide)) 0 (by decide)).2).trans (by decide),
    (((answer_and_candidate_target freshSession candidateFromStranger).2.2.1
      (fun s hs => by
        have hs2 : s = "peer9" := (Option.some.inj hs).symm
        rw [hs2]
        decide)) (by decide)).2,
    (answer_and_candidate_target freshSession candidateFromStranger).2.2.2.2 (by decide)⟩

/-- C27, the code at the failing input: inside its `try`, right after the
capture, `startScreenShare` calls `addScreenStream`, which the class does not
define; the call raises, so the `screen_share` message is never sent and the
notice shown is the failure notice. With the data socket open and the capture
succeeding, nothing is sent and `Failed to start screen sharing` is shown; for
every controller and either outcome of the capture the sent messages and the
connections are as before and that one notice is added. -/
theorem startScreenShare_success_reports_failure :
    connectedSession.dataSocket = some ReadyState.OPEN ∧
    (connectedSession.startScreenShare true).sent = connectedSession.sent ∧
    (connectedSession.startScreenShare true).notifications =
      [{ message := "Failed to start screen sharing", type := "error" }] ∧
    (∀ (c : FiveGIntegration) (captured : Bool),
      (c.startScreenShare captured).sent = c.sent ∧
      (c.startScreenShare captured).notifications =
        c.notifications ++ [{ message := "Failed to start screen sharing", type := "error" }] ∧
      (∀ n : Notice, n ∈ (c.startScreenShare captured).notifications →
        n.message = "Screen sharing started" → n ∈ c.notifications) ∧
      (c.startScreenShare captured).connections = c.connections ∧
      (c.startScreenShare captured).captureRequests =
        c.captureRequests ++
          [{ kind := "display", width := 1920, height := 1080, frameRate := 60 }]) := by
  refine ⟨by decide, by decide, by decide, ?_⟩
  intro c captured
  have hn : (c.startScreenShare captured).notifications =
      c.notifications ++ [{ message := "Failed to start screen sharing", type := "error" }] := by
    cases captured <;> rfl
  refine ⟨by cases captured <;> rfl, hn, ?_, by cases captured <;> rfl,
    by cases captured <;> rfl⟩
  intro n hmem hmsg
  rw [hn] at hmem
  rcases List.mem_append.mp hmem with hm | hm
  · exact hm
  · rw [List.mem_singleton.mp hm] at hmsg
    exact absurd hmsg (by decide)

end FiveGIntegration
